import Mathlib

/-!
Verification development for the `amazon.aws` modules `ec2_eip.py` and
`lambda_layer_info.py`.

The Python modules are shallowly embedded: every module-level function of
`ec2_eip.py` (`find_address`, `allocate_address`, `associate_ip_and_device`,
`disassociate_ip_and_device`, `release_ip_address`, `find_device`,
`ensure_present`, `ensure_absent`, `allocate_address_from_pool`,
`generate_tag_dict`, `check_is_instance`, `main`) becomes a Lean definition
over an explicit cloud state.  Effects are threaded through the state monad
`EipM`: the state carries the modelled EC2 cloud plus a log of issued API
calls, and the outcome distinguishes normal returns, `module.exit_json`,
`module.fail_json`, and unhandled Python exceptions (`TypeError`/`KeyError`),
which terminate the invocation.  External collaborators that live outside the
repository sources (the `module_utils.ec2` wrappers over the AWS API and the
tag-reconciliation helper) are modelled from the specification, as marked on
their doc comments.
-/

namespace Ec2Eip

/-- Representation of an AWS Elastic IP address as returned by
`DescribeAddresses`.  Optional fields model dictionary keys that may be
absent from the API response (`none` = key absent); `PublicIp` and `Domain`
are always present. -/
structure Address where
  publicIp : String
  allocationId : Option String
  domain : String
  associationId : Option String
  instanceId : Option String
  networkInterfaceId : Option String
  tags : List (String × String)
deriving Repr, DecidableEq

/-- An EC2 instance, as far as the module reads it: its id and the
(possibly absent) `VpcId` field. -/
structure Ec2Instance where
  instanceId : String
  vpcId : Option String
deriving Repr, DecidableEq

/-- An elastic network interface; only its id is ever read. -/
structure Eni where
  networkInterfaceId : String
deriving Repr, DecidableEq

/-- Modelled cloud state: the durable state held by the external AWS API.
`fresh` is a counter used to mint fresh public IPs, allocation ids and
association ids for allocations performed during a run. -/
structure Cloud where
  addresses : List Address
  instances : List Ec2Instance
  enis : List Eni
  fresh : Nat
deriving Repr, DecidableEq

/-- Fresh public IP minted by the modelled `AllocateAddress`. -/
def freshIp (n : Nat) : String := "198.51.100." ++ toString n

/-- Fresh allocation id minted by the modelled `AllocateAddress`. -/
def freshAllocId (n : Nat) : String := "eipalloc-fresh-" ++ toString n

/-- Fresh association id minted by the modelled `AssociateAddress`. -/
def freshAssocId (n : Nat) : String := "eipassoc-fresh-" ++ toString n

/-- The AWS API operations the module can issue, as recorded in the call
log.  The first three are read-only describe queries; the last four mutate
cloud state. -/
inductive ApiCall where
  | describeAddresses
  | describeInstances
  | describeNetworkInterfaces
  | allocateAddress
  | associateAddress
  | disassociateAddress
  | releaseAddress
deriving Repr, DecidableEq

/-- Whether an API call mutates cloud state (allocate / associate /
disassociate / release, as opposed to the read-only describe calls). -/
def ApiCall.isMutation : ApiCall → Bool
  | .allocateAddress => true
  | .associateAddress => true
  | .disassociateAddress => true
  | .releaseAddress => true
  | _ => false

/-- The structured result passed to `module.exit_json`.  Optional fields
model keys that a given exit site does not include. -/
structure ModuleResult where
  changed : Bool
  publicIp : Option String := none
  allocationId : Option String := none
  disassociated : Option Bool := none
  released : Option Bool := none
deriving Repr, DecidableEq

/-- Outcome of a (partial) run of the module: a normal return value, a
terminating `module.exit_json`, a terminating `module.fail_json`, or an
unhandled Python exception. -/
inductive Outcome (α : Type) where
  | ok (a : α)
  | exited (r : ModuleResult)
  | failed (msg : String)
  | crashed (msg : String)
deriving Repr, DecidableEq

/-- Run state: the modelled cloud plus the log of API calls issued so far. -/
structure St where
  cloud : Cloud
  log : List ApiCall
deriving Repr, DecidableEq

/-- The effect monad of the embedding: state passing over `St` with
early termination through `Outcome`. -/
def EipM (α : Type) : Type := St → Outcome α × St

/-- Monadic return for `EipM`. -/
def EipM.pure {α : Type} (a : α) : EipM α := fun s => (.ok a, s)

/-- Monadic bind for `EipM`: `exit_json`, `fail_json` and unhandled
exceptions all short-circuit the rest of the computation. -/
def EipM.bind {α β : Type} (m : EipM α) (f : α → EipM β) : EipM β := fun s =>
  match m s with
  | (.ok a, s') => f a s'
  | (.exited r, s') => (.exited r, s')
  | (.failed e, s') => (.failed e, s')
  | (.crashed e, s') => (.crashed e, s')

instance : Monad EipM where
  pure := EipM.pure
  bind := EipM.bind

/-- Append an API call to the log. -/
def logCall (c : ApiCall) : EipM Unit := fun s => (.ok (), { s with log := s.log ++ [c] })

/-- Read the current cloud state. -/
def getCloud : EipM Cloud := fun s => (.ok s.cloud, s)

/-- Replace the cloud state. -/
def setCloud (c : Cloud) : EipM Unit := fun s => (.ok (), { s with cloud := c })

/-- Model of `module.exit_json`: terminates the invocation successfully. -/
def exitJson {α : Type} (r : ModuleResult) : EipM α := fun s => (.exited r, s)

/-- Model of `module.fail_json` / `module.fail_json_aws`: terminates the
invocation with a failure message. -/
def failJson {α : Type} (msg : String) : EipM α := fun s => (.failed msg, s)

/-- An unhandled Python exception (`TypeError`, `KeyError`). -/
def pyCrash {α : Type} (msg : String) : EipM α := fun s => (.crashed msg, s)

/-- Whether the first list is a prefix of the second. -/
def listHasPrefix : List Char → List Char → Bool
  | [], _ => true
  | _ :: _, [] => false
  | p :: ps, c :: cs => p == c && listHasPrefix ps cs

/-- Model of Python `str.startswith(pre)` (and of Lean `String.startsWith`),
stated over the character list of the string. -/
def pyStartsWith (s pre : String) : Bool := listHasPrefix pre.toList s.toList

/-- Python truthiness of an optional string: `None` and the empty string
are falsy. -/
def pyTruthyStr : Option String → Bool
  | none => false
  | some s => !s.toList.isEmpty

/-- Python truthiness of an optional dict (an address): only `None` is
falsy, since address dicts from the API are never empty. -/
def pyTruthyAddr (a : Option Address) : Bool := a.isSome

/-- Python truthiness of an optional tag dict: `None` and `\x7b\x7d` are falsy. -/
def pyTruthyTags : Option (List (String × String)) → Bool
  | none => false
  | some t => !t.isEmpty

/-- Model of `(address or \x7b\x7d).get("PublicIp")`. -/
def optPublicIp (a : Option Address) : Option String := a.map (·.publicIp)

/-- Model of `(address or \x7b\x7d).get("AllocationId")`. -/
def optAllocationId (a : Option Address) : Option String := a.bind (·.allocationId)

/-- Model of `(address or \x7b\x7d).get("Domain")`. -/
def optDomain (a : Option Address) : Option String := a.map (·.domain)

/-- Model of `(address or \x7b\x7d).get("AssociationId")`. -/
def optAssociationId (a : Option Address) : Option String := a.bind (·.associationId)

/-- A filter of a `DescribeAddresses` query, after
`ansible_dict_to_boto3_filter_list` conversion. -/
inductive EipFilter where
  | instanceId (s : String)
  | networkInterfaceId (s : String)
  | domain (d : String)
  | tagKey (k : String)
  | tagNamed (filterName : String) (value : String)
deriving Repr, DecidableEq

/-- Whether one address satisfies one describe filter. -/
def matchesFilter (a : Address) : EipFilter → Bool
  | .instanceId s => a.instanceId == some s
  | .networkInterfaceId s => a.networkInterfaceId == some s
  | .domain d => a.domain == d
  | .tagKey k => a.tags.any (fun t => t.1 == k)
  | .tagNamed fn v => a.tags.any (fun t => ("tag:" ++ t.1 == fn) && t.2 == v)

/-- Arguments of a `DescribeAddresses` call (`PublicIps` and/or `Filters`). -/
structure DescribeArgs where
  publicIps : Option (List String) := none
  filters : List EipFilter := []
deriving Repr, DecidableEq

/-- The pure query semantics of `DescribeAddresses` over a cloud state:
the addresses matching the requested IPs and all filters, in cloud
(API response) order. -/
def describeQuery (c : Cloud) (args : DescribeArgs) : List Address :=
  c.addresses.filter (fun a =>
    (match args.publicIps with
      | none => true
      | some ips => ips.contains a.publicIp)
    && args.filters.all (matchesFilter a))

/-- Modelled from the spec: the external `module_utils.ec2.describe_addresses`
wrapper (spec section 6, `describe_addresses(filters|ips)`), not part of the
sources under verification.  It is a pure read returning the matching
addresses; a query matching nothing returns the empty list. -/
def describe_addresses (args : DescribeArgs) : EipM (List Address) := do
  logCall .describeAddresses
  let c ← getCloud
  pure (describeQuery c args)

/-- Modelled from the spec: the external `module_utils.ec2.allocate_address`
wrapper (imported as `allocate_ip_address`; spec section 6,
`allocate_address(domain, pool?, tagSpecs?)`), not part of the sources under
verification.  It creates a fresh, unassociated address in the requested
domain carrying the requested creation-time tags.  Per the spec's data-model
invariant (section 3), only `vpc`-domain addresses carry an `AllocationId`;
a `standard`-domain allocation response has no such key. -/
def allocate_ip_address (domain : Option String) (pool : Option String)
    (tags : List (String × String)) : EipM Address := do
  logCall .allocateAddress
  let c ← getCloud
  let n := c.fresh
  let a : Address :=
    { publicIp := freshIp n
      allocationId := if domain.getD "vpc" == "vpc" then some (freshAllocId n) else none
      domain := domain.getD "vpc"
      associationId := none
      instanceId := none
      networkInterfaceId := none
      tags := tags }
  setCloud { c with addresses := c.addresses ++ [a], fresh := n + 1 }
  pure (let _ := pool; a)

/-- Whether an address currently carries any association marker. -/
def addrAssociated (a : Address) : Bool :=
  pyTruthyStr a.associationId || pyTruthyStr a.instanceId || pyTruthyStr a.networkInterfaceId

/-- Arguments of an `AssociateAddress` call as built by
`associate_ip_and_device`. -/
structure AssociateArgs where
  instanceId : Option String := none
  networkInterfaceId : Option String := none
  allocationId : Option String := none
  publicIp : Option String := none
  allowReassociation : Bool := false
  privateIpAddress : Option String := none
deriving Repr, DecidableEq

/-- Which addresses an `AssociateAddress` call targets: by allocation id
when given, else by public IP. -/
def associateTargets (args : AssociateArgs) (a : Address) : Bool :=
  match args.allocationId with
  | some aid => a.allocationId == some aid
  | none =>
    match args.publicIp with
    | some ip => a.publicIp == ip
    | none => false

/-- The field update applied by a successful `AssociateAddress`. -/
def associateUpdate (args : AssociateArgs) (n : Nat) (a : Address) : Address :=
  match args.instanceId with
  | some d => { a with instanceId := some d, networkInterfaceId := none,
                       associationId := some (freshAssocId n) }
  | none =>
    match args.networkInterfaceId with
    | some d => { a with networkInterfaceId := some d, instanceId := none,
                         associationId := some (freshAssocId n) }
    | none => a

/-- Modelled from the spec: the external `module_utils.ec2.associate_address`
wrapper (spec section 6, `associate_address(...)`), not part of the sources
under verification.  It fails with a typed cloud-API error (`.error`) when no
address matches the given allocation id / public IP, or when the target is
already associated and reassociation was not allowed; otherwise it binds the
address to the requested device and reports a truthy result. -/
def associate_address (args : AssociateArgs) : EipM (Except Unit Bool) := do
  logCall .associateAddress
  let c ← getCloud
  match c.addresses.find? (associateTargets args) with
  | none => pure (.error ())
  | some t =>
    if addrAssociated t && !args.allowReassociation then
      pure (.error ())
    else do
      let n := c.fresh
      setCloud { c with
        addresses := c.addresses.map (fun a =>
          if associateTargets args a then associateUpdate args n a else a)
        fresh := n + 1 }
      pure (.ok true)

/-- Which addresses a `DisassociateAddress` call targets: by association id
when given, else by (deprecated) public IP. -/
def disassociateTargets (associationId : Option String) (publicIp : Option String)
    (a : Address) : Bool :=
  match associationId with
  | some aid => a.associationId == some aid
  | none =>
    match publicIp with
    | some ip => a.publicIp == ip
    | none => false

/-- Modelled from the spec: the external
`module_utils.ec2.disassociate_address` wrapper (spec section 6,
`disassociate_address(associationId|publicIp)`), not part of the sources
under verification.  It fails with a typed cloud-API error when no address
matches; otherwise it clears the association fields of the target. -/
def disassociate_address (associationId : Option String) (publicIp : Option String) :
    EipM (Except Unit Unit) := do
  logCall .disassociateAddress
  let c ← getCloud
  if c.addresses.any (disassociateTargets associationId publicIp) then do
    setCloud { c with addresses := c.addresses.map (fun a =>
      if disassociateTargets associationId publicIp a then
        { a with associationId := none, instanceId := none, networkInterfaceId := none }
      else a) }
    pure (.ok ())
  else
    pure (.error ())

/-- Modelled from the spec: the external `module_utils.ec2.release_address`
wrapper (spec section 6, `release_address(allocationId)`), not part of the
sources under verification.  It fails with a typed cloud-API error when no
address carries the allocation id or the address is still associated
(AWS refuses to release an address in use); otherwise it removes the
address and reports `true`. -/
def release_address (allocationId : String) : EipM (Except Unit Bool) := do
  logCall .releaseAddress
  let c ← getCloud
  match c.addresses.find? (fun a => a.allocationId == some allocationId) with
  | none => pure (.error ())
  | some t =>
    if addrAssociated t then
      pure (.error ())
    else do
      setCloud { c with addresses :=
        c.addresses.filter (fun a => !(a.allocationId == some allocationId)) }
      pure (.ok true)

/-- Modelled from the spec: the external `module_utils.ec2.describe_instances`
wrapper (spec section 6, `describe_instances(ids)`), not part of the sources
under verification.  One reservation per matching instance; an unknown id
yields zero reservations (spec section 7, device-not-found). -/
def describe_instances (instanceId : String) : EipM (List Ec2Instance) := do
  logCall .describeInstances
  let c ← getCloud
  pure (c.instances.filter (fun i => i.instanceId == instanceId))

/-- Modelled from the spec: the external
`module_utils.ec2.describe_network_interfaces` wrapper (spec section 6,
`describe_network_interfaces(ids)`), not part of the sources under
verification. -/
def describe_network_interfaces (nicId : String) : EipM (List Eni) := do
  logCall .describeNetworkInterfaces
  let c ← getCloud
  pure (c.enis.filter (fun e => e.networkInterfaceId == nicId))

/-- The parameter set of one `ec2_eip` invocation, after Ansible argument
parsing (spec section 6), together with the ambient check-mode flag. -/
structure Params where
  deviceId : Option String := none
  publicIp : Option String := none
  state : String := "present"
  inVpc : Bool := false
  reuseExistingIpAllowed : Bool := false
  releaseOnDisassociation : Bool := false
  allowReassociation : Bool := false
  privateIpAddress : Option String := none
  tags : Option (List (String × String)) := none
  purgeTags : Bool := true
  tagName : Option String := none
  tagValue : Option String := none
  publicIpv4Pool : Option String := none
  checkMode : Bool := false
deriving Repr, DecidableEq

/-- Rendering of an optional string for diagnostic messages. -/
def optStr : Option String → String
  | none => "None"
  | some s => s

/-- Rendering of one describe filter for diagnostic messages. -/
def filterStr : EipFilter → String
  | .instanceId s => "instance-id=" ++ s
  | .networkInterfaceId s => "network-interface-id=" ++ s
  | .domain d => "domain=" ++ d
  | .tagKey k => "tag-key=" ++ k
  | .tagNamed fn v => fn ++ "=" ++ v

/-- Rendering of describe arguments for diagnostic messages. -/
def describeArgsStr (args : DescribeArgs) : String :=
  "PublicIps=" ++ (match args.publicIps with
    | none => "None"
    | some ips => String.intercalate "," ips)
  ++ " Filters=" ++ String.intercalate ";" (args.filters.map filterStr)

/-- Rendering of one address for diagnostic messages. -/
def addressStr (a : Address) : String :=
  "PublicIp=" ++ a.publicIp ++ " AllocationId=" ++ optStr a.allocationId
  ++ " Domain=" ++ a.domain ++ " AssociationId=" ++ optStr a.associationId
  ++ " InstanceId=" ++ optStr a.instanceId
  ++ " NetworkInterfaceId=" ++ optStr a.networkInterfaceId

/-- Rendering of a list of addresses for diagnostic messages. -/
def addressListStr (addrs : List Address) : String :=
  String.intercalate " | " (addrs.map addressStr)

/-- The ambiguous-match failure message of `find_address` (source line 350):
it names the query arguments and the full matched set. -/
def tooManyMsg (args : DescribeArgs) (addrs : List Address) : String :=
  "Found more than one address using args " ++ describeArgsStr args
  ++ " Addresses found: " ++ addressListStr addrs

/-- The no-change result `module.exit_json(changed=False, disassociated=False,
released=False)` used by `find_address` when nothing matches under
`state=absent` (source line 342). -/
def noChangeResult : ModuleResult :=
  { changed := false, disassociated := some false, released := some false }

/-- The `DescribeAddresses` arguments `find_address` builds from its inputs
(source lines 322 to 336): `none` means no query is issued at all (no filter
criteria; the function returns `None` immediately). -/
def findAddressArgs (publicIp deviceId : Option String) (isInstance : Bool) :
    Option DescribeArgs :=
  let filters : Option (List EipFilter) :=
    if pyTruthyStr publicIp then none
    else if pyTruthyStr deviceId then
      some [if isInstance then .instanceId (deviceId.getD "")
            else .networkInterfaceId (deviceId.getD "")]
    else none
  if filters.isNone && publicIp = none then none
  else some
    { publicIps := if pyTruthyStr publicIp then some [publicIp.getD ""] else none
      filters := filters.getD [] }

/-- Embedding of `find_address` (source lines 318 to 352).  Locates an
existing Elastic IP by public IP (preferred) or by attached device; exits
with the no-change result when the query matches nothing under
`state=absent`; fails on an ambiguous match. -/
def find_address (p : Params) (publicIp deviceId : Option String)
    (isInstance : Bool := true) : EipM (Option Address) := do
  match findAddressArgs publicIp deviceId isInstance with
  | none => pure none
  | some args => do
    let addresses ← describe_addresses args
    match addresses with
    | [] =>
      if p.state == "absent" then exitJson noChangeResult
      else pure none
    | [a] => pure (some a)
    | _ => failJson (tooManyMsg args addresses)

/-- Embedding of `address_is_associated_with_device` (source lines 355
to 369): re-queries the locator and compares the association field of the
result against the device id. -/
def address_is_associated_with_device (p : Params) (address : Option Address)
    (deviceId : String) (isInstance : Bool := true) : EipM Bool := do
  let result ← find_address p (optPublicIp address) (some deviceId) isInstance
  match result with
  | some r =>
    if isInstance && (r.instanceId == some deviceId) then pure true
    else if !isInstance && (r.networkInterfaceId == some deviceId) then pure true
    else pure false
  | none => pure false

/-- Embedding of `associate_ip_and_device` (source lines 243 to 291).
No-op when the address is already associated with the device; in check mode
the API call is skipped but `True` is still returned. -/
def associate_ip_and_device (p : Params) (address : Option Address)
    (privateIpAddress : Option String) (deviceId : String)
    (allowReassociation : Bool) (isInstance : Bool := true) : EipM Bool := do
  if (← address_is_associated_with_device p address deviceId isInstance) then
    return false
  if !p.checkMode then
    let res ←
      if isInstance then
        associate_address
          { instanceId := some deviceId
            allowReassociation := allowReassociation
            privateIpAddress := privateIpAddress
            allocationId :=
              if optDomain address == some "vpc" then optAllocationId address else none
            publicIp :=
              if optDomain address == some "vpc" then none else optPublicIp address }
      else
        associate_address
          { networkInterfaceId := some deviceId
            allocationId := optAllocationId address
            allowReassociation := allowReassociation
            privateIpAddress := privateIpAddress }
    match res with
    | .error _ =>
      if isInstance then
        failJson ("Couldnt associate Elastic IP address with instance " ++ deviceId)
      else
        failJson ("Couldnt associate Elastic IP address with network interface " ++ deviceId)
    | .ok r =>
      if !r then failJson "Association failed."
      else return true
  return true

/-- Embedding of `disassociate_ip_and_device` (source lines 294 to 315).
No-op when not currently associated; disassociates by association id in the
`vpc` domain and by deprecated raw public IP otherwise. -/
def disassociate_ip_and_device (p : Params) (address : Option Address)
    (deviceId : String) (isInstance : Bool := true) : EipM Bool := do
  if !(← address_is_associated_with_device p address deviceId isInstance) then
    return false
  if !p.checkMode then
    let res ←
      if optDomain address == some "vpc" then
        disassociate_address (optAssociationId address) none
      else
        disassociate_address none (optPublicIp address)
    match res with
    | .error _ => failJson "Dissassociation of Elastic IP failed"
    | .ok _ => return true
  return true

/-- Embedding of `release_ip_address` (source lines 432 to 443).  In check
mode it reports `True` without touching the address; otherwise it subscripts
`address["AllocationId"]` (crashing on a missing address or key, as the
Python does) and issues the release. -/
def release_ip_address (p : Params) (address : Option Address) : EipM Bool := do
  if !p.checkMode then
    let aid ←
      match address with
      | none => pyCrash "TypeError: NoneType object is not subscriptable"
      | some a =>
        match a.allocationId with
        | none => pyCrash "KeyError: AllocationId"
        | some aid => pure aid
    match ← release_address aid with
    | .error _ => failJson "Couldnt release Elastic IP address"
    | .ok changed => return changed
  return true

/-- Embedding of `find_device` (source lines 446 to 467): one reservation
with one instance (or one interface) yields a result, anything else yields
`None`. -/
def find_device (deviceId : String) (isInstance : Bool := true) :
    EipM (Option (Ec2Instance ⊕ Eni)) := do
  if isInstance then
    let reservations ← describe_instances deviceId
    match reservations with
    | [i] => pure (some (.inl i))
    | _ => pure none
  else
    let interfaces ← describe_network_interfaces deviceId
    match interfaces with
    | [e] => pure (some (.inr e))
    | _ => pure none

/-- Tag mappings attached to resources and requested by the caller. -/
abbrev Tags := List (String × String)

/-- Model of `boto3_tag_specifications(tags, types="elastic-ip")` applied
under `if tags:`: the creation-time tags actually attached, empty when the
requested tags are falsy. -/
def tagSpecArg (tags : Option Tags) : Tags :=
  if pyTruthyTags tags then tags.getD [] else []

/-- Embedding of `allocate_address_from_pool` (source lines 535 to 563):
returns `None` immediately in check mode, otherwise allocates from the
BYOIP pool. -/
def allocate_address_from_pool (domain : String) (checkMode : Bool)
    (publicIpv4Pool : String) (tags : Option Tags) : EipM (Option Address) := do
  if checkMode then return none
  let result ← allocate_ip_address (some domain) (some publicIpv4Pool) (tagSpecArg tags)
  return (some result)

/-- The reuse scan of `allocate_address` for the `standard` domain (source
line 401): `[a for a in all_addresses if not a["InstanceId"]]`.  The
subscript is unguarded, so an address lacking the `InstanceId` key raises
`KeyError` at the point the comprehension reaches it. -/
def standardScan : List Address → Except String (List Address)
  | [] => .ok []
  | a :: rest =>
    match a.instanceId with
    | none => .error "KeyError: InstanceId"
    | some v =>
      (standardScan rest).map (fun tail => if v.toList.isEmpty then a :: tail else tail)

/-- The search-tag dictionary produced by `generate_tag_dict`: either a
bare `tag-key` filter or a `tag:NAME = value` filter. -/
inductive SearchTags where
  | tagKeyOnly (k : String)
  | tagNamed (filterName : String) (value : String)
deriving Repr, DecidableEq

/-- Model of `ansible_dict_to_boto3_filter_list` on a search-tag dict. -/
def searchTagFilters : SearchTags → List EipFilter
  | .tagKeyOnly k => [.tagKey k]
  | .tagNamed fn v => [.tagNamed fn v]

/-- The target domain of `allocate_address` (source lines 383 to 384):
falsy input means `standard`. -/
def resolveDomain (domain : Option String) : String :=
  if pyTruthyStr domain then domain.getD "" else "standard"

/-- The filters of the reuse scan of `allocate_address` (source lines 387
to 391): the domain filter plus the converted search tags (appended
whenever `search_tags is not None`). -/
def reuseFilters (domainR : String) (searchTags : Option SearchTags) : List EipFilter :=
  [EipFilter.domain domainR] ++
    (match searchTags with
      | none => []
      | some st => searchTagFilters st)

/-- Embedding of `allocate_address` (source lines 372 to 429), the module
Allocator.  Decision order: reuse an unassociated address in the target
domain (narrowed by search tags) when allowed, else allocate from the BYOIP
pool when given, else allocate a fresh address; the plain allocation is
skipped in check mode but still reports `changed=True`. -/
def allocate_address (domain : Option String) (reuseExistingIpAllowed : Bool)
    (checkMode : Bool) (tags : Option Tags) (searchTags : Option SearchTags := none)
    (publicIpv4Pool : Option String := none) : EipM (Option Address × Bool) := do
  let domainR := resolveDomain domain
  let reuseHit ←
    if reuseExistingIpAllowed then do
      let allAddresses ← describe_addresses { filters := reuseFilters domainR searchTags }
      if domainR == "vpc" then
        pure (allAddresses.filter (fun a => !pyTruthyStr a.associationId)).head?
      else
        match standardScan allAddresses with
        | .error msg => pyCrash msg
        | .ok unassociated => pure unassociated.head?
    else pure none
  match reuseHit with
  | some a => return (some a, false)
  | none =>
    if pyTruthyStr publicIpv4Pool then do
      let result ← allocate_address_from_pool domainR checkMode
        (publicIpv4Pool.getD "") tags
      return (result, true)
    else do
      let changed := true
      if !checkMode then
        let result ← allocate_ip_address (some domainR) none (tagSpecArg tags)
        return (some result, changed)
      else
        return (none, changed)

/-- The VPC guard of `ensure_present` (source lines 503 to 506), run only
under reuse: subscripts `instance["VpcId"]` (crashing as the Python would)
and fails when the instance lives in a VPC while no domain was requested. -/
def ensure_present_vpc_check (domain : Option String)
    (inst : Option (Ec2Instance ⊕ Eni)) : EipM Unit :=
  match inst with
  | none => pyCrash "TypeError: NoneType object is not subscriptable"
  | some (.inl i) =>
    match i.vpcId with
    | none => pyCrash "KeyError: VpcId"
    | some v =>
      if !v.toList.isEmpty && decide (v.toList.length > 0) && domain == none then
        failJson "You must set in_vpc to true to associate an instance with an existing ip in a vpc"
      else pure ()
  | some (.inr _) => pure ()

/-- The result built at the end of `ensure_present` (source line 517) from
`address["PublicIp"]` and `address["AllocationId"]`, crashing exactly where
the Python subscripts would. -/
def ensure_present_result (address : Option Address) (changed : Bool) : EipM ModuleResult :=
  match address with
  | none => pyCrash "TypeError: NoneType object is not subscriptable"
  | some a =>
    match a.allocationId with
    | none => pyCrash "KeyError: AllocationId"
    | some aid =>
      pure { changed := changed, publicIp := some a.publicIp, allocationId := some aid }

/-- Continuation of `ensure_present` from source line 499: associate the
(provided or allocated) address with the device when one is given, then
build the result (source line 517). -/
def ensure_present_rest (p : Params) (domain : Option String)
    (address : Option Address) (changed0 : Bool) (privateIpAddress : Option String)
    (deviceId : Option String) (reuseExistingIpAllowed allowReassociation : Bool)
    (isInstance : Bool) : EipM ModuleResult := do
  let changed ←
    if pyTruthyStr deviceId then
      let d := deviceId.getD ""
      if isInstance then do
        let inst ← find_device d true
        if reuseExistingIpAllowed then ensure_present_vpc_check domain inst else pure ()
        let c2 ← associate_ip_and_device p address privateIpAddress d allowReassociation true
        pure (changed0 || c2)
      else do
        let _ ← find_device d false
        let c2 ← associate_ip_and_device p address privateIpAddress d allowReassociation false
        pure (changed0 || c2)
    else pure changed0
  ensure_present_result address changed

/-- Embedding of `ensure_present` (source lines 470 to 517).  When no
address was located: in check mode return `changed=True` with no identity
(no `allocation_id` key), otherwise allocate one; then proceed with the
association step (`ensure_present_rest`). -/
def ensure_present (p : Params) (domain : Option String) (address0 : Option Address)
    (privateIpAddress : Option String) (deviceId : Option String)
    (reuseExistingIpAllowed allowReassociation checkMode : Bool)
    (tags : Option Tags) (isInstance : Bool := true) : EipM ModuleResult := do
  if !pyTruthyAddr address0 then
    if checkMode then
      return { changed := true }
    else do
      let (a1, c1) ← allocate_address domain reuseExistingIpAllowed checkMode tags
      ensure_present_rest p domain a1 c1 privateIpAddress deviceId
        reuseExistingIpAllowed allowReassociation isInstance
  else
    ensure_present_rest p domain address0 false privateIpAddress deviceId
      reuseExistingIpAllowed allowReassociation isInstance

/-- Embedding of `ensure_absent` (source lines 520 to 532): nothing located
means nothing to do; with a device, disassociate; without, release. -/
def ensure_absent (p : Params) (address : Option Address) (deviceId : Option String)
    (isInstance : Bool := true) : EipM Bool := do
  if !pyTruthyAddr address then return false
  if pyTruthyStr deviceId then
    disassociate_ip_and_device p address (deviceId.getD "") isInstance
  else
    release_ip_address p address

/-- Model of Python `str.strip("tag:")`: removes any of the characters of
the argument from both ends of the string (a character set, not a prefix). -/
def pyStripChars (cs : String) (s : String) : String :=
  let l := s.toList.dropWhile (fun c => cs.toList.contains c)
  String.mk ((l.reverse.dropWhile (fun c => cs.toList.contains c)).reverse)

/-- Embedding of `generate_tag_dict` (source lines 566 to 583): builds the
search-tag dictionary, failing when `tag_value` is supplied without
`tag_name`. -/
def generate_tag_dict (tagName tagValue : Option String) : EipM (Option SearchTags) := do
  if pyTruthyStr tagName && !pyTruthyStr tagValue then
    let n := tagName.getD ""
    let n := if pyStartsWith n "tag:" then pyStripChars "tag:" n else n
    pure (some (.tagKeyOnly n))
  else if pyTruthyStr tagName && pyTruthyStr tagValue then
    let n := tagName.getD ""
    let n := if pyStartsWith n "tag:" then n else "tag:" ++ n
    pure (some (.tagNamed n (tagValue.getD "")))
  else if pyTruthyStr tagValue && !pyTruthyStr tagName then
    failJson "parameters are required together: tag_name, tag_value"
  else
    pure none

/-- Embedding of `check_is_instance` (source lines 586 to 595): decides the
device kind from the id prefix, raising `EipError` for an ENI outside a
VPC.  Pure: it runs before any API interaction. -/
def check_is_instance (deviceId : Option String) (inVpc : Bool) : Except String Bool :=
  if !pyTruthyStr deviceId then .ok false
  else
    let d := deviceId.getD ""
    if pyStartsWith d "i-" then .ok true
    else if pyStartsWith d "eni-" && !inVpc then
      .error "If you are specifying an ENI, in_vpc must be true"
    else .ok false

/-- Merge of current and desired tags when purge is off: desired entries
override, remaining current entries are kept. -/
def mergeTags (current desired : Tags) : Tags :=
  current.filter (fun t => !desired.any (fun d => d.1 == t.1)) ++ desired

/-- Modelled from the spec: the external tag-reconciliation collaborator
`ensure_ec2_tags` (spec section 6, `ensure_tags(resourceId, resourceType,
tags, purge) → changed`), not part of the sources under verification.  When
the requested tags are `None` nothing is compared or changed; otherwise the
resource ends with the desired map (purge) or the override-merge (no purge),
the cloud is updated only outside check mode, and `changed` reports whether
the resulting map differs from the current one. -/
def ensure_ec2_tags (p : Params) (allocationId : Option String) (tags : Option Tags)
    (purgeTags : Bool) : EipM Bool := do
  match tags with
  | none => pure false
  | some desired => do
    let c ← getCloud
    match allocationId with
    | none => pure false
    | some aid =>
      match c.addresses.find? (fun a => a.allocationId == some aid) with
      | none => pure false
      | some a =>
        let newTags := if purgeTags then desired else mergeTags a.tags desired
        let changed := newTags != a.tags
        if changed && !p.checkMode then
          setCloud { c with addresses := c.addresses.map (fun b =>
            if b.allocationId == some aid then { b with tags := newTags } else b) }
          pure changed
        else
          pure changed

/-- The tag-reconciliation tail of the `present` branch of `main` (source
lines 701 to 703 and the final `exit_json`): fold the tag change into
`changed` and exit. -/
def main_present_finish (p : Params) (result : ModuleResult) : EipM Unit := do
  let tagsChanged ← ensure_ec2_tags p result.allocationId p.tags p.purgeTags
  exitJson { result with changed := result.changed || tagsChanged }

/-- The result `main` builds for an address under `state=present` (source
lines 673 to 678 and 690 to 695): `address["PublicIp"]` and
`address["AllocationId"]`, crashing where the Python subscripts would. -/
def main_address_result (a : Address) (changed : Bool) : EipM ModuleResult :=
  match a.allocationId with
  | none => pyCrash "KeyError: AllocationId"
  | some aid =>
    pure { changed := changed, publicIp := some a.publicIp, allocationId := some aid }

/-- The `state=present` branch of `main` (source lines 654 to 703). -/
def main_present (p : Params) (domain : Option String) (isInstance : Bool)
    (searchTags : Option SearchTags) (address : Option Address) : EipM Unit := do
  let result ←
    if pyTruthyStr p.deviceId then do
      let result ← ensure_present p domain address p.privateIpAddress p.deviceId
        p.reuseExistingIpAllowed p.allowReassociation p.checkMode p.tags isInstance
      if result.allocationId == none then exitJson result
      else pure result
    else
      if pyTruthyAddr address then
        match address with
        | some a => main_address_result a false
        | none => pyCrash "TypeError: NoneType object is not subscriptable"
      else do
        let (address2, changed) ← allocate_address domain p.reuseExistingIpAllowed
          p.checkMode p.tags searchTags p.publicIpv4Pool
        match address2 with
        | some a => main_address_result a changed
        | none => exitJson { changed := changed }
  main_present_finish p result

/-- The `state=absent` branch of `main` (source lines 704 to 723). -/
def main_absent (p : Params) (address : Option Address) (isInstance : Bool) : EipM Unit := do
  if pyTruthyStr p.deviceId then do
    let disassociated ← ensure_absent p address p.deviceId isInstance
    if p.releaseOnDisassociation && disassociated then do
      let changed ← release_ip_address p address
      exitJson { changed := true, disassociated := some disassociated,
                 released := some changed }
    else
      exitJson { changed := disassociated, disassociated := some disassociated,
                 released := some false }
  else do
    let changed ← release_ip_address p address
    exitJson { changed := changed, disassociated := some false,
               released := some changed }

/-- The state dispatch of `main` after the address has been located. -/
def main_reconcile (p : Params) (domain : Option String) (isInstance : Bool)
    (searchTags : Option SearchTags) (address : Option Address) : EipM Unit :=
  if p.state == "present" then main_present p domain isInstance searchTags address
  else main_absent p address isInstance

/-- Embedding of `main` (source lines 598 to 728) after argument parsing:
derive the domain and device kind, build the search tags, locate an
existing address, then reconcile `present`/`absent`, finishing with
`module.exit_json`. -/
def main_run (p : Params) : EipM Unit := do
  let domain : Option String := if p.inVpc then some "vpc" else none
  match check_is_instance p.deviceId p.inVpc with
  | .error e => failJson e
  | .ok isInstance => do
    let searchTags ← generate_tag_dict p.tagName p.tagValue
    let address ←
      if pyTruthyStr p.deviceId then find_address p p.publicIp p.deviceId isInstance
      else find_address p p.publicIp none true
    main_reconcile p domain isInstance searchTags address

/-- One full invocation of the `ec2_eip` module against a cloud state,
starting from an empty call log. -/
def run (p : Params) (c : Cloud) : Outcome Unit × St :=
  main_run p { cloud := c, log := [] }

end Ec2Eip

namespace LambdaLayerInfo

/-- A flat string-to-string dictionary, as returned by the Lambda API for
one layer or layer version. -/
abbrev FlatDict := List (String × String)

/-- One entry of a `ListLayers` response: its flat fields plus the
(possibly missing) nested `LatestMatchingVersion` dictionary. -/
structure LayerEntry where
  fields : FlatDict
  latestMatchingVersion : Option FlatDict
deriving Repr, DecidableEq

/-- The parameter set of one `lambda_layer_info` invocation. -/
structure LambdaParams where
  name : Option String := none
  compatibleRuntime : Option String := none
  compatibleArchitecture : Option String := none
deriving Repr, DecidableEq

/-- Modelled from the spec: the external Lambda API client (paginated
`list_layer_versions` and `list_layers` operations), not part of the sources
under verification.  Each operation is a pure read of the full paginated
response for the given parameters; API failures are not modelled. -/
structure LambdaApi where
  layerVersions : Option String → Option String → Option String → List FlatDict
  layers : Option String → Option String → List LayerEntry

/-- Modelled from the spec: the external
`ansible.module_utils.common.dict_transformations.camel_dict_to_snake_dict`
key-case transform, not part of the sources under verification; simplified
to the plain camel-to-snake conversion on each key. -/
def camelToSnake (s : String) : String :=
  let l := s.toList.foldl
    (fun acc c => if c.isUpper then acc ++ ['_', c.toLower] else acc ++ [c]) []
  String.mk (match l with
    | '_' :: rest => rest
    | r => r)

/-- Key-case transform applied to one response dictionary. -/
def snakeDict (d : FlatDict) : FlatDict := d.map (fun kv => (camelToSnake kv.1, kv.2))

/-- Model of Python `dict.update`: existing keys are overridden in place,
new keys are appended. -/
def pyDictUpdate (base extra : FlatDict) : FlatDict :=
  base.map (fun kv =>
    match extra.find? (fun e => e.1 == kv.1) with
    | some e => e
    | none => kv)
  ++ extra.filter (fun e => !base.any (fun kv => kv.1 == e.1))

/-- The compatible-runtime parameter is forwarded only when truthy
(source lines 132 to 135 and 147 to 150). -/
def runtimeParam (p : LambdaParams) : Option String :=
  if Ec2Eip.pyTruthyStr p.compatibleRuntime then p.compatibleRuntime else none

/-- The compatible-architecture parameter is forwarded only when truthy. -/
def architectureParam (p : LambdaParams) : Option String :=
  if Ec2Eip.pyTruthyStr p.compatibleArchitecture then p.compatibleArchitecture else none

/-- Embedding of `list_layer_versions` (source lines 129 to 141): the
paginated versions of the named layer, keys converted to snake case. -/
def list_layer_versions (p : LambdaParams) (api : LambdaApi) : List FlatDict :=
  (api.layerVersions p.name (runtimeParam p) (architectureParam p)).map snakeDict

/-- The merge loop of `list_layers` (source lines 154 to 157):
`layer.update(layer.pop("LatestMatchingVersion", None))` raises `TypeError`
when the key is missing, since `dict.update(None)` is illegal. -/
def mergeLatest : List LayerEntry → Except String (List FlatDict)
  | [] => .ok []
  | l :: rest =>
    match l.latestMatchingVersion with
    | none => .error "TypeError: NoneType object is not iterable"
    | some latest =>
      (mergeLatest rest).map (fun tail => snakeDict (pyDictUpdate l.fields latest) :: tail)

/-- Embedding of `list_layers` (source lines 144 to 160): the paginated
layer list with each `LatestMatchingVersion` folded into its layer, keys
converted to snake case. -/
def list_layers (p : LambdaParams) (api : LambdaApi) : Except String (List FlatDict) :=
  mergeLatest (api.layers (runtimeParam p) (architectureParam p))

/-- Outcome of one `lambda_layer_info` invocation: a successful
`module.exit_json` or an unhandled Python exception. -/
inductive LambdaOutcome where
  | exited (changed : Bool) (layersVersions : List FlatDict)
  | crashed (msg : String)
deriving Repr, DecidableEq

/-- Embedding of `execute_module` (source lines 163 to 169): the operation
is `list_layers` unless a name was given (`is not None`), in which case it
is `list_layer_versions`; the selected operation feeds
`module.exit_json(changed=False, layers_versions=...)`. -/
def execute_module (p : LambdaParams) (api : LambdaApi) : LambdaOutcome :=
  if p.name.isSome then
    .exited false (list_layer_versions p api)
  else
    match list_layers p api with
    | .ok l => .exited false l
    | .error m => .crashed m

end LambdaLayerInfo

namespace Ec2Eip

/-! Helper lemmas for symbolic execution of `EipM` computations, plus
sample states used in witness theorems. -/

/-- Applying a bound computation to a state: the continuation runs only on
a normal return. -/
theorem bind_apply {α β : Type} (m : EipM α) (f : α → EipM β) (s : St) :
    (m >>= f) s = match m s with
      | (.ok a, s') => f a s'
      | (.exited r, s') => (.exited r, s')
      | (.failed e, s') => (.failed e, s')
      | (.crashed e, s') => (.crashed e, s') := rfl

/-- Applying `pure` to a state. -/
theorem pure_apply {α : Type} (a : α) (s : St) : (pure a : EipM α) s = (.ok a, s) := rfl

/-- Applying `describe_addresses` to a state: a pure read that logs one
describe call. -/
theorem describe_addresses_apply (args : DescribeArgs) (s : St) :
    describe_addresses args s =
      (.ok (describeQuery s.cloud args), { s with log := s.log ++ [.describeAddresses] }) := rfl

/-- A string with prefix `eni-` begins with the character `e`. -/
theorem eni_head {d : String} (h : pyStartsWith d "eni-" = true) :
    ∃ rest, d.toList = 'e' :: rest := by
  unfold pyStartsWith at h
  rw [show "eni-".toList = ['e', 'n', 'i', '-'] from rfl] at h
  cases hl : d.toList with
  | nil => rw [hl] at h; simp [listHasPrefix] at h
  | cons c0 rest =>
    rw [hl] at h
    simp only [listHasPrefix, Bool.and_eq_true, beq_iff_eq] at h
    exact ⟨rest, by rw [h.1]⟩

/-- The cloud state used by witness theorems that need no addresses. -/
def emptyCloud : Cloud := { addresses := [], instances := [], enis := [], fresh := 0 }

/-- A `standard`-domain address whose `InstanceId` key is absent, as used
by witness theorems. -/
def addrNoInstanceKey : Address :=
  { publicIp := "203.0.113.5", allocationId := none, domain := "standard",
    associationId := none, instanceId := none, networkInterfaceId := none, tags := [] }

/-- An unassociated `vpc`-domain address, as used by witness theorems. -/
def addrVpcFree : Address :=
  { publicIp := "203.0.113.6", allocationId := some "eipalloc-free", domain := "vpc",
    associationId := none, instanceId := none, networkInterfaceId := none, tags := [] }

/-- C8.  For every parameter set whose `device_id` starts with the `eni-`
prefix while `in_vpc` is false, the invocation fails before any cloud API
call is issued: the run ends in the `EipError` failure with an untouched
cloud and an empty call log (so no network interaction and no mutation). -/
theorem eni_without_vpc_fails_before_api (p : Params) (c : Cloud) (d : String)
    (hdev : p.deviceId = some d) (heni : pyStartsWith d "eni-" = true)
    (hvpc : p.inVpc = false) :
    run p c = (.failed "If you are specifying an ENI, in_vpc must be true",
               { cloud := c, log := [] }) := by
  obtain ⟨rest, hl⟩ := eni_head heni
  have hd : d.data = 'e' :: rest := hl
  have h1 : pyTruthyStr (some d) = true := by simp [pyTruthyStr, hd]
  have h2 : pyStartsWith d "i-" = false := by
    unfold pyStartsWith
    rw [show "i-".toList = ['i', '-'] from rfl, hl]
    simp [listHasPrefix]
  have hcheck : check_is_instance p.deviceId p.inVpc
      = .error "If you are specifying an ENI, in_vpc must be true" := by
    rw [hdev, hvpc]
    unfold check_is_instance
    simp [h1, h2, heni]
  simp only [run, main_run, hcheck]
  rfl

/-- C8 witness: the concrete ENI request from the module examples, outside
a VPC, fails with an empty call log. -/
theorem eni_without_vpc_fails_before_api_witness :
    run { deviceId := some "eni-c8ad70f3" } emptyCloud
      = (.failed "If you are specifying an ENI, in_vpc must be true",
         { cloud := emptyCloud, log := [] }) :=
  eni_without_vpc_fails_before_api _ _ "eni-c8ad70f3" rfl (by decide) rfl

/-- C2.  With `state=absent` and neither a device id nor a public IP, the
located address is `None`, and outside check mode `release_ip_address`
subscripts it (`address["AllocationId"]`), raising an unhandled `TypeError`
instead of completing with `released=false, changed=false`; in check mode
the invocation even reports `released=true, changed=true`. -/
theorem absent_no_target_crashes :
    run { state := "absent" } emptyCloud
        = (.crashed "TypeError: NoneType object is not subscriptable",
           { cloud := emptyCloud, log := [] })
      ∧ run { state := "absent", checkMode := true } emptyCloud
        = (.exited { changed := true, disassociated := some false, released := some true },
           { cloud := emptyCloud, log := [] }) := by
  constructor
  · rfl
  · rfl

/-- A listing containing an address without the `InstanceId` key makes the
standard-domain reuse scan raise `KeyError`. -/
theorem standardScan_error_of_mem {l : List Address}
    (h : ∃ a ∈ l, a.instanceId = none) :
    standardScan l = .error "KeyError: InstanceId" := by
  induction l with
  | nil => simp at h
  | cons a rest ih =>
    rcases h with ⟨b, hb, hnone⟩
    rcases List.mem_cons.mp hb with h1 | h2
    · subst h1; simp [standardScan, hnone]
    · cases ha : a.instanceId with
      | none => simp [standardScan, ha]
      | some v => simp [standardScan, ha, ih ⟨b, h2, hnone⟩, Except.map]

/-- C9.  In the reuse scan of `allocate_address`, when the target domain is
not `vpc` and some listed address lacks the `InstanceId` field, the scan
raises an unhandled `KeyError` (after the single describe call, touching
nothing): the unguarded `a["InstanceId"]` lookup requires every listed
standard-domain address to carry that field. -/
theorem standard_reuse_scan_keyerror (domain : Option String) (checkMode : Bool)
    (tags : Option Tags) (searchTags : Option SearchTags) (pool : Option String)
    (s : St)
    (hdom : resolveDomain domain ≠ "vpc")
    (hbad : ∃ a ∈ describeQuery s.cloud
        { filters := reuseFilters (resolveDomain domain) searchTags }, a.instanceId = none) :
    allocate_address domain true checkMode tags searchTags pool s
      = (.crashed "KeyError: InstanceId",
         { cloud := s.cloud, log := s.log ++ [.describeAddresses] }) := by
  have hscan := standardScan_error_of_mem hbad
  have hne : (resolveDomain domain == "vpc") = false := by
    simpa using hdom
  simp only [allocate_address, bind_apply, describe_addresses_apply, if_true, hne,
    Bool.false_eq_true, if_false, hscan, pure_apply]
  rfl

/-- The reuse notion of "unassociated" in a given domain: no association id
in the `vpc` domain, no (truthy) attached instance otherwise. -/
def unassociatedIn (d : String) (a : Address) : Bool :=
  if d == "vpc" then !pyTruthyStr a.associationId else !pyTruthyStr a.instanceId

/-- When every listed address carries the `InstanceId` field, the
standard-domain reuse scan returns exactly the addresses with a falsy
instance id, in listing order. -/
theorem standardScan_ok {l : List Address} (h : ∀ b ∈ l, b.instanceId ≠ none) :
    standardScan l = .ok (l.filter (fun b => !pyTruthyStr b.instanceId)) := by
  induction l with
  | nil => simp [standardScan]
  | cons a rest ih =>
    obtain ⟨v, hv⟩ : ∃ v, a.instanceId = some v := by
      cases ha : a.instanceId with
      | none => exact absurd ha (h a (List.mem_cons_self a rest))
      | some v => exact ⟨v, rfl⟩
    have ihr := ih (fun b hb => h b (List.mem_cons_of_mem a hb))
    simp [standardScan, hv, ihr, Except.map, List.filter_cons, pyTruthyStr]

/-- C3.  Under reuse, when the listing for the target domain (narrowed by
the search-tag filter) contains an unassociated address — and, per the C9
precondition, standard-domain listings carry the `InstanceId` field — the
Allocator returns the first unassociated address of the listing in API
response order with `changed=false`, issuing only the describe call (no
allocation, and an unchanged cloud). -/
theorem allocate_reuse_returns_first (domain : Option String) (checkMode : Bool)
    (tags : Option Tags) (searchTags : Option SearchTags) (pool : Option String)
    (s : St) (a : Address)
    (hkeys : resolveDomain domain = "vpc" ∨
      ∀ b ∈ describeQuery s.cloud
        { filters := reuseFilters (resolveDomain domain) searchTags }, b.instanceId ≠ none)
    (hfirst : ((describeQuery s.cloud
        { filters := reuseFilters (resolveDomain domain) searchTags }).filter
          (fun b => unassociatedIn (resolveDomain domain) b)).head? = some a) :
    allocate_address domain true checkMode tags searchTags pool s
      = (.ok (some a, false),
         { cloud := s.cloud, log := s.log ++ [.describeAddresses] }) := by
  by_cases hd : resolveDomain domain = "vpc"
  · have hb : (resolveDomain domain == "vpc") = true := by simp [hd]
    simp only [unassociatedIn, hb, if_true] at hfirst
    simp only [allocate_address, bind_apply, describe_addresses_apply, if_true, hb,
      pure_apply, hfirst]
  · have hb : (resolveDomain domain == "vpc") = false := by simp [hd]
    have hall := hkeys.resolve_left hd
    have hscan := standardScan_ok hall
    simp only [unassociatedIn, hb, Bool.false_eq_true, if_false] at hfirst
    simp only [allocate_address, bind_apply, describe_addresses_apply, if_true, hb,
      Bool.false_eq_true, if_false, hscan, pure_apply, hfirst]

/-- C3 witness: a concrete cloud with one free `vpc` address is reused with
`changed=false` and no allocation call. -/
theorem allocate_reuse_returns_first_witness :
    allocate_address (some "vpc") true false none none none
        { cloud := { addresses := [addrVpcFree], instances := [], enis := [], fresh := 0 },
          log := [] }
      = (.ok (some addrVpcFree, false),
         { cloud := { addresses := [addrVpcFree], instances := [], enis := [], fresh := 0 },
           log := [.describeAddresses] }) :=
  allocate_reuse_returns_first (some "vpc") false none none none _ addrVpcFree
    (.inl (by decide)) (by decide)

/-- When it has query criteria, `generate_tag_dict` either succeeds without
touching state or fails; it succeeds whenever `tag_value` is not supplied
without `tag_name`. -/
theorem generate_tag_dict_ok (tagName tagValue : Option String) (s : St)
    (h : pyTruthyStr tagName = true ∨ pyTruthyStr tagValue = false) :
    ∃ st, generate_tag_dict tagName tagValue s = (.ok st, s) := by
  unfold generate_tag_dict
  by_cases h1 : pyTruthyStr tagName = true <;>
    by_cases h2 : pyTruthyStr tagValue = true <;>
      simp [h1, h2, pure_apply] at h ⊢

/-- A locator query matching two or more addresses fails with the
diagnostic message carrying the matched set, after the single describe
call. -/
theorem find_address_multi (p : Params) (pub dev : Option String) (ii : Bool)
    (s : St) (args : DescribeArgs)
    (hargs : findAddressArgs pub dev ii = some args)
    (hlen : 2 ≤ (describeQuery s.cloud args).length) :
    find_address p pub dev ii s
      = (.failed (tooManyMsg args (describeQuery s.cloud args)),
         { s with log := s.log ++ [.describeAddresses] }) := by
  unfold find_address
  rw [hargs]
  simp only [bind_apply, describe_addresses_apply]
  rcases hq : describeQuery s.cloud args with _ | ⟨a, _ | ⟨b, rest⟩⟩
  · rw [hq] at hlen; simp at hlen
  · rw [hq] at hlen; simp at hlen
  · simp only [hq]
    rfl

/-- A locator query matching nothing exits with the no-change result when
the desired state is `absent`. -/
theorem find_address_empty_absent (p : Params) (pub dev : Option String) (ii : Bool)
    (s : St) (args : DescribeArgs)
    (hargs : findAddressArgs pub dev ii = some args)
    (hstate : p.state = "absent")
    (hq : describeQuery s.cloud args = []) :
    find_address p pub dev ii s
      = (.exited noChangeResult, { s with log := s.log ++ [.describeAddresses] }) := by
  unfold find_address
  rw [hargs]
  simp only [bind_apply, describe_addresses_apply, hq, hstate]
  rfl

/-- C6.  When the locator query built from the parameters matches more than
one address, the whole invocation fails with the message naming the matched
set, right after the single describe call: the cloud is unchanged and no
mutation (or any further call) is attempted, and no match is silently
picked. -/
theorem ambiguous_locator_fails (p : Params) (c : Cloud) (isInst : Bool)
    (args : DescribeArgs)
    (hcheck : check_is_instance p.deviceId p.inVpc = .ok isInst)
    (htag : pyTruthyStr p.tagName = true ∨ pyTruthyStr p.tagValue = false)
    (hargs : findAddressArgs p.publicIp
        (if pyTruthyStr p.deviceId then p.deviceId else none)
        (if pyTruthyStr p.deviceId then isInst else true) = some args)
    (hlen : 2 ≤ (describeQuery c args).length) :
    run p c = (.failed (tooManyMsg args (describeQuery c args)),
               { cloud := c, log := [.describeAddresses] }) := by
  obtain ⟨st, hst⟩ := generate_tag_dict_ok p.tagName p.tagValue
    { cloud := c, log := [] } htag
  simp only [run, main_run, hcheck, bind_apply, hst]
  by_cases hdev : pyTruthyStr p.deviceId = true
  · rw [hdev] at hargs; simp only [if_true] at hargs
    have hfa := find_address_multi p p.publicIp p.deviceId isInst
      { cloud := c, log := [] } args hargs (by simpa using hlen)
    simp only [hdev, if_true, bind_apply, hfa]
    rfl
  · have hdev' : pyTruthyStr p.deviceId = false := by simpa using hdev
    rw [hdev'] at hargs; simp only [Bool.false_eq_true, if_false] at hargs
    have hfa := find_address_multi p p.publicIp none true
      { cloud := c, log := [] } args hargs (by simpa using hlen)
    simp only [hdev', Bool.false_eq_true, if_false, bind_apply, hfa]
    rfl

/-- C6 witness: a duplicated public IP makes the concrete locator query
ambiguous and the run fails with both matches in the message. -/
theorem ambiguous_locator_fails_witness :
    run { state := "absent", publicIp := some "203.0.113.6" }
        { addresses := [addrVpcFree, addrVpcFree], instances := [], enis := [], fresh := 0 }
      = (.failed (tooManyMsg { publicIps := some ["203.0.113.6"] }
            [addrVpcFree, addrVpcFree]),
         { cloud := { addresses := [addrVpcFree, addrVpcFree], instances := [],
                      enis := [], fresh := 0 },
           log := [.describeAddresses] }) :=
  ambiguous_locator_fails _ _ false { publicIps := some ["203.0.113.6"] }
    rfl (.inr rfl) (by decide) (by decide)

/-- C7.  When the locator query built from the parameters matches zero
addresses and the desired state is `absent`, the invocation short-circuits
successfully with the no-change result (`changed=false`,
`disassociated=false`, `released=false`) instead of failing, leaving the
cloud untouched. -/
theorem absent_zero_matches_short_circuits (p : Params) (c : Cloud) (isInst : Bool)
    (args : DescribeArgs)
    (hcheck : check_is_instance p.deviceId p.inVpc = .ok isInst)
    (htag : pyTruthyStr p.tagName = true ∨ pyTruthyStr p.tagValue = false)
    (hargs : findAddressArgs p.publicIp
        (if pyTruthyStr p.deviceId then p.deviceId else none)
        (if pyTruthyStr p.deviceId then isInst else true) = some args)
    (hstate : p.state = "absent")
    (hq : describeQuery c args = []) :
    run p c = (.exited noChangeResult,
               { cloud := c, log := [.describeAddresses] }) := by
  obtain ⟨st, hst⟩ := generate_tag_dict_ok p.tagName p.tagValue
    { cloud := c, log := [] } htag
  simp only [run, main_run, hcheck, bind_apply, hst]
  by_cases hdev : pyTruthyStr p.deviceId = true
  · rw [hdev] at hargs; simp only [if_true] at hargs
    have hfa := find_address_empty_absent p p.publicIp p.deviceId isInst
      { cloud := c, log := [] } args hargs hstate (by simpa using hq)
    simp only [hdev, if_true, bind_apply, hfa]
    rfl
  · have hdev' : pyTruthyStr p.deviceId = false := by simpa using hdev
    rw [hdev'] at hargs; simp only [Bool.false_eq_true, if_false] at hargs
    have hfa := find_address_empty_absent p p.publicIp none true
      { cloud := c, log := [] } args hargs hstate (by simpa using hq)
    simp only [hdev', Bool.false_eq_true, if_false, bind_apply, hfa]
    rfl

/-- C7 witness: `state=absent` for a public IP matching nothing exits with
the no-change result. -/
theorem absent_zero_matches_short_circuits_witness :
    run { state := "absent", publicIp := some "198.18.0.9" }
        { addresses := [addrVpcFree], instances := [], enis := [], fresh := 0 }
      = (.exited noChangeResult,
         { cloud := { addresses := [addrVpcFree], instances := [], enis := [], fresh := 0 },
           log := [.describeAddresses] }) :=
  absent_zero_matches_short_circuits _ _ false { publicIps := some ["198.18.0.9"] }
    rfl (.inr rfl) (by decide) rfl (by decide)

/-- C9 witness: a concrete standard-domain listing with the key absent
crashes the scan. -/
theorem standard_reuse_scan_keyerror_witness :
    allocate_address none true false none none none
        { cloud := { addresses := [addrNoInstanceKey], instances := [], enis := [], fresh := 0 },
          log := [] }
      = (.crashed "KeyError: InstanceId",
         { cloud := { addresses := [addrNoInstanceKey], instances := [], enis := [], fresh := 0 },
           log := [.describeAddresses] }) :=
  standard_reuse_scan_keyerror none false none none none _ (by decide) (by decide)

end Ec2Eip

namespace LambdaLayerInfo

/-- A concrete Lambda API response set used by the C10 witness. -/
def sampleApi : LambdaApi :=
  { layerVersions := fun _ _ _ => [[("LayerArn", "arn:x"), ("Version", "1")]]
    layers := fun _ _ => [] }

/-- C10.  Every successful invocation of the Lambda layer listing module
reports `changed=false`, and the module is a pure selection: it runs
`list_layer_versions` exactly when a name was given (`is not None`) and
`list_layers` otherwise. -/
theorem execute_module_read_only (p : LambdaParams) (api : LambdaApi)
    (ch : Bool) (l : List FlatDict)
    (h : execute_module p api = .exited ch l) :
    ch = false ∧ ((p.name ≠ none ∧ l = list_layer_versions p api) ∨
      (p.name = none ∧ list_layers p api = .ok l)) := by
  unfold execute_module at h
  by_cases hn : p.name.isSome = true
  · simp only [hn, if_true] at h
    injection h with h1 h2
    exact ⟨h1.symm, .inl ⟨Option.isSome_iff_ne_none.mp hn, h2.symm⟩⟩
  · have hn' : p.name = none := by
      cases ho : p.name with
      | none => rfl
      | some v => rw [ho] at hn; simp at hn
    simp only [hn', Option.isSome_none, Bool.false_eq_true, if_false] at h
    cases hl : list_layers p api with
    | ok ll =>
      rw [hl] at h
      injection h with h1 h2
      exact ⟨h1.symm, .inr ⟨hn', by rw [h2]⟩⟩
    | error m =>
      rw [hl] at h
      exact absurd h (by simp)

/-- C10 witness: a named invocation succeeds, selects the layer-version
listing and reports `changed=false`. -/
theorem execute_module_read_only_witness :
    false = false ∧
      (((some "blank-java-lib" : Option String) ≠ none ∧
          [[("layer_arn", "arn:x"), ("version", "1")]]
            = list_layer_versions { name := some "blank-java-lib" } sampleApi) ∨
        ((some "blank-java-lib" : Option String) = none ∧
          list_layers { name := some "blank-java-lib" } sampleApi
            = .ok [[("layer_arn", "arn:x"), ("version", "1")]])) :=
  execute_module_read_only { name := some "blank-java-lib" } sampleApi false
    [[("layer_arn", "arn:x"), ("version", "1")]] rfl

end LambdaLayerInfo

namespace Ec2Eip

/-! Machinery for the check-mode frame property (C4): a computation is
`MutFree` when running it never adds a mutating API call to the log. -/

/-- The mutating calls of a log. -/
def muts (l : List ApiCall) : List ApiCall := l.filter (fun c => c.isMutation)

/-- A computation that never adds a mutating API call to the log. -/
def MutFree {α : Type} (m : EipM α) : Prop :=
  ∀ s : St, muts (m s).2.log = muts s.log

theorem MutFree.bind_mf {α β : Type} {m : EipM α} {f : α → EipM β}
    (hm : MutFree m) (hf : ∀ a, MutFree (f a)) : MutFree (m >>= f) := by
  intro s
  rw [bind_apply]
  rcases hm' : m s with ⟨out, t⟩
  have ht : muts t.log = muts s.log := by
    have := hm s; rw [hm'] at this; exact this
  cases out with
  | ok a => exact (hf a t).trans ht
  | exited r => exact ht
  | failed e => exact ht
  | crashed e => exact ht

theorem MutFree.ite_mf {α : Type} {c : Prop} [Decidable c] {m1 m2 : EipM α}
    (h1 : MutFree m1) (h2 : MutFree m2) : MutFree (if c then m1 else m2) := by
  split <;> assumption

theorem mutFree_pure {α : Type} (a : α) : MutFree (pure a : EipM α) := fun _ => rfl

theorem mutFree_exitJson {α : Type} (r : ModuleResult) : MutFree (exitJson r : EipM α) :=
  fun _ => rfl

theorem mutFree_failJson {α : Type} (msg : String) : MutFree (failJson msg : EipM α) :=
  fun _ => rfl

theorem mutFree_pyCrash {α : Type} (msg : String) : MutFree (pyCrash msg : EipM α) :=
  fun _ => rfl

theorem mutFree_getCloud : MutFree getCloud := fun _ => rfl

theorem mutFree_setCloud (c : Cloud) : MutFree (setCloud c) := fun _ => rfl

/-- Logging a read-only describe call adds no mutating call. -/
theorem mutFree_logCall {c : ApiCall} (h : c.isMutation = false) : MutFree (logCall c) := by
  intro s
  simp [logCall, muts, List.filter_append, h]

theorem mutFree_describe_addresses (args : DescribeArgs) :
    MutFree (describe_addresses args) := by
  unfold describe_addresses
  exact MutFree.bind_mf (mutFree_logCall rfl) fun _ =>
    MutFree.bind_mf mutFree_getCloud fun _ => mutFree_pure _

theorem mutFree_describe_instances (i : String) : MutFree (describe_instances i) := by
  unfold describe_instances
  exact MutFree.bind_mf (mutFree_logCall rfl) fun _ =>
    MutFree.bind_mf mutFree_getCloud fun _ => mutFree_pure _

theorem mutFree_describe_network_interfaces (i : String) :
    MutFree (describe_network_interfaces i) := by
  unfold describe_network_interfaces
  exact MutFree.bind_mf (mutFree_logCall rfl) fun _ =>
    MutFree.bind_mf mutFree_getCloud fun _ => mutFree_pure _

theorem mutFree_find_address (p : Params) (pub dev : Option String) (ii : Bool) :
    MutFree (find_address p pub dev ii) := by
  unfold find_address
  cases findAddressArgs pub dev ii with
  | none => exact mutFree_pure _
  | some args =>
    apply MutFree.bind_mf (mutFree_describe_addresses args)
    intro addresses
    rcases addresses with _ | ⟨a, _ | ⟨b, rest⟩⟩
    · exact MutFree.ite_mf (mutFree_exitJson _) (mutFree_pure _)
    · exact mutFree_pure _
    · exact mutFree_failJson _

theorem mutFree_address_is_associated (p : Params) (addr : Option Address)
    (dev : String) (ii : Bool) :
    MutFree (address_is_associated_with_device p addr dev ii) := by
  unfold address_is_associated_with_device
  apply MutFree.bind_mf (mutFree_find_address p _ _ _)
  intro result
  cases result with
  | none => exact mutFree_pure _
  | some r =>
    exact MutFree.ite_mf (mutFree_pure _) (MutFree.ite_mf (mutFree_pure _) (mutFree_pure _))

theorem mutFree_generate_tag_dict (tagName tagValue : Option String) :
    MutFree (generate_tag_dict tagName tagValue) := by
  unfold generate_tag_dict
  exact MutFree.ite_mf (mutFree_pure _) (MutFree.ite_mf (mutFree_pure _)
    (MutFree.ite_mf (mutFree_failJson _) (mutFree_pure _)))

theorem mutFree_find_device (dev : String) (ii : Bool) : MutFree (find_device dev ii) := by
  unfold find_device
  apply MutFree.ite_mf
  · apply MutFree.bind_mf (mutFree_describe_instances dev)
    intro reservations
    rcases reservations with _ | ⟨i, _ | _⟩ <;> exact mutFree_pure _
  · apply MutFree.bind_mf (mutFree_describe_network_interfaces dev)
    intro interfaces
    rcases interfaces with _ | ⟨e, _ | _⟩ <;> exact mutFree_pure _

theorem mutFree_ensure_ec2_tags (p : Params) (aid : Option String)
    (tags : Option Tags) (purge : Bool) :
    MutFree (ensure_ec2_tags p aid tags purge) := by
  unfold ensure_ec2_tags
  cases tags with
  | none => exact mutFree_pure _
  | some desired =>
    apply MutFree.bind_mf mutFree_getCloud
    intro c
    split
    · exact mutFree_pure _
    · split
      · exact mutFree_pure _
      · dsimp only
        split
        · split
          · exact MutFree.bind_mf (mutFree_setCloud _) fun _ => mutFree_pure _
          · exact mutFree_pure _
        · split
          · exact MutFree.bind_mf (mutFree_setCloud _) fun _ => mutFree_pure _
          · exact mutFree_pure _

theorem mutFree_associate_ip_and_device (p : Params) (addr : Option Address)
    (priv : Option String) (dev : String) (allowR ii : Bool)
    (hcm : p.checkMode = true) :
    MutFree (associate_ip_and_device p addr priv dev allowR ii) := by
  unfold associate_ip_and_device
  simp only [hcm, Bool.not_true, Bool.false_eq_true, if_false]
  apply MutFree.bind_mf (mutFree_address_is_associated p addr dev ii)
  intro b
  cases b <;> simp only [Bool.true_eq_false, Bool.false_eq_true, if_false, if_true]
  · exact mutFree_pure _
  · exact mutFree_pure _

theorem mutFree_disassociate_ip_and_device (p : Params) (addr : Option Address)
    (dev : String) (ii : Bool) (hcm : p.checkMode = true) :
    MutFree (disassociate_ip_and_device p addr dev ii) := by
  unfold disassociate_ip_and_device
  simp only [hcm, Bool.not_true, Bool.false_eq_true, if_false]
  apply MutFree.bind_mf (mutFree_address_is_associated p addr dev ii)
  intro b
  cases b <;> simp only [Bool.not_true, Bool.not_false, Bool.false_eq_true, if_false, if_true]
  · exact mutFree_pure _
  · exact mutFree_pure _

theorem mutFree_release_ip_address (p : Params) (addr : Option Address)
    (hcm : p.checkMode = true) :
    MutFree (release_ip_address p addr) := by
  unfold release_ip_address
  simp only [hcm, Bool.not_true, Bool.false_eq_true, if_false]
  exact mutFree_pure _

theorem mutFree_allocate_address_from_pool (domain : String) (pool : String)
    (tags : Option Tags) :
    MutFree (allocate_address_from_pool domain true pool tags) := by
  unfold allocate_address_from_pool
  simp only [if_true]
  exact mutFree_pure _

theorem mutFree_allocate_address (domain : Option String) (reuse : Bool)
    (tags : Option Tags) (st : Option SearchTags) (pool : Option String) :
    MutFree (allocate_address domain reuse true tags st pool) := by
  unfold allocate_address
  dsimp only
  simp only [Bool.not_true, Bool.false_eq_true, if_false]
  repeat'
    first
    | exact mutFree_pure _
    | exact mutFree_pyCrash _
    | exact mutFree_describe_addresses _
    | exact mutFree_allocate_address_from_pool _ _ _
    | apply MutFree.bind_mf
    | apply MutFree.ite_mf
    | split
    | intro x

theorem mutFree_ensure_present_vpc_check (domain : Option String)
    (inst : Option (Ec2Instance ⊕ Eni)) :
    MutFree (ensure_present_vpc_check domain inst) := by
  unfold ensure_present_vpc_check
  repeat'
    first
    | exact mutFree_pure _
    | exact mutFree_pyCrash _
    | exact mutFree_failJson _
    | apply MutFree.ite_mf
    | split

theorem mutFree_ensure_present_result (addr : Option Address) (ch : Bool) :
    MutFree (ensure_present_result addr ch) := by
  unfold ensure_present_result
  repeat'
    first
    | exact mutFree_pure _
    | exact mutFree_pyCrash _
    | split

theorem mutFree_ensure_present_rest (p : Params) (domain : Option String)
    (addr : Option Address) (ch0 : Bool) (priv : Option String)
    (dev : Option String) (reuse allowR : Bool) (ii : Bool)
    (hcm : p.checkMode = true) :
    MutFree (ensure_present_rest p domain addr ch0 priv dev reuse allowR ii) := by
  unfold ensure_present_rest
  dsimp only
  apply MutFree.ite_mf
  · apply MutFree.ite_mf
    · apply MutFree.bind_mf (mutFree_find_device _ _)
      intro inst
      apply MutFree.ite_mf
      · apply MutFree.bind_mf (mutFree_ensure_present_vpc_check _ _)
        intro u
        apply MutFree.bind_mf (mutFree_associate_ip_and_device p addr priv _ allowR _ hcm)
        intro c2
        apply MutFree.bind_mf (mutFree_pure _)
        intro y
        exact mutFree_ensure_present_result _ _
      · apply MutFree.bind_mf (mutFree_pure _)
        intro u
        apply MutFree.bind_mf (mutFree_associate_ip_and_device p addr priv _ allowR _ hcm)
        intro c2
        apply MutFree.bind_mf (mutFree_pure _)
        intro y
        exact mutFree_ensure_present_result _ _
    · apply MutFree.bind_mf (mutFree_find_device _ _)
      intro u
      apply MutFree.bind_mf (mutFree_associate_ip_and_device p addr priv _ allowR _ hcm)
      intro c2
      apply MutFree.bind_mf (mutFree_pure _)
      intro y
      exact mutFree_ensure_present_result _ _
  · apply MutFree.bind_mf (mutFree_pure _)
    intro y
    exact mutFree_ensure_present_result _ _

theorem mutFree_ensure_present (p : Params) (domain : Option String)
    (addr : Option Address) (priv : Option String) (dev : Option String)
    (reuse allowR : Bool) (tags : Option Tags) (ii : Bool)
    (hcm : p.checkMode = true) :
    MutFree (ensure_present p domain addr priv dev reuse allowR true tags ii) := by
  unfold ensure_present
  apply MutFree.ite_mf
  · simp only [if_true]
    exact mutFree_pure _
  · exact mutFree_ensure_present_rest p domain addr false priv dev reuse allowR ii hcm

theorem mutFree_ensure_absent (p : Params) (addr : Option Address)
    (dev : Option String) (ii : Bool) (hcm : p.checkMode = true) :
    MutFree (ensure_absent p addr dev ii) := by
  unfold ensure_absent
  apply MutFree.ite_mf
  · exact mutFree_pure _
  · exact MutFree.ite_mf (mutFree_disassociate_ip_and_device p addr _ ii hcm)
      (mutFree_release_ip_address p addr hcm)

theorem mutFree_main_present_finish (p : Params) (result : ModuleResult) :
    MutFree (main_present_finish p result) := by
  unfold main_present_finish
  exact MutFree.bind_mf (mutFree_ensure_ec2_tags p _ _ _) fun tc => mutFree_exitJson _

theorem mutFree_main_address_result (a : Address) (ch : Bool) :
    MutFree (main_address_result a ch) := by
  unfold main_address_result
  split
  · exact mutFree_pyCrash _
  · exact mutFree_pure _

theorem mutFree_main_present (p : Params) (domain : Option String)
    (isInstance : Bool) (searchTags : Option SearchTags) (address : Option Address)
    (hcm : p.checkMode = true) :
    MutFree (main_present p domain isInstance searchTags address) := by
  unfold main_present
  dsimp only
  simp only [hcm]
  refine MutFree.ite_mf ?_ ?_
  · refine MutFree.bind_mf (mutFree_ensure_present p domain address p.privateIpAddress p.deviceId
      p.reuseExistingIpAllowed p.allowReassociation p.tags isInstance hcm) fun result => ?_
    refine MutFree.ite_mf ?_ ?_
    · exact MutFree.bind_mf (mutFree_exitJson _) fun y => mutFree_main_present_finish p y
    · exact MutFree.bind_mf (mutFree_pure _) fun y => mutFree_main_present_finish p y
  · refine MutFree.ite_mf ?_ ?_
    · split
      · exact MutFree.bind_mf (mutFree_main_address_result _ _) fun y => mutFree_main_present_finish p y
      · exact MutFree.bind_mf (mutFree_pyCrash _) fun y => mutFree_main_present_finish p y
    · refine MutFree.bind_mf (mutFree_allocate_address domain p.reuseExistingIpAllowed p.tags
        searchTags p.publicIpv4Pool) fun pr => ?_
      split
      · exact MutFree.bind_mf (mutFree_main_address_result _ _) fun y => mutFree_main_present_finish p y
      · exact MutFree.bind_mf (mutFree_exitJson _) fun y => mutFree_main_present_finish p y

theorem mutFree_main_absent (p : Params) (address : Option Address) (isInstance : Bool)
    (hcm : p.checkMode = true) :
    MutFree (main_absent p address isInstance) := by
  unfold main_absent
  refine MutFree.ite_mf ?_ ?_
  · refine MutFree.bind_mf (mutFree_ensure_absent p address p.deviceId isInstance hcm)
      fun dis => ?_
    refine MutFree.ite_mf ?_ ?_
    · exact MutFree.bind_mf (mutFree_release_ip_address p address hcm) fun ch => mutFree_exitJson _
    · exact mutFree_exitJson _
  · exact MutFree.bind_mf (mutFree_release_ip_address p address hcm) fun ch => mutFree_exitJson _

theorem mutFree_main_reconcile (p : Params) (domain : Option String)
    (isInstance : Bool) (searchTags : Option SearchTags) (address : Option Address)
    (hcm : p.checkMode = true) :
    MutFree (main_reconcile p domain isInstance searchTags address) := by
  unfold main_reconcile
  refine MutFree.ite_mf ?_ ?_
  · exact mutFree_main_present p domain isInstance searchTags address hcm
  · exact mutFree_main_absent p address isInstance hcm

theorem mutFree_main_run (p : Params) (hcm : p.checkMode = true) :
    MutFree (main_run p) := by
  unfold main_run
  dsimp only
  cases check_is_instance p.deviceId p.inVpc with
  | error e => exact mutFree_failJson _
  | ok isInstance =>
    refine MutFree.bind_mf (mutFree_generate_tag_dict _ _) fun searchTags => ?_
    refine MutFree.ite_mf ?_ ?_
    · refine MutFree.bind_mf (mutFree_find_address p _ _ _) fun y => ?_
      exact mutFree_main_reconcile p _ isInstance searchTags y hcm
    · refine MutFree.bind_mf (mutFree_find_address p _ _ _) fun y => ?_
      exact mutFree_main_reconcile p _ isInstance searchTags y hcm

/-- C4.  In check mode, a full invocation issues no allocate, associate,
disassociate or release call: the mutating part of the call log is empty
(read-only describe queries remain permitted, and every successful exit
still carries a changed verdict by construction of `ModuleResult`). -/
theorem check_mode_no_mutations (p : Params) (c : Cloud) (hcm : p.checkMode = true) :
    muts (run p c).2.log = [] := by
  have := mutFree_main_run p hcm { cloud := c, log := [] }
  simpa [run, muts] using this

/-- C4 witness: a check-mode run that would otherwise disassociate and
release performs no mutating call. -/
theorem check_mode_no_mutations_witness :
    muts (run { state := "absent", deviceId := some "i-check", publicIp := some "203.0.113.6",
                releaseOnDisassociation := true, checkMode := true }
          { addresses := [addrVpcFree], instances := [], enis := [], fresh := 0 }).2.log = [] :=
  check_mode_no_mutations _ _ rfl

end Ec2Eip

namespace Ec2Eip

/-! Machinery for exit-site reasoning (C1): `ExitsSat P m` says every
`module.exit_json` the computation can perform satisfies `P`; `RetSat Q m`
says every normal return value satisfies `Q`. -/

/-- Every exit the computation can perform satisfies `P`. -/
def ExitsSat {α : Type} (P : ModuleResult → Prop) (m : EipM α) : Prop :=
  ∀ s r s', m s = (.exited r, s') → P r

/-- Every normal return value of the computation satisfies `Q`. -/
def RetSat {α : Type} (Q : α → Prop) (m : EipM α) : Prop :=
  ∀ s a s', m s = (.ok a, s') → Q a

theorem ExitsSat.bind_es {α β : Type} {P : ModuleResult → Prop}
    {m : EipM α} {f : α → EipM β}
    (hm : ExitsSat P m) (hf : ∀ a, ExitsSat P (f a)) : ExitsSat P (m >>= f) := by
  intro s r s' h
  rw [bind_apply] at h
  rcases hm' : m s with ⟨out, t⟩
  rw [hm'] at h
  cases out with
  | ok a => exact hf a t r s' h
  | exited r0 =>
    simp only [Outcome.exited.injEq, Prod.mk.injEq] at h
    obtain ⟨h1, h2⟩ := h
    subst h1
    exact hm s _ t hm'
  | failed e => simp at h
  | crashed e => simp at h

/-- Bind where the continuation may use the return-value property of the
first computation. -/
theorem ExitsSat.bind_ret_es {α β : Type} {P : ModuleResult → Prop} {Q : α → Prop}
    {m : EipM α} {f : α → EipM β}
    (hm : ExitsSat P m) (hq : RetSat Q m) (hf : ∀ a, Q a → ExitsSat P (f a)) :
    ExitsSat P (m >>= f) := by
  intro s r s' h
  rw [bind_apply] at h
  rcases hm' : m s with ⟨out, t⟩
  rw [hm'] at h
  cases out with
  | ok a => exact hf a (hq s a t hm') t r s' h
  | exited r0 =>
    simp only [Outcome.exited.injEq, Prod.mk.injEq] at h
    obtain ⟨h1, h2⟩ := h
    subst h1
    exact hm s _ t hm'
  | failed e => simp at h
  | crashed e => simp at h

theorem ExitsSat.ite_es {α : Type} {P : ModuleResult → Prop} {c : Prop} [Decidable c]
    {m1 m2 : EipM α} (h1 : ExitsSat P m1) (h2 : ExitsSat P m2) :
    ExitsSat P (if c then m1 else m2) := by
  split <;> assumption

/-- Conditional variant where each side may use the decided condition. -/
theorem ExitsSat.iteCond {α : Type} {P : ModuleResult → Prop} {c : Prop} [Decidable c]
    {m1 m2 : EipM α} (h1 : c → ExitsSat P m1) (h2 : ¬c → ExitsSat P m2) :
    ExitsSat P (if c then m1 else m2) := by
  split
  · exact h1 (by assumption)
  · exact h2 (by assumption)

theorem exitsSat_pure {α : Type} {P : ModuleResult → Prop} (a : α) :
    ExitsSat P (pure a : EipM α) := by
  intro s r s' h
  simp [pure_apply] at h

theorem exitsSat_failJson {α : Type} {P : ModuleResult → Prop} (msg : String) :
    ExitsSat P (failJson msg : EipM α) := by
  intro s r s' h
  simp [failJson] at h

theorem exitsSat_pyCrash {α : Type} {P : ModuleResult → Prop} (msg : String) :
    ExitsSat P (pyCrash msg : EipM α) := by
  intro s r s' h
  simp [pyCrash] at h

theorem exitsSat_exitJson {α : Type} {P : ModuleResult → Prop} {r : ModuleResult}
    (h : P r) : ExitsSat P (exitJson r : EipM α) := by
  intro s r0 s' h0
  simp only [exitJson, Outcome.exited.injEq, Prod.mk.injEq] at h0
  obtain ⟨h1, h2⟩ := h0
  subst h1
  exact h

theorem exitsSat_getCloud {P : ModuleResult → Prop} : ExitsSat P getCloud := by
  intro s r s' h
  simp [getCloud] at h

theorem exitsSat_setCloud {P : ModuleResult → Prop} (c : Cloud) :
    ExitsSat P (setCloud c) := by
  intro s r s' h
  simp [setCloud] at h

theorem exitsSat_logCall {P : ModuleResult → Prop} (c : ApiCall) :
    ExitsSat P (logCall c) := by
  intro s r s' h
  simp [logCall] at h

theorem exitsSat_describe_addresses {P : ModuleResult → Prop} (args : DescribeArgs) :
    ExitsSat P (describe_addresses args) := by
  unfold describe_addresses
  exact ExitsSat.bind_es (exitsSat_logCall _) fun _ =>
    ExitsSat.bind_es exitsSat_getCloud fun _ => exitsSat_pure _

theorem exitsSat_describe_instances {P : ModuleResult → Prop} (i : String) :
    ExitsSat P (describe_instances i) := by
  unfold describe_instances
  exact ExitsSat.bind_es (exitsSat_logCall _) fun _ =>
    ExitsSat.bind_es exitsSat_getCloud fun _ => exitsSat_pure _

theorem exitsSat_describe_network_interfaces {P : ModuleResult → Prop} (i : String) :
    ExitsSat P (describe_network_interfaces i) := by
  unfold describe_network_interfaces
  exact ExitsSat.bind_es (exitsSat_logCall _) fun _ =>
    ExitsSat.bind_es exitsSat_getCloud fun _ => exitsSat_pure _

theorem exitsSat_allocate_ip_address {P : ModuleResult → Prop}
    (d pool : Option String) (tags : Tags) :
    ExitsSat P (allocate_ip_address d pool tags) := by
  unfold allocate_ip_address
  exact ExitsSat.bind_es (exitsSat_logCall _) fun _ =>
    ExitsSat.bind_es exitsSat_getCloud fun _ =>
      ExitsSat.bind_es (exitsSat_setCloud _) fun _ => exitsSat_pure _

theorem exitsSat_associate_address {P : ModuleResult → Prop} (args : AssociateArgs) :
    ExitsSat P (associate_address args) := by
  unfold associate_address
  refine ExitsSat.bind_es (exitsSat_logCall _) fun u => ?_
  refine ExitsSat.bind_es exitsSat_getCloud fun c => ?_
  split
  · exact exitsSat_pure _
  · exact ExitsSat.ite_es (exitsSat_pure _)
      (ExitsSat.bind_es (exitsSat_setCloud _) fun _ => exitsSat_pure _)

theorem exitsSat_disassociate_address {P : ModuleResult → Prop}
    (aid pub : Option String) :
    ExitsSat P (disassociate_address aid pub) := by
  unfold disassociate_address
  refine ExitsSat.bind_es (exitsSat_logCall _) fun u => ?_
  refine ExitsSat.bind_es exitsSat_getCloud fun c => ?_
  exact ExitsSat.ite_es
    (ExitsSat.bind_es (exitsSat_setCloud _) fun _ => exitsSat_pure _)
    (exitsSat_pure _)

theorem exitsSat_release_address {P : ModuleResult → Prop} (aid : String) :
    ExitsSat P (release_address aid) := by
  unfold release_address
  refine ExitsSat.bind_es (exitsSat_logCall _) fun u => ?_
  refine ExitsSat.bind_es exitsSat_getCloud fun c => ?_
  split
  · exact exitsSat_pure _
  · exact ExitsSat.ite_es (exitsSat_pure _)
      (ExitsSat.bind_es (exitsSat_setCloud _) fun _ => exitsSat_pure _)

/-- Every exit `find_address` can perform is the no-change result. -/
theorem exitsSat_find_address (p : Params) (pub dev : Option String) (ii : Bool) :
    ExitsSat (fun r => r = noChangeResult) (find_address p pub dev ii) := by
  unfold find_address
  cases findAddressArgs pub dev ii with
  | none => exact exitsSat_pure _
  | some args =>
    refine ExitsSat.bind_es (exitsSat_describe_addresses args) fun addresses => ?_
    rcases addresses with _ | ⟨a, _ | ⟨b, rest⟩⟩
    · exact ExitsSat.ite_es (exitsSat_exitJson rfl) (exitsSat_pure _)
    · exact exitsSat_pure _
    · exact exitsSat_failJson _

end Ec2Eip

namespace Ec2Eip

theorem ExitsSat.mono {α : Type} {P Q : ModuleResult → Prop} {m : EipM α}
    (hpq : ∀ r, P r → Q r) (hm : ExitsSat P m) : ExitsSat Q m :=
  fun s r s' h => hpq r (hm s r s' h)

theorem RetSat.pure {α : Type} {Q : α → Prop} {a : α} (h : Q a) :
    RetSat Q (pure a : EipM α) := by
  intro s b s' hb
  simp only [pure_apply, Outcome.ok.injEq, Prod.mk.injEq] at hb
  obtain ⟨h1, h2⟩ := hb
  subst h1
  exact h

/-- Bind for `RetSat` when the first computation needs no return fact. -/
theorem RetSat.bind_rs {α β : Type} {R : β → Prop} {m : EipM α} {f : α → EipM β}
    (hf : ∀ a, RetSat R (f a)) : RetSat R (m >>= f) := by
  intro s b s' h
  rw [bind_apply] at h
  rcases hm' : m s with ⟨out, t⟩
  rw [hm'] at h
  cases out with
  | ok a => exact hf a t b s' h
  | exited r0 => simp at h
  | failed e => simp at h
  | crashed e => simp at h

/-- Bind for `RetSat` using the return fact of the first computation. -/
theorem RetSat.bind_ret_rs {α β : Type} {Q : α → Prop} {R : β → Prop}
    {m : EipM α} {f : α → EipM β}
    (hq : RetSat Q m) (hf : ∀ a, Q a → RetSat R (f a)) : RetSat R (m >>= f) := by
  intro s b s' h
  rw [bind_apply] at h
  rcases hm' : m s with ⟨out, t⟩
  rw [hm'] at h
  cases out with
  | ok a => exact hf a (hq s a t hm') t b s' h
  | exited r0 => simp at h
  | failed e => simp at h
  | crashed e => simp at h

theorem RetSat.ite_rs {α : Type} {Q : α → Prop} {c : Prop} [Decidable c]
    {m1 m2 : EipM α} (h1 : RetSat Q m1) (h2 : RetSat Q m2) :
    RetSat Q (if c then m1 else m2) := by
  split <;> assumption

/-- `exit_json` produces no return value, so any return property holds. -/
theorem retSat_exitJson {α : Type} {Q : α → Prop} (r : ModuleResult) :
    RetSat Q (exitJson r : EipM α) := by
  intro s a s' h
  simp [exitJson] at h

/-- `fail_json` produces no return value. -/
theorem retSat_failJson {α : Type} {Q : α → Prop} (msg : String) :
    RetSat Q (failJson msg : EipM α) := by
  intro s a s' h
  simp [failJson] at h

/-- A crash produces no return value. -/
theorem retSat_pyCrash {α : Type} {Q : α → Prop} (msg : String) :
    RetSat Q (pyCrash msg : EipM α) := by
  intro s a s' h
  simp [pyCrash] at h

/-- Every exit `address_is_associated_with_device` can perform is the
no-change result (it can only come from the locator). -/
theorem exitsSat_address_is_associated (p : Params) (addr : Option Address)
    (dev : String) (ii : Bool) :
    ExitsSat (fun r => r = noChangeResult)
      (address_is_associated_with_device p addr dev ii) := by
  unfold address_is_associated_with_device
  refine ExitsSat.bind_es (exitsSat_find_address p _ _ _) fun result => ?_
  cases result with
  | none => exact exitsSat_pure _
  | some r =>
    exact ExitsSat.ite_es (exitsSat_pure _) (ExitsSat.ite_es (exitsSat_pure _) (exitsSat_pure _))

/-- Every exit `associate_ip_and_device` can perform is the no-change
result. -/
theorem exitsSat_associate_ip_and_device (p : Params) (addr : Option Address)
    (priv : Option String) (dev : String) (allowR ii : Bool) :
    ExitsSat (fun r => r = noChangeResult)
      (associate_ip_and_device p addr priv dev allowR ii) := by
  unfold associate_ip_and_device
  dsimp only
  refine ExitsSat.bind_es (exitsSat_address_is_associated p addr dev ii) fun b => ?_
  repeat'
    first
    | exact exitsSat_pure _
    | exact exitsSat_associate_address _
    | refine ExitsSat.bind_es (exitsSat_associate_address _) fun res => ?_
    | refine ExitsSat.bind_es (exitsSat_failJson _) fun u => ?_
    | exact exitsSat_failJson _
    | refine ExitsSat.ite_es ?_ ?_
    | split

/-- Every exit `disassociate_ip_and_device` can perform is the no-change
result. -/
theorem exitsSat_disassociate_ip_and_device (p : Params) (addr : Option Address)
    (dev : String) (ii : Bool) :
    ExitsSat (fun r => r = noChangeResult)
      (disassociate_ip_and_device p addr dev ii) := by
  unfold disassociate_ip_and_device
  dsimp only
  refine ExitsSat.bind_es (exitsSat_address_is_associated p addr dev ii) fun b => ?_
  repeat'
    first
    | exact exitsSat_pure _
    | exact exitsSat_disassociate_address _ _
    | refine ExitsSat.bind_es (exitsSat_disassociate_address _ _) fun res => ?_
    | refine ExitsSat.bind_es (exitsSat_failJson _) fun u => ?_
    | exact exitsSat_failJson _
    | refine ExitsSat.ite_es ?_ ?_
    | split

/-- `release_ip_address` never exits (it can only fail or crash). -/
theorem exitsSat_release_ip_address {P : ModuleResult → Prop} (p : Params)
    (addr : Option Address) :
    ExitsSat P (release_ip_address p addr) := by
  unfold release_ip_address
  dsimp only
  refine ExitsSat.ite_es ?_ ?_
  · split
    · refine ExitsSat.bind_es (exitsSat_pyCrash _) fun y => ?_
      refine ExitsSat.bind_es (exitsSat_release_address _) fun dl => ?_
      split
      · exact ExitsSat.bind_es (exitsSat_failJson _) fun u => exitsSat_pure _
      · exact exitsSat_pure _
    · split
      · refine ExitsSat.bind_es (exitsSat_pyCrash _) fun y => ?_
        refine ExitsSat.bind_es (exitsSat_release_address _) fun dl => ?_
        split
        · exact ExitsSat.bind_es (exitsSat_failJson _) fun u => exitsSat_pure _
        · exact exitsSat_pure _
      · refine ExitsSat.bind_es (exitsSat_pure _) fun y => ?_
        refine ExitsSat.bind_es (exitsSat_release_address _) fun dl => ?_
        split
        · exact ExitsSat.bind_es (exitsSat_failJson _) fun u => exitsSat_pure _
        · exact exitsSat_pure _
  · exact ExitsSat.bind_es (exitsSat_pure _) fun u => exitsSat_pure _

/-- `find_device` never exits. -/
theorem exitsSat_find_device {P : ModuleResult → Prop} (dev : String) (ii : Bool) :
    ExitsSat P (find_device dev ii) := by
  unfold find_device
  refine ExitsSat.ite_es ?_ ?_
  · refine ExitsSat.bind_es (exitsSat_describe_instances _) fun r => ?_
    split <;> exact exitsSat_pure _
  · refine ExitsSat.bind_es (exitsSat_describe_network_interfaces _) fun r => ?_
    split <;> exact exitsSat_pure _

/-- `generate_tag_dict` never exits. -/
theorem exitsSat_generate_tag_dict {P : ModuleResult → Prop}
    (tagName tagValue : Option String) :
    ExitsSat P (generate_tag_dict tagName tagValue) := by
  unfold generate_tag_dict
  exact ExitsSat.ite_es (exitsSat_pure _) (ExitsSat.ite_es (exitsSat_pure _)
    (ExitsSat.ite_es (exitsSat_failJson _) (exitsSat_pure _)))

/-- `allocate_address_from_pool` never exits. -/
theorem exitsSat_allocate_address_from_pool {P : ModuleResult → Prop}
    (domain : String) (cm : Bool) (pool : String) (tags : Option Tags) :
    ExitsSat P (allocate_address_from_pool domain cm pool tags) := by
  unfold allocate_address_from_pool
  dsimp only
  refine ExitsSat.ite_es (exitsSat_pure _) ?_
  refine ExitsSat.bind_es (exitsSat_pure _) fun u => ?_
  exact ExitsSat.bind_es (exitsSat_allocate_ip_address _ _ _) fun r => exitsSat_pure _

/-- `allocate_address` never exits. -/
theorem exitsSat_allocate_address {P : ModuleResult → Prop}
    (domain : Option String) (reuse cm : Bool) (tags : Option Tags)
    (st : Option SearchTags) (pool : Option String) :
    ExitsSat P (allocate_address domain reuse cm tags st pool) := by
  unfold allocate_address
  dsimp only
  refine ExitsSat.ite_es ?_ ?_
  · refine ExitsSat.bind_es (exitsSat_describe_addresses _) fun allAddresses => ?_
    refine ExitsSat.ite_es ?_ ?_
    · refine ExitsSat.bind_es (exitsSat_pure _) fun y => ?_
      split
      · exact exitsSat_pure _
      · refine ExitsSat.ite_es ?_ ?_
        · exact ExitsSat.bind_es (exitsSat_allocate_address_from_pool _ _ _ _) fun r => exitsSat_pure _
        · refine ExitsSat.ite_es ?_ ?_
          · exact ExitsSat.bind_es (exitsSat_allocate_ip_address _ _ _) fun r => exitsSat_pure _
          · exact exitsSat_pure _
    · split
      · refine ExitsSat.bind_es (exitsSat_pyCrash _) fun y => ?_
        split
        · exact exitsSat_pure _
        · refine ExitsSat.ite_es ?_ ?_
          · exact ExitsSat.bind_es (exitsSat_allocate_address_from_pool _ _ _ _) fun r => exitsSat_pure _
          · refine ExitsSat.ite_es ?_ ?_
            · exact ExitsSat.bind_es (exitsSat_allocate_ip_address _ _ _) fun r => exitsSat_pure _
            · exact exitsSat_pure _
      · refine ExitsSat.bind_es (exitsSat_pure _) fun y => ?_
        split
        · exact exitsSat_pure _
        · refine ExitsSat.ite_es ?_ ?_
          · exact ExitsSat.bind_es (exitsSat_allocate_address_from_pool _ _ _ _) fun r => exitsSat_pure _
          · refine ExitsSat.ite_es ?_ ?_
            · exact ExitsSat.bind_es (exitsSat_allocate_ip_address _ _ _) fun r => exitsSat_pure _
            · exact exitsSat_pure _
  · refine ExitsSat.bind_es (exitsSat_pure _) fun y => ?_
    split
    · exact exitsSat_pure _
    · refine ExitsSat.ite_es ?_ ?_
      · exact ExitsSat.bind_es (exitsSat_allocate_address_from_pool _ _ _ _) fun r => exitsSat_pure _
      · refine ExitsSat.ite_es ?_ ?_
        · exact ExitsSat.bind_es (exitsSat_allocate_ip_address _ _ _) fun r => exitsSat_pure _
        · exact exitsSat_pure _

/-- `ensure_ec2_tags` never exits. -/
theorem exitsSat_ensure_ec2_tags {P : ModuleResult → Prop} (p : Params)
    (aid : Option String) (tags : Option Tags) (purge : Bool) :
    ExitsSat P (ensure_ec2_tags p aid tags purge) := by
  unfold ensure_ec2_tags
  cases tags with
  | none => exact exitsSat_pure _
  | some desired =>
    refine ExitsSat.bind_es exitsSat_getCloud fun c => ?_
    split
    · exact exitsSat_pure _
    · split
      · exact exitsSat_pure _
      · dsimp only
        split
        · split
          · exact ExitsSat.bind_es (exitsSat_setCloud _) fun _ => exitsSat_pure _
          · exact exitsSat_pure _
        · split
          · exact ExitsSat.bind_es (exitsSat_setCloud _) fun _ => exitsSat_pure _
          · exact exitsSat_pure _

/-- The vpc guard never exits. -/
theorem exitsSat_ensure_present_vpc_check {P : ModuleResult → Prop}
    (domain : Option String) (inst : Option (Ec2Instance ⊕ Eni)) :
    ExitsSat P (ensure_present_vpc_check domain inst) := by
  unfold ensure_present_vpc_check
  repeat'
    first
    | exact exitsSat_pure _
    | exact exitsSat_pyCrash _
    | exact exitsSat_failJson _
    | refine ExitsSat.ite_es ?_ ?_
    | split

/-- The result construction never exits. -/
theorem exitsSat_ensure_present_result {P : ModuleResult → Prop}
    (addr : Option Address) (ch : Bool) :
    ExitsSat P (ensure_present_result addr ch) := by
  unfold ensure_present_result
  repeat'
    first
    | exact exitsSat_pure _
    | exact exitsSat_pyCrash _
    | split

/-- The result construction returns results with `released` and
`disassociated` absent. -/
theorem retSat_ensure_present_result (addr : Option Address) (ch : Bool) :
    RetSat (fun r => r.released = none ∧ r.disassociated = none)
      (ensure_present_result addr ch) := by
  rcases addr with _ | a0
  · intro s a s' h
    simp [ensure_present_result, pyCrash] at h
  · cases ha : a0.allocationId with
    | none =>
      intro s a s' h
      simp [ensure_present_result, ha, pyCrash] at h
    | some aid =>
      intro s a s' h
      simp only [ensure_present_result, ha, pure_apply, Outcome.ok.injEq, Prod.mk.injEq] at h
      obtain ⟨h1, h2⟩ := h
      subst h1
      exact ⟨rfl, rfl⟩

/-- Every exit `ensure_present_rest` can perform is the no-change result. -/
theorem exitsSat_ensure_present_rest (p : Params) (domain : Option String)
    (addr : Option Address) (ch0 : Bool) (priv : Option String)
    (dev : Option String) (reuse allowR ii : Bool) :
    ExitsSat (fun r => r = noChangeResult)
      (ensure_present_rest p domain addr ch0 priv dev reuse allowR ii) := by
  unfold ensure_present_rest
  dsimp only
  refine ExitsSat.ite_es ?_ ?_
  · refine ExitsSat.ite_es ?_ ?_
    · refine ExitsSat.bind_es (exitsSat_find_device _ _) fun inst => ?_
      refine ExitsSat.ite_es ?_ ?_
      · refine ExitsSat.bind_es (exitsSat_ensure_present_vpc_check _ _) fun u => ?_
        refine ExitsSat.bind_es (exitsSat_associate_ip_and_device p addr priv _ allowR _) fun c2 => ?_
        refine ExitsSat.bind_es (exitsSat_pure _) fun y => ?_
        exact exitsSat_ensure_present_result _ _
      · refine ExitsSat.bind_es (exitsSat_pure _) fun u => ?_
        refine ExitsSat.bind_es (exitsSat_associate_ip_and_device p addr priv _ allowR _) fun c2 => ?_
        refine ExitsSat.bind_es (exitsSat_pure _) fun y => ?_
        exact exitsSat_ensure_present_result _ _
    · refine ExitsSat.bind_es (exitsSat_find_device _ _) fun u => ?_
      refine ExitsSat.bind_es (exitsSat_associate_ip_and_device p addr priv _ allowR _) fun c2 => ?_
      refine ExitsSat.bind_es (exitsSat_pure _) fun y => ?_
      exact exitsSat_ensure_present_result _ _
  · refine ExitsSat.bind_es (exitsSat_pure _) fun y => ?_
    exact exitsSat_ensure_present_result _ _

/-- `ensure_present_rest` returns results with `released` and
`disassociated` absent. -/
theorem retSat_ensure_present_rest (p : Params) (domain : Option String)
    (addr : Option Address) (ch0 : Bool) (priv : Option String)
    (dev : Option String) (reuse allowR ii : Bool) :
    RetSat (fun r => r.released = none ∧ r.disassociated = none)
      (ensure_present_rest p domain addr ch0 priv dev reuse allowR ii) := by
  unfold ensure_present_rest
  dsimp only
  repeat'
    first
    | exact retSat_ensure_present_result _ _
    | refine RetSat.bind_rs fun a => ?_
    | refine RetSat.ite_rs ?_ ?_

/-- Every exit `ensure_present` can perform is the no-change result. -/
theorem exitsSat_ensure_present (p : Params) (domain : Option String)
    (addr : Option Address) (priv : Option String) (dev : Option String)
    (reuse allowR cm : Bool) (tags : Option Tags) (ii : Bool) :
    ExitsSat (fun r => r = noChangeResult)
      (ensure_present p domain addr priv dev reuse allowR cm tags ii) := by
  unfold ensure_present
  refine ExitsSat.ite_es (ExitsSat.ite_es (exitsSat_pure _) ?_) (exitsSat_ensure_present_rest p domain addr false priv dev reuse allowR ii)
  exact ExitsSat.bind_es (exitsSat_allocate_address _ _ _ _ _ _) fun a =>
    exitsSat_ensure_present_rest p domain _ _ priv dev reuse allowR ii

/-- `ensure_present` returns results with `released` and `disassociated`
absent. -/
theorem retSat_ensure_present (p : Params) (domain : Option String)
    (addr : Option Address) (priv : Option String) (dev : Option String)
    (reuse allowR cm : Bool) (tags : Option Tags) (ii : Bool) :
    RetSat (fun r => r.released = none ∧ r.disassociated = none)
      (ensure_present p domain addr priv dev reuse allowR cm tags ii) := by
  unfold ensure_present
  refine RetSat.ite_rs (RetSat.ite_rs (RetSat.pure ⟨rfl, rfl⟩) ?_)
    (retSat_ensure_present_rest p domain addr false priv dev reuse allowR ii)
  exact RetSat.bind_rs fun a => retSat_ensure_present_rest p domain _ _ priv dev reuse allowR ii

/-- Every exit `ensure_absent` can perform is the no-change result. -/
theorem exitsSat_ensure_absent (p : Params) (addr : Option Address)
    (dev : Option String) (ii : Bool) :
    ExitsSat (fun r => r = noChangeResult) (ensure_absent p addr dev ii) := by
  unfold ensure_absent
  refine ExitsSat.ite_es (exitsSat_pure _) ?_
  exact ExitsSat.ite_es (exitsSat_disassociate_ip_and_device p addr _ ii)
    (exitsSat_release_ip_address p addr)

end Ec2Eip

namespace Ec2Eip

/-- The release-gating property of C1, for one invocation's parameters:
a result can report `released=true` only when the desired state is not
`present` and either no device id was given, or the
`release_on_disassociation` path ran with `disassociated=true` in the same
result. -/
def ReleasedGating (p : Params) (r : ModuleResult) : Prop :=
  r.released = some true →
    p.state ≠ "present" ∧ (pyTruthyStr p.deviceId = false ∨
      (p.releaseOnDisassociation = true ∧ r.disassociated = some true))

theorem releasedGating_of_none (p : Params) {r : ModuleResult}
    (h : r.released = none) : ReleasedGating p r := by
  intro hr
  rw [h] at hr
  exact Option.noConfusion hr

theorem releasedGating_of_false (p : Params) {r : ModuleResult}
    (h : r.released = some false) : ReleasedGating p r := by
  intro hr
  rw [h] at hr
  simp at hr

theorem releasedGating_noChange (p : Params) :
    ∀ r, r = noChangeResult → ReleasedGating p r := fun r h =>
  releasedGating_of_false p (by rw [h]; rfl)

theorem exitsSat_main_address_result {P : ModuleResult → Prop} (a : Address) (ch : Bool) :
    ExitsSat P (main_address_result a ch) := by
  unfold main_address_result
  split
  · exact exitsSat_pyCrash _
  · exact exitsSat_pure _

theorem retSat_main_address_result (a : Address) (ch : Bool) :
    RetSat (fun r => r.released = none ∧ r.disassociated = none)
      (main_address_result a ch) := by
  cases ha : a.allocationId with
  | none =>
    intro s b s' h
    simp [main_address_result, ha, pyCrash] at h
  | some aid =>
    intro s b s' h
    simp only [main_address_result, ha, pure_apply, Outcome.ok.injEq, Prod.mk.injEq] at h
    obtain ⟨h1, h2⟩ := h
    subst h1
    exact ⟨rfl, rfl⟩

theorem exitsSat_main_present_finish (p : Params) (result : ModuleResult)
    (hres : result.released = none) :
    ExitsSat (ReleasedGating p) (main_present_finish p result) := by
  unfold main_present_finish
  refine ExitsSat.bind_es (exitsSat_ensure_ec2_tags p _ _ _) fun tc => ?_
  exact exitsSat_exitJson (releasedGating_of_none p hres)

theorem exitsSat_main_present (p : Params) (domain : Option String)
    (isInstance : Bool) (searchTags : Option SearchTags) (address : Option Address) :
    ExitsSat (ReleasedGating p) (main_present p domain isInstance searchTags address) := by
  unfold main_present
  dsimp only
  refine ExitsSat.ite_es ?_ ?_
  · refine ExitsSat.bind_ret_es
      (ExitsSat.mono (releasedGating_noChange p)
        (exitsSat_ensure_present p domain address p.privateIpAddress p.deviceId
          p.reuseExistingIpAllowed p.allowReassociation p.checkMode p.tags isInstance))
      (retSat_ensure_present p domain address p.privateIpAddress p.deviceId
        p.reuseExistingIpAllowed p.allowReassociation p.checkMode p.tags isInstance)
      fun result hres => ?_
    refine ExitsSat.ite_es ?_ ?_
    · refine ExitsSat.bind_ret_es (exitsSat_exitJson (releasedGating_of_none p hres.1))
        (@retSat_exitJson ModuleResult (fun _ => False) _) fun y hy => hy.elim
    · refine ExitsSat.bind_ret_es (exitsSat_pure _)
        (@RetSat.pure ModuleResult (fun y => y.released = none) result hres.1) fun y hy => ?_
      exact exitsSat_main_present_finish p y hy
  · refine ExitsSat.ite_es ?_ ?_
    · split
      · refine ExitsSat.bind_ret_es (exitsSat_main_address_result _ _)
          (retSat_main_address_result _ _) fun y hy => ?_
        exact exitsSat_main_present_finish p y hy.1
      · refine ExitsSat.bind_ret_es (exitsSat_pyCrash _)
          (@retSat_pyCrash ModuleResult (fun _ => False) _) fun y hy => hy.elim
    · refine ExitsSat.bind_es (exitsSat_allocate_address _ _ _ _ _ _) fun pr => ?_
      split
      · refine ExitsSat.bind_ret_es (exitsSat_main_address_result _ _)
          (retSat_main_address_result _ _) fun y hy => ?_
        exact exitsSat_main_present_finish p y hy.1
      · refine ExitsSat.bind_ret_es (exitsSat_exitJson (releasedGating_of_none p rfl))
          (@retSat_exitJson ModuleResult (fun _ => False) _) fun y hy => hy.elim

theorem exitsSat_main_absent (p : Params) (address : Option Address) (isInstance : Bool)
    (hps : p.state ≠ "present") :
    ExitsSat (ReleasedGating p) (main_absent p address isInstance) := by
  unfold main_absent
  refine ExitsSat.iteCond (fun hdev => ?_) (fun hdevn => ?_)
  · refine ExitsSat.bind_es
      (ExitsSat.mono (releasedGating_noChange p)
        (exitsSat_ensure_absent p address p.deviceId isInstance)) fun dis => ?_
    refine ExitsSat.iteCond (fun hrd => ?_) (fun hrd => ?_)
    · obtain ⟨hrod, hdis⟩ : p.releaseOnDisassociation = true ∧ dis = true := by
        simpa using hrd
      refine ExitsSat.bind_es (exitsSat_release_ip_address p _) fun ch => ?_
      refine exitsSat_exitJson ?_
      intro hrel
      subst hdis
      exact ⟨hps, .inr ⟨hrod, rfl⟩⟩
    · refine exitsSat_exitJson ?_
      intro hrel
      simp at hrel
  · have hdf : pyTruthyStr p.deviceId = false := by simpa using hdevn
    refine ExitsSat.bind_es (exitsSat_release_ip_address p _) fun ch => ?_
    refine exitsSat_exitJson ?_
    intro hrel
    exact ⟨hps, .inl hdf⟩

theorem exitsSat_main_reconcile (p : Params) (domain : Option String)
    (isInstance : Bool) (searchTags : Option SearchTags) (address : Option Address) :
    ExitsSat (ReleasedGating p)
      (main_reconcile p domain isInstance searchTags address) := by
  unfold main_reconcile
  refine ExitsSat.iteCond (fun hpres => ?_) (fun habs => ?_)
  · exact exitsSat_main_present p domain isInstance searchTags address
  · have hps : p.state ≠ "present" := fun he => habs (by simp [he])
    exact exitsSat_main_absent p address isInstance hps

theorem exitsSat_main_run (p : Params) :
    ExitsSat (ReleasedGating p) (main_run p) := by
  unfold main_run
  dsimp only
  cases check_is_instance p.deviceId p.inVpc with
  | error e => exact exitsSat_failJson _
  | ok isInstance =>
    refine ExitsSat.bind_es (exitsSat_generate_tag_dict _ _) fun st => ?_
    refine ExitsSat.ite_es ?_ ?_
    · refine ExitsSat.bind_es
        (ExitsSat.mono (releasedGating_noChange p) (exitsSat_find_address p _ _ _))
        fun y => ?_
      exact exitsSat_main_reconcile p _ isInstance st y
    · refine ExitsSat.bind_es
        (ExitsSat.mono (releasedGating_noChange p) (exitsSat_find_address p _ _ _))
        fun y => ?_
      exact exitsSat_main_reconcile p _ isInstance st y

/-- C1.  For every invocation, an exited result carries `released=true`
only if the desired state is not `present` and either no device id was
given (the explicit release path), or `release_on_disassociation` is set
and the same result reports `disassociated=true` (the release after a
confirmed disassociation); the code never reaches a release otherwise. -/
theorem released_gating (p : Params) (c : Cloud) (r : ModuleResult) (s' : St)
    (h : run p c = (.exited r, s')) (hrel : r.released = some true) :
    p.state ≠ "present" ∧ (pyTruthyStr p.deviceId = false ∨
      (p.releaseOnDisassociation = true ∧ r.disassociated = some true)) :=
  exitsSat_main_run p { cloud := c, log := [] } r s' h hrel

/-- C1 witness: a concrete `absent` run with a device and
`release_on_disassociation` that disassociates and releases. -/
theorem released_gating_witness :
    ("absent" : String) ≠ "present" ∧ (pyTruthyStr (some "eni-c8ad70f3") = false ∨
      (true = true ∧ (some true : Option Bool) = some true)) :=
  released_gating
    { state := "absent", deviceId := some "eni-c8ad70f3", inVpc := true,
      releaseOnDisassociation := true }
    { addresses := [{ publicIp := "203.0.113.7", allocationId := some "eipalloc-7",
                      domain := "vpc", associationId := some "eipassoc-7",
                      instanceId := none,
                      networkInterfaceId := some "eni-c8ad70f3", tags := [] }],
      instances := [], enis := [{ networkInterfaceId := "eni-c8ad70f3" }], fresh := 0 }
    { changed := true, disassociated := some true, released := some true }
    { cloud := { addresses := [], instances := [],
                 enis := [{ networkInterfaceId := "eni-c8ad70f3" }], fresh := 0 },
      log := [.describeAddresses, .describeAddresses, .disassociateAddress,
              .releaseAddress] }
    (by decide) rfl

end Ec2Eip

namespace Ec2Eip

/-! Infrastructure for the `present` idempotence claim (C5): freshness
hygiene of the cloud, and evaluation equations for the individual steps of
a run. -/

/-- Freshness hygiene: no pre-existing address uses the reserved public-IP
range or allocation-id prefix from which the modelled `AllocateAddress`
mints fresh identifiers. -/
def cloudWf (c : Cloud) : Bool :=
  c.addresses.all (fun a =>
    !pyStartsWith a.publicIp "198.51.100."
      && (match a.allocationId with
          | none => true
          | some x => !pyStartsWith x "eipalloc-fresh-"))

/-- A list is a prefix of itself extended by anything. -/
theorem listHasPrefix_append (l m : List Char) : listHasPrefix l (l ++ m) = true := by
  induction l with
  | nil => rfl
  | cons c cs ih => simp [listHasPrefix, ih]

/-- Character list of a string concatenation. -/
theorem toList_append (a b : String) : (a ++ b).toList = a.toList ++ b.toList := by
  cases a with
  | mk da =>
    cases b with
    | mk db => rfl

/-- Freshly minted public IPs carry the reserved prefix. -/
theorem freshIp_pre (n : Nat) : pyStartsWith (freshIp n) "198.51.100." = true := by
  unfold pyStartsWith freshIp
  rw [toList_append]
  exact listHasPrefix_append _ _

/-- Freshly minted allocation ids carry the reserved prefix. -/
theorem freshAllocId_pre (n : Nat) : pyStartsWith (freshAllocId n) "eipalloc-fresh-" = true := by
  unfold pyStartsWith freshAllocId
  rw [toList_append]
  exact listHasPrefix_append _ _

/-- In a hygienic cloud no address has a freshly minted public IP. -/
theorem cloudWf_ip_ne {c : Cloud} (hwf : cloudWf c = true) {b : Address}
    (hb : b ∈ c.addresses) (n : Nat) : b.publicIp ≠ freshIp n := by
  intro he
  have := List.all_eq_true.mp hwf b hb
  rw [he] at this
  simp [freshIp_pre n] at this

/-- In a hygienic cloud no address has a freshly minted allocation id. -/
theorem cloudWf_alloc_ne {c : Cloud} (hwf : cloudWf c = true) {b : Address}
    (hb : b ∈ c.addresses) (n : Nat) : b.allocationId ≠ some (freshAllocId n) := by
  intro he
  have := List.all_eq_true.mp hwf b hb
  rw [he] at this
  simp [freshAllocId_pre n] at this

/-- A nonempty string is truthy. -/
theorem pyTruthyStr_of_ne {ip : String} (h : ip ≠ "") : pyTruthyStr (some ip) = true := by
  unfold pyTruthyStr
  cases hip : ip.toList with
  | nil =>
    exfalso
    apply h
    cases ip with
    | mk d => cases d with
      | nil => rfl
      | cons x xs => simp [String.toList] at hip
  | cons x xs =>
    have : ip.data = x :: xs := hip
    simp [this]

/-- Fresh public IPs are truthy. -/
theorem pyTruthyStr_freshIp (n : Nat) : pyTruthyStr (some (freshIp n)) = true := by
  have h : (freshIp n).toList = "198.51.100.".toList ++ (toString n).toList :=
    toList_append _ _
  unfold pyTruthyStr
  simp only [h]
  simp [String.toList]

end Ec2Eip

namespace Ec2Eip

/-- With no tag parameters the search-tag dictionary is `None`. -/
theorem generate_tag_dict_none (s : St) :
    generate_tag_dict none none s = (.ok none, s) := rfl

/-- A truthy public IP queries by address value. -/
theorem findAddressArgs_pub (ip : String) (dev : Option String) (ii : Bool)
    (h : pyTruthyStr (some ip) = true) :
    findAddressArgs (some ip) dev ii = some { publicIps := some [ip] } := by
  simp [findAddressArgs, h]

/-- With no public IP and a truthy device id, the locator queries by the
device association filter. -/
theorem findAddressArgs_dev (dev : String) (ii : Bool)
    (h : pyTruthyStr (some dev) = true) :
    findAddressArgs none (some dev) ii
      = some { filters := [if ii then .instanceId dev else .networkInterfaceId dev] } := by
  have hd : ¬ dev.data = [] := by simpa [pyTruthyStr] using h
  simp [findAddressArgs, pyTruthyStr, hd]

/-- A locator query resolving to a single address returns it. -/
theorem find_address_single (p : Params) (pub dev : Option String) (ii : Bool)
    (s : St) (args : DescribeArgs) (b : Address)
    (hargs : findAddressArgs pub dev ii = some args)
    (hq : describeQuery s.cloud args = [b]) :
    find_address p pub dev ii s
      = (.ok (some b), { s with log := s.log ++ [.describeAddresses] }) := by
  unfold find_address
  rw [hargs]
  simp only [bind_apply, describe_addresses_apply, hq]
  rfl

/-- A locator query resolving to nothing under `state=present` returns
`None`. -/
theorem find_address_empty_present (p : Params) (pub dev : Option String) (ii : Bool)
    (s : St) (args : DescribeArgs)
    (hargs : findAddressArgs pub dev ii = some args)
    (hstate : p.state = "present")
    (hq : describeQuery s.cloud args = []) :
    find_address p pub dev ii s
      = (.ok none, { s with log := s.log ++ [.describeAddresses] }) := by
  unfold find_address
  rw [hargs]
  simp only [bind_apply, describe_addresses_apply, hq, hstate]
  rfl

/-- The association check on a singleton query result compares the
association field with the device id. -/
theorem address_check_single (p : Params) (b : Address) (dev : String) (ii : Bool)
    (s : St) (args : DescribeArgs)
    (hargs : findAddressArgs (some b.publicIp) (some dev) ii = some args)
    (hq : describeQuery s.cloud args = [b]) :
    address_is_associated_with_device p (some b) dev ii s
      = (.ok (if ii then b.instanceId == some dev else b.networkInterfaceId == some dev),
         { s with log := s.log ++ [.describeAddresses] }) := by
  unfold address_is_associated_with_device
  simp only [bind_apply, optPublicIp, Option.map]
  rw [find_address_single p _ _ ii s args b hargs hq]
  cases ii with
  | true =>
    cases hb : b.instanceId == some dev with
    | true => simp [hb, pure_apply]
    | false => simp [hb, pure_apply]
  | false =>
    cases hb : b.networkInterfaceId == some dev with
    | true => simp [hb, pure_apply]
    | false => simp [hb, pure_apply]

/-- The cloud after a successful `AssociateAddress`. -/
def assocCloudUpd (args : AssociateArgs) (c : Cloud) : Cloud :=
  { c with
    addresses := c.addresses.map (fun a =>
      if associateTargets args a then associateUpdate args c.fresh a else a)
    fresh := c.fresh + 1 }

/-- A successful `AssociateAddress`: the target exists and is free (or
reassociation is allowed). -/
theorem associate_address_success (args : AssociateArgs) (s : St) (t : Address)
    (hfind : s.cloud.addresses.find? (associateTargets args) = some t)
    (hok : (addrAssociated t && !args.allowReassociation) = false) :
    associate_address args s
      = (.ok (.ok true), { cloud := assocCloudUpd args s.cloud,
                           log := s.log ++ [.associateAddress] }) := by
  unfold associate_address
  simp only [bind_apply, logCall, getCloud, hfind, hok, Bool.false_eq_true, if_false,
    setCloud, pure_apply, assocCloudUpd]

/-- With no requested tags the tag reconciliation is a no-op. -/
theorem ensure_ec2_tags_none (p : Params) (aid : Option String) (purge : Bool) (s : St) :
    ensure_ec2_tags p aid none purge s = (.ok false, s) := rfl

/-- The address freshly minted by `allocate_address` at counter `n`: per
the spec's data-model invariant only `vpc`-domain addresses carry an
allocation id. -/
def freshAddress (n : Nat) (domainR : String) (tags : Tags) : Address :=
  { publicIp := freshIp n
    allocationId := if domainR == "vpc" then some (freshAllocId n) else none
    domain := domainR
    associationId := none, instanceId := none, networkInterfaceId := none, tags := tags }

/-- With reuse disabled and no pool, outside check mode, `allocate_address`
creates exactly one fresh address carrying the requested creation tags. -/
theorem allocate_address_fresh (domain : Option String) (tags : Option Tags) (s : St) :
    allocate_address domain false false tags none none s
      = (.ok (some (freshAddress s.cloud.fresh (resolveDomain domain) (tagSpecArg tags)),
          true),
         { cloud := { s.cloud with
             addresses := s.cloud.addresses
               ++ [freshAddress s.cloud.fresh (resolveDomain domain) (tagSpecArg tags)]
             fresh := s.cloud.fresh + 1 }
           log := s.log ++ [.allocateAddress] }) := by
  unfold allocate_address allocate_ip_address freshAddress
  simp only [bind_apply, pure_apply, logCall, getCloud, setCloud]
  rfl

/-- Applying `describe_instances` to a state. -/
theorem describe_instances_apply (i : String) (s : St) :
    describe_instances i s
      = (.ok (s.cloud.instances.filter (fun x => x.instanceId == i)),
         { s with log := s.log ++ [.describeInstances] }) := rfl

/-- Applying `describe_network_interfaces` to a state. -/
theorem describe_network_interfaces_apply (i : String) (s : St) :
    describe_network_interfaces i s
      = (.ok (s.cloud.enis.filter (fun x => x.networkInterfaceId == i)),
         { s with log := s.log ++ [.describeNetworkInterfaces] }) := rfl

/-- `find_device` is a pure read returning some value and logging one
describe call. -/
theorem find_device_ok (dev : String) (ii : Bool) (s : St) :
    ∃ v, find_device dev ii s
      = (.ok v, { s with log := s.log ++
          [if ii then ApiCall.describeInstances else ApiCall.describeNetworkInterfaces] }) := by
  cases ii with
  | true =>
    rcases hf : s.cloud.instances.filter (fun x => x.instanceId == dev) with _ | ⟨i, _ | ⟨j, r⟩⟩
    · exact ⟨none, by
        unfold find_device
        simp only [if_true, bind_apply, describe_instances_apply, hf]
        rfl⟩
    · exact ⟨some (.inl i), by
        unfold find_device
        simp only [if_true, bind_apply, describe_instances_apply, hf]
        rfl⟩
    · exact ⟨none, by
        unfold find_device
        simp only [if_true, bind_apply, describe_instances_apply, hf]
        rfl⟩
  | false =>
    rcases hf : s.cloud.enis.filter (fun x => x.networkInterfaceId == dev) with _ | ⟨i, _ | ⟨j, r⟩⟩
    · exact ⟨none, by
        unfold find_device
        simp only [Bool.false_eq_true, if_false, bind_apply,
          describe_network_interfaces_apply, hf]
        rfl⟩
    · exact ⟨some (.inr i), by
        unfold find_device
        simp only [Bool.false_eq_true, if_false, bind_apply,
          describe_network_interfaces_apply, hf]
        rfl⟩
    · exact ⟨none, by
        unfold find_device
        simp only [Bool.false_eq_true, if_false, bind_apply,
          describe_network_interfaces_apply, hf]
        rfl⟩

end Ec2Eip

namespace Ec2Eip

/-! List facts used by the idempotence development. -/

theorem filter_eq_single_mem {α : Type} {p : α → Bool} {l : List α} {b : α}
    (h : l.filter p = [b]) : b ∈ l ∧ p b = true := by
  have : b ∈ l.filter p := by rw [h]; exact List.mem_singleton_self b
  exact ⟨List.mem_of_mem_filter this, List.of_mem_filter this⟩

theorem find?_eq_of_filter_single {α : Type} {p : α → Bool} {l : List α} {b : α}
    (h : l.filter p = [b]) : l.find? p = some b := by
  induction l with
  | nil => simp at h
  | cons a rest ih =>
    cases ha : p a with
    | true =>
      rw [List.filter_cons_of_pos ha] at h
      obtain ⟨h1, h2⟩ := List.cons.injEq .. ▸ h
      rw [List.find?_cons_of_pos _ ha, h1]
    | false =>
      rw [List.filter_cons_of_neg (by simp [ha])] at h
      rw [List.find?_cons_of_neg _ (by simp [ha])]
      exact ih h

theorem find?_append_of_none {α : Type} {p : α → Bool} {l1 l2 : List α}
    (h : ∀ a ∈ l1, p a = false) : (l1 ++ l2).find? p = l2.find? p := by
  induction l1 with
  | nil => rfl
  | cons a rest ih =>
    rw [List.cons_append, List.find?_cons_of_neg _ (by simp [h a (List.mem_cons_self a rest)])]
    exact ih fun x hx => h x (List.mem_cons_of_mem a hx)

theorem map_eq_self_of {α : Type} {f : α → α} {l : List α}
    (h : ∀ a ∈ l, f a = a) : l.map f = l := by
  induction l with
  | nil => rfl
  | cons a rest ih =>
    rw [List.map_cons, h a (List.mem_cons_self a rest),
      ih fun x hx => h x (List.mem_cons_of_mem a hx)]

theorem filter_map_of_inv {α : Type} {f : α → α} {p : α → Bool} {l : List α}
    (h : ∀ a, p (f a) = p a) : (l.map f).filter p = (l.filter p).map f := by
  induction l with
  | nil => rfl
  | cons a rest ih =>
    cases ha : p a with
    | true =>
      rw [List.map_cons, List.filter_cons_of_pos (by rw [h a, ha]),
        List.filter_cons_of_pos ha, List.map_cons, ih]
    | false =>
      rw [List.map_cons, List.filter_cons_of_neg (by simp [h a, ha]),
        List.filter_cons_of_neg (by simp [ha]), ih]

theorem filter_eq_nil_of_all {α : Type} {p : α → Bool} {l : List α}
    (h : ∀ a ∈ l, p a = false) : l.filter p = [] := by
  induction l with
  | nil => rfl
  | cons a rest ih =>
    rw [List.filter_cons_of_neg (by simp [h a (List.mem_cons_self a rest)])]
    exact ih fun x hx => h x (List.mem_cons_of_mem a hx)

end Ec2Eip

namespace Ec2Eip

/-! Outcome-propagation equations and further evaluation facts for the
idempotence analysis (C5). -/

/-- Bind after a normal return continues at the intermediate state. -/
theorem bind_ok {α β : Type} {m : EipM α} {f : α → EipM β} {s s' : St} {a : α}
    (h : m s = (.ok a, s')) : (m >>= f) s = f a s' := by
  rw [bind_apply, h]

/-- Bind after a `fail_json` keeps the failure. -/
theorem bind_failed {α β : Type} {m : EipM α} {f : α → EipM β} {s s' : St} {e : String}
    (h : m s = (.failed e, s')) : (m >>= f) s = (.failed e, s') := by
  rw [bind_apply, h]

/-- Bind after an unhandled exception keeps the crash. -/
theorem bind_crashed {α β : Type} {m : EipM α} {f : α → EipM β} {s s' : St} {e : String}
    (h : m s = (.crashed e, s')) : (m >>= f) s = (.crashed e, s') := by
  rw [bind_apply, h]

/-- Bind after a `exit_json` keeps the exit. -/
theorem bind_exited {α β : Type} {m : EipM α} {f : α → EipM β} {s s' : St} {r : ModuleResult}
    (h : m s = (.exited r, s')) : (m >>= f) s = (.exited r, s') := by
  rw [bind_apply, h]

/-- Membership test of a one-element string list is a single comparison. -/
theorem contains_single (x y : String) : ([x] : List String).contains y = (y == x) := by
  simp [List.contains]
  cases h : y == x with
  | true => simp [beq_iff_eq.mp h]
  | false =>
    have : ¬ y = x := by
      intro he
      rw [he] at h
      simp at h
    simp [this]

/-- `find?` on a list whose filtering yields a single unique hit. -/
theorem find?_eq_of_unique {α : Type} {p : α → Bool} {l : List α} {b : α}
    (hmem : b ∈ l) (hb : p b = true) (huniq : ∀ x ∈ l, p x = true → x = b) :
    l.find? p = some b := by
  induction l with
  | nil => cases hmem
  | cons a rest ih =>
    cases ha : p a with
    | true =>
      rw [List.find?_cons_of_pos _ ha]
      rw [huniq a (List.mem_cons_self a rest) ha]
    | false =>
      rw [List.find?_cons_of_neg _ (by simp [ha])]
      have hbm : b ∈ rest := by
        cases List.mem_cons.mp hmem with
        | inl he => rw [he] at hb; rw [hb] at ha; cases ha
        | inr hr => exact hr
      exact ih hbm fun x hx hpx => huniq x (List.mem_cons_of_mem a hx) hpx

/-- A filtering with no hits means every element fails the predicate. -/
theorem filter_eq_nil_all {α : Type} {p : α → Bool} {l : List α}
    (h : l.filter p = []) : ∀ a ∈ l, p a = false := by
  intro a ha
  cases hp : p a with
  | true =>
    exfalso
    have : a ∈ l.filter p := List.mem_filter.mpr ⟨ha, hp⟩
    rw [h] at this
    cases this
  | false => rfl

/-- Allocation ids are pairwise distinct across a list of addresses (a
well-formedness fact of any real `DescribeAddresses` listing). -/
def allocIdsDistinct : List Address → Bool
  | [] => true
  | a :: rest =>
    (match a.allocationId with
      | none => true
      | some x => rest.all (fun b => !(b.allocationId == some x)))
    && allocIdsDistinct rest

/-- Distinct allocation ids identify addresses. -/
theorem allocIdsDistinct_inj {l : List Address} (hd : allocIdsDistinct l = true)
    {a b : Address} {x : String} (ha : a ∈ l) (hb : b ∈ l)
    (hax : a.allocationId = some x) (hbx : b.allocationId = some x) : a = b := by
  induction l with
  | nil => cases ha
  | cons h rest ih =>
    have hd2 : allocIdsDistinct rest = true := by
      have := (Bool.and_eq_true ..).mp hd
      exact this.2
    have hhead : ∀ y ∈ rest, h.allocationId = some x → y.allocationId ≠ some x := by
      intro y hy hh hyx
      have h1 := ((Bool.and_eq_true ..).mp hd).1
      rw [hh] at h1
      have := List.all_eq_true.mp h1 y hy
      rw [hyx] at this
      simp at this
    cases List.mem_cons.mp ha with
    | inl hea =>
      cases List.mem_cons.mp hb with
      | inl heb => rw [hea, heb]
      | inr hrb =>
        exfalso
        exact hhead b hrb (hea ▸ hax) hbx
    | inr hra =>
      cases List.mem_cons.mp hb with
      | inl heb =>
        exfalso
        exact hhead a hra (heb ▸ hbx) hax
      | inr hrb => exact ih hd2 hra hrb

/-- The `AssociateAddress` arguments built by `associate_ip_and_device`
for a given located address, device and flags (source lines 258 to 276). -/
def builtAssocArgs (address : Option Address) (priv : Option String) (dev : String)
    (allowR : Bool) (ii : Bool) : AssociateArgs :=
  if ii then
    { instanceId := some dev
      allowReassociation := allowR
      privateIpAddress := priv
      allocationId :=
        if optDomain address == some "vpc" then optAllocationId address else none
      publicIp :=
        if optDomain address == some "vpc" then none else optPublicIp address }
  else
    { networkInterfaceId := some dev
      allocationId := optAllocationId address
      allowReassociation := allowR
      privateIpAddress := priv }

/-- A successful association never changes the public IP of any address. -/
theorem assocUpdate_publicIp (args : AssociateArgs) (n : Nat) (a : Address) :
    (associateUpdate args n a).publicIp = a.publicIp := by
  unfold associateUpdate
  cases args.instanceId with
  | some d => rfl
  | none =>
    cases args.networkInterfaceId with
    | some d => rfl
    | none => rfl

/-- A successful association never changes the allocation id of any
address. -/
theorem assocUpdate_allocId (args : AssociateArgs) (n : Nat) (a : Address) :
    (associateUpdate args n a).allocationId = a.allocationId := by
  unfold associateUpdate
  cases args.instanceId with
  | some d => rfl
  | none =>
    cases args.networkInterfaceId with
    | some d => rfl
    | none => rfl

/-- The locator arguments with a falsy public IP and a truthy device id:
query by the device association filter. -/
theorem findAddressArgs_dev2 (pub : Option String) (dev : String) (ii : Bool)
    (hpub : pyTruthyStr pub = false) (hdev : pyTruthyStr (some dev) = true) :
    findAddressArgs pub (some dev) ii
      = some { filters := [if ii then .instanceId dev else .networkInterfaceId dev] } := by
  unfold findAddressArgs
  rw [hpub, hdev]
  simp

/-- A falsy device id always classifies as a non-instance device. -/
theorem check_is_instance_falsy {d : Option String} (v : Bool)
    (h : pyTruthyStr d = false) : check_is_instance d v = .ok false := by
  unfold check_is_instance
  rw [h]
  rfl

/-- An `AssociateAddress` call with no matching target reports the typed
cloud-API error. -/
theorem associate_address_no_target (args : AssociateArgs) (s : St)
    (hfind : s.cloud.addresses.find? (associateTargets args) = none) :
    associate_address args s
      = (.ok (.error ()), { s with log := s.log ++ [.associateAddress] }) := by
  unfold associate_address
  simp only [bind_apply, logCall, getCloud, hfind]
  rfl

/-- An `AssociateAddress` call on a busy target without reassociation
reports the typed cloud-API error. -/
theorem associate_address_busy (args : AssociateArgs) (s : St) (t : Address)
    (hfind : s.cloud.addresses.find? (associateTargets args) = some t)
    (hbusy : (addrAssociated t && !args.allowReassociation) = true) :
    associate_address args s
      = (.ok (.error ()), { s with log := s.log ++ [.associateAddress] }) := by
  unfold associate_address
  simp only [bind_apply, logCall, getCloud, hfind, hbusy]
  rfl

end Ec2Eip

namespace Ec2Eip

/-- `associate_ip_and_device` is a read-only no-op returning `False` when
the located address is already bound to the requested device. -/
theorem associate_ipdev_noop (p : Params) (b : Address) (priv : Option String)
    (dev : String) (allowR ii : Bool) (s : St) (args2 : DescribeArgs)
    (hargs2 : findAddressArgs (some b.publicIp) (some dev) ii = some args2)
    (hq2 : describeQuery s.cloud args2 = [b])
    (hassoc : (if ii then b.instanceId == some dev else b.networkInterfaceId == some dev)
      = true) :
    associate_ip_and_device p (some b) priv dev allowR ii s
      = (.ok false, { s with log := s.log ++ [.describeAddresses] }) := by
  unfold associate_ip_and_device
  simp only [bind_apply, address_check_single p b dev ii s args2 hargs2 hq2, hassoc]
  rfl

/-- `associate_ip_and_device` outside check mode performs the association
when the located address is not yet bound to the requested device. -/
theorem associate_ipdev_do (p : Params) (b : Address) (priv : Option String)
    (dev : String) (allowR ii : Bool) (s : St) (args2 : DescribeArgs) (t : Address)
    (hargs2 : findAddressArgs (some b.publicIp) (some dev) ii = some args2)
    (hq2 : describeQuery s.cloud args2 = [b])
    (hnassoc : (if ii then b.instanceId == some dev else b.networkInterfaceId == some dev)
      = false)
    (hcm : p.checkMode = false)
    (hfind : s.cloud.addresses.find?
      (associateTargets (builtAssocArgs (some b) priv dev allowR ii)) = some t)
    (hfree : (addrAssociated t && !allowR) = false) :
    associate_ip_and_device p (some b) priv dev allowR ii s
      = (.ok true,
         { cloud := assocCloudUpd (builtAssocArgs (some b) priv dev allowR ii) s.cloud
           log := (s.log ++ [.describeAddresses]) ++ [.associateAddress] }) := by
  unfold associate_ip_and_device
  simp only [bind_apply, address_check_single p b dev ii s args2 hargs2 hq2, hnassoc, hcm]
  cases ii with
  | true =>
    have hA := associate_address_success (builtAssocArgs (some b) priv dev allowR true)
      { s with log := s.log ++ [.describeAddresses] } t hfind hfree
    simp only [builtAssocArgs, if_true] at hA
    simp only [Bool.false_eq_true, if_false, Bool.not_false, if_true, bind_apply,
      pure_apply, hA, Bool.not_true, builtAssocArgs]
  | false =>
    have hA := associate_address_success (builtAssocArgs (some b) priv dev allowR false)
      { s with log := s.log ++ [.describeAddresses] } t hfind hfree
    simp only [builtAssocArgs, Bool.false_eq_true, if_false] at hA
    simp only [Bool.false_eq_true, if_false, Bool.not_false, if_true, bind_apply,
      pure_apply, hA, Bool.not_true, builtAssocArgs]

/-- `associate_ip_and_device` fails with the ambiguity diagnostic when the
association re-query matches several addresses. -/
theorem associate_ipdev_checkfail (p : Params) (b : Address) (priv : Option String)
    (dev : String) (allowR ii : Bool) (s : St) (args2 : DescribeArgs)
    (hargs2 : findAddressArgs (some b.publicIp) (some dev) ii = some args2)
    (hlen : 2 ≤ (describeQuery s.cloud args2).length) :
    ∃ m s', associate_ip_and_device p (some b) priv dev allowR ii s = (.failed m, s') := by
  have hchk : address_is_associated_with_device p (some b) dev ii s
      = (.failed (tooManyMsg args2 (describeQuery s.cloud args2)),
         { s with log := s.log ++ [.describeAddresses] }) := by
    unfold address_is_associated_with_device
    have hf := find_address_multi p (optPublicIp (some b)) (some dev) ii s args2
      (by simpa [optPublicIp, Option.map] using hargs2) hlen
    simp only [bind_apply, hf]
  refine ⟨tooManyMsg args2 (describeQuery s.cloud args2),
    { s with log := s.log ++ [.describeAddresses] }, ?_⟩
  unfold associate_ip_and_device
  simp only [bind_apply, hchk]

/-- `associate_ip_and_device` outside check mode surfaces the cloud-API
association error as a `fail_json`. -/
theorem associate_ipdev_errfail (p : Params) (b : Address) (priv : Option String)
    (dev : String) (allowR ii : Bool) (s : St) (args2 : DescribeArgs)
    (hargs2 : findAddressArgs (some b.publicIp) (some dev) ii = some args2)
    (hq2 : describeQuery s.cloud args2 = [b])
    (hnassoc : (if ii then b.instanceId == some dev else b.networkInterfaceId == some dev)
      = false)
    (hcm : p.checkMode = false)
    (herr : s.cloud.addresses.find?
        (associateTargets (builtAssocArgs (some b) priv dev allowR ii)) = none
      ∨ ∃ t, s.cloud.addresses.find?
          (associateTargets (builtAssocArgs (some b) priv dev allowR ii)) = some t
        ∧ (addrAssociated t && !allowR) = true) :
    ∃ m s', associate_ip_and_device p (some b) priv dev allowR ii s = (.failed m, s') := by
  unfold associate_ip_and_device
  have hA : associate_address (builtAssocArgs (some b) priv dev allowR ii)
      { s with log := s.log ++ [.describeAddresses] }
      = (.ok (.error ()),
         { s with log := (s.log ++ [.describeAddresses]) ++ [.associateAddress] }) := by
    cases herr with
    | inl hnone => exact associate_address_no_target _ _ hnone
    | inr hbusy =>
      obtain ⟨t, hft, hbt⟩ := hbusy
      refine associate_address_busy _ _ t hft ?_
      cases ii with
      | true => simpa [builtAssocArgs] using hbt
      | false => simpa [builtAssocArgs] using hbt
  cases ii with
  | true =>
    have hn : (b.instanceId == some dev) = false := by simpa using hnassoc
    simp only [builtAssocArgs, if_true] at hA
    refine ⟨"Couldnt associate Elastic IP address with instance " ++ dev,
      { s with log := (s.log ++ [.describeAddresses]) ++ [.associateAddress] }, ?_⟩
    simp only [bind_apply, address_check_single p b dev true s args2 hargs2 hq2, hn,
      hcm, Bool.false_eq_true, if_false, Bool.not_false, if_true, pure_apply, hA, failJson]
  | false =>
    have hn : (b.networkInterfaceId == some dev) = false := by simpa using hnassoc
    simp only [builtAssocArgs, Bool.false_eq_true, if_false] at hA
    refine ⟨"Couldnt associate Elastic IP address with network interface " ++ dev,
      { s with log := (s.log ++ [.describeAddresses]) ++ [.associateAddress] }, ?_⟩
    simp only [bind_apply, address_check_single p b dev false s args2 hargs2 hq2, hn,
      hcm, Bool.false_eq_true, if_false, Bool.not_false, if_true, pure_apply, hA, failJson]

end Ec2Eip

namespace Ec2Eip

/-- The freshly allocated `vpc` address after its association with the
device. -/
def freshAssoc (dev : String) (ii : Bool) (n : Nat) (tags : Tags) : Address :=
  if ii then
    { freshAddress n "vpc" tags with
        instanceId := some dev
        networkInterfaceId := none
        associationId := some (freshAssocId (n + 1)) }
  else
    { freshAddress n "vpc" tags with
        networkInterfaceId := some dev
        instanceId := none
        associationId := some (freshAssocId (n + 1)) }

/-- No pre-existing address of a hygienic cloud is targeted by the
association call built for the freshly allocated `vpc` address. -/
theorem m1_targets_old {c : Cloud} (hwf : cloudWf c = true) (tags : Tags)
    (priv : Option String) (dev : String) (allowR ii : Bool) :
    ∀ a ∈ c.addresses,
      associateTargets
        (builtAssocArgs (some (freshAddress c.fresh "vpc" tags)) priv dev allowR ii) a
        = false := by
  intro a ha
  have halne := cloudWf_alloc_ne hwf ha c.fresh
  cases ii with
  | true =>
    simp [builtAssocArgs, associateTargets, optAllocationId, optDomain, Option.bind,
      Option.map, freshAddress, halne]
  | false =>
    simp [builtAssocArgs, associateTargets, optAllocationId, Option.bind, freshAddress,
      halne]

/-- The freshly allocated `vpc` address is targeted by its own association
call. -/
theorem m1_targets_fresh (tags : Tags) (priv : Option String) (dev : String)
    (allowR ii : Bool) (n : Nat) :
    associateTargets
      (builtAssocArgs (some (freshAddress n "vpc" tags)) priv dev allowR ii)
      (freshAddress n "vpc" tags) = true := by
  cases ii with
  | true =>
    simp [builtAssocArgs, associateTargets, optAllocationId, optDomain, Option.bind,
      Option.map, freshAddress]
  | false =>
    simp [builtAssocArgs, associateTargets, optAllocationId, Option.bind, freshAddress]

/-- The association target lookup for the freshly allocated `vpc`
address. -/
theorem m1_find {c : Cloud} (hwf : cloudWf c = true) (tags : Tags)
    (priv : Option String) (dev : String) (allowR ii : Bool) :
    (c.addresses ++ [freshAddress c.fresh "vpc" tags]).find?
      (associateTargets
        (builtAssocArgs (some (freshAddress c.fresh "vpc" tags)) priv dev allowR ii))
      = some (freshAddress c.fresh "vpc" tags) := by
  rw [find?_append_of_none (m1_targets_old hwf tags priv dev allowR ii)]
  rw [List.find?_cons_of_pos _ (m1_targets_fresh tags priv dev allowR ii c.fresh)]

/-- The cloud after allocating a fresh `vpc` address and associating it:
the pre-existing addresses are untouched and the new address carries the
association. -/
theorem m1_cloud_eq {c : Cloud} (hwf : cloudWf c = true) (tags : Tags)
    (priv : Option String) (dev : String) (allowR ii : Bool) :
    assocCloudUpd
      (builtAssocArgs (some (freshAddress c.fresh "vpc" tags)) priv dev allowR ii)
      { c with addresses := c.addresses ++ [freshAddress c.fresh "vpc" tags]
               fresh := c.fresh + 1 }
      = { c with addresses := c.addresses ++ [freshAssoc dev ii c.fresh tags]
                 fresh := c.fresh + 2 } := by
  unfold assocCloudUpd
  simp only [List.map_append]
  rw [map_eq_self_of (by
    intro a ha
    rw [m1_targets_old hwf tags priv dev allowR ii a ha]
    simp)]
  have hup : (if associateTargets
        (builtAssocArgs (some (freshAddress c.fresh "vpc" tags)) priv dev allowR ii)
        (freshAddress c.fresh "vpc" tags) = true then
      associateUpdate
        (builtAssocArgs (some (freshAddress c.fresh "vpc" tags)) priv dev allowR ii)
        (c.fresh + 1) (freshAddress c.fresh "vpc" tags)
    else freshAddress c.fresh "vpc" tags) = freshAssoc dev ii c.fresh tags := by
    rw [if_pos (m1_targets_fresh tags priv dev allowR ii c.fresh)]
    cases ii with
    | true => simp [builtAssocArgs, associateUpdate, freshAssoc]
    | false => simp [builtAssocArgs, associateUpdate, freshAssoc]
  simp only [List.map_cons, List.map_nil, hup]

end Ec2Eip

namespace Ec2Eip

/-- A describe query by a single public IP is a filter on that IP. -/
theorem describeQuery_ip (c : Cloud) (ip : String) :
    describeQuery c { publicIps := some [ip] }
      = c.addresses.filter (fun a => a.publicIp == ip) := by
  unfold describeQuery
  congr 1
  funext a
  simp [contains_single, beq_eq_decide]

/-- A describe query by the device association filter is a filter on the
association field. -/
theorem describeQuery_dev (c : Cloud) (dev : String) (ii : Bool) :
    describeQuery c
        { filters := [if ii then .instanceId dev else .networkInterfaceId dev] }
      = c.addresses.filter
          (fun a => if ii then a.instanceId == some dev
                    else a.networkInterfaceId == some dev) := by
  unfold describeQuery
  congr 1
  funext a
  cases ii with
  | true => simp [matchesFilter]
  | false => simp [matchesFilter]

/-- Filtering by an IP carried only by the appended address yields exactly
that address. -/
theorem filter_ip_not_in {l : List Address} {ip : String}
    (hne : ∀ a ∈ l, a.publicIp ≠ ip) (x : Address) (hx : x.publicIp = ip) :
    (l ++ [x]).filter (fun a => a.publicIp == ip) = [x] := by
  rw [List.filter_append, filter_eq_nil_of_all (fun a ha => by simp [hne a ha])]
  simp [hx]

/-- Filtering by a device association carried only by the appended address
yields exactly that address. -/
theorem filter_dev_not_in {l : List Address} {dev : String} {ii : Bool}
    (hne : ∀ a ∈ l, (if ii then a.instanceId == some dev
                     else a.networkInterfaceId == some dev) = false)
    (x : Address)
    (hx : (if ii then x.instanceId == some dev
           else x.networkInterfaceId == some dev) = true) :
    (l ++ [x]).filter (fun a => if ii then a.instanceId == some dev
                                else a.networkInterfaceId == some dev) = [x] := by
  rw [List.filter_append, filter_eq_nil_of_all (fun a ha => hne a ha)]
  simp [hx]

/-- `ensure_present` on a located address goes straight to the association
step with `changed=False`. -/
theorem ep_found (p : Params) (domain : Option String) (b : Address)
    (priv dev : Option String) (reuse allowR cm : Bool) (tags : Option Tags)
    (ii : Bool) (s : St) :
    ensure_present p domain (some b) priv dev reuse allowR cm tags ii s
      = ensure_present_rest p domain (some b) false priv dev reuse allowR ii s := by
  unfold ensure_present
  simp [pyTruthyAddr]

end Ec2Eip

namespace Ec2Eip

/-- A device-classification error fails the run before any API call. -/
theorem run_check_error (p : Params) (c : Cloud) (e : String)
    (hci : check_is_instance p.deviceId p.inVpc = .error e) :
    run p c = (.failed e, St.mk c []) := by
  simp only [run, main_run, hci]
  rfl

/-- Under `state=present` the dispatch selects the `present` branch. -/
theorem main_reconcile_present (p : Params) (d : Option String) (ii : Bool)
    (st : Option SearchTags) (a : Option Address) (s : St)
    (hstate : p.state = "present") :
    main_reconcile p d ii st a s = main_present p d ii st a s := by
  unfold main_reconcile
  rw [hstate]
  rfl

end Ec2Eip

namespace Ec2Eip

/-- A truthy optional string is a some. -/
theorem pyTruthyStr_some {o : Option String} (h : pyTruthyStr o = true) :
    ∃ d, o = some d ∧ pyTruthyStr (some d) = true := by
  cases o with
  | none => simp [pyTruthyStr] at h
  | some d => exact ⟨d, rfl, h⟩

end Ec2Eip



namespace Ec2Eip

/-- Public IPs are pairwise distinct across a list of addresses (a
well-formedness fact of any real `DescribeAddresses` listing: an Elastic
IP is a unique identifier). -/
def publicIpsDistinct : List Address → Bool
  | [] => true
  | a :: rest =>
    rest.all (fun x => !(x.publicIp == a.publicIp)) && publicIpsDistinct rest

/-- With pairwise-distinct public IPs, filtering by a member's IP yields
exactly that member. -/
theorem filter_ip_single {l : List Address} (hd : publicIpsDistinct l = true)
    {b : Address} (hmem : b ∈ l) :
    l.filter (fun x => x.publicIp == b.publicIp) = [b] := by
  induction l with
  | nil => cases hmem
  | cons a rest ih =>
    have h1 : rest.all (fun x => !(x.publicIp == a.publicIp)) = true :=
      ((Bool.and_eq_true ..).mp hd).1
    have h2 : publicIpsDistinct rest = true := ((Bool.and_eq_true ..).mp hd).2
    cases List.mem_cons.mp hmem with
    | inl he =>
      subst he
      rw [List.filter_cons_of_pos (by simp)]
      rw [filter_eq_nil_of_all (fun x hx => by
        have := List.all_eq_true.mp h1 x hx
        simpa using this)]
    | inr hr =>
      have hne : a.publicIp ≠ b.publicIp := by
        have := List.all_eq_true.mp h1 b hr
        intro he
        rw [he] at this
        simp at this
      rw [List.filter_cons_of_neg (by simp [hne])]
      exact ih h2 hr

/-- With pairwise-distinct allocation ids, filtering by a member's id
yields exactly that member. -/
theorem filter_alloc_single {l : List Address} (hd : allocIdsDistinct l = true)
    {b : Address} {aid : String} (hmem : b ∈ l) (hb : b.allocationId = some aid) :
    l.filter (fun x => x.allocationId == some aid) = [b] := by
  induction l with
  | nil => cases hmem
  | cons a rest ih =>
    have h2 : allocIdsDistinct rest = true := ((Bool.and_eq_true ..).mp hd).2
    have h1 := ((Bool.and_eq_true ..).mp hd).1
    cases List.mem_cons.mp hmem with
    | inl he =>
      subst he
      rw [List.filter_cons_of_pos (by simp [hb])]
      rw [hb] at h1
      rw [filter_eq_nil_of_all (fun x hx => by
        have := List.all_eq_true.mp h1 x hx
        simpa using this)]
    | inr hr =>
      cases hpa : (a.allocationId == some aid) with
      | true =>
        exfalso
        have hae : a.allocationId = some aid := by simpa using hpa
        rw [hae] at h1
        have := List.all_eq_true.mp h1 b hr
        rw [hb] at this
        simp at this
      | false =>
        rw [List.filter_cons_of_neg (by simp [hpa])]
        exact ih h2 hr

/-- Mapping a pointwise update that fires exactly at the single
`q`-element: the `pred`-filtering of the image is the updated element
whenever `pred` held nowhere else and holds of the update. -/
theorem filter_map_single {α : Type} {l : List α} {q pred : α → Bool} {f : α → α}
    {b : α}
    (hq : l.filter q = [b])
    (hpred_old : ∀ x ∈ l, q x = false → pred x = false)
    (hnew : pred (f b) = true) :
    (l.map (fun x => if q x = true then f x else x)).filter pred = [f b] := by
  induction l with
  | nil => simp at hq
  | cons a rest ih =>
    cases hqa : q a with
    | true =>
      rw [List.filter_cons_of_pos hqa] at hq
      obtain ⟨h1, h2⟩ := List.cons.injEq .. ▸ hq
      subst h1
      rw [List.map_cons, if_pos hqa, List.filter_cons_of_pos hnew]
      rw [map_eq_self_of (fun x hx => by
        have : q x = false := by
          cases hqx : q x with
          | false => rfl
          | true =>
            exfalso
            have : x ∈ rest.filter q := List.mem_filter.mpr ⟨hx, hqx⟩
            rw [h2] at this
            cases this
        simp [this])]
      rw [filter_eq_nil_of_all (fun x hx => hpred_old x (List.mem_cons_of_mem a hx)
        (by
          cases hqx : q x with
          | false => rfl
          | true =>
            exfalso
            have : x ∈ rest.filter q := List.mem_filter.mpr ⟨hx, hqx⟩
            rw [h2] at this
            cases this))]
    | false =>
      rw [List.filter_cons_of_neg (by simp [hqa])] at hq
      rw [List.map_cons, if_neg (by simp [hqa]),
        List.filter_cons_of_neg
          (by simp [hpred_old a (List.mem_cons_self a rest) hqa])]
      exact ih hq fun x hx => hpred_old x (List.mem_cons_of_mem a hx)

/-- Variant of `filter_map_single` where `pred` is itself known to single
out the same element. -/
theorem filter_map_single2 {α : Type} {l : List α} {q pred : α → Bool} {f : α → α}
    {b : α}
    (hq : l.filter q = [b])
    (hpred : l.filter pred = [b])
    (hnew : pred (f b) = true) :
    (l.map (fun x => if q x = true then f x else x)).filter pred = [f b] := by
  refine filter_map_single hq (fun x hx hqx => ?_) hnew
  cases hpx : pred x with
  | false => rfl
  | true =>
    exfalso
    have hxm : x ∈ l.filter pred := List.mem_filter.mpr ⟨hx, hpx⟩
    rw [hpred] at hxm
    have hxb : x = b := by simpa using hxm
    subst hxb
    have hbq : x ∈ l.filter q := by
      rw [hq]
      exact List.mem_singleton_self x
    rw [List.of_mem_filter hbq] at hqx
    cases hqx

end Ec2Eip

namespace Ec2Eip

/-- The tag map `ensure_ec2_tags` drives the resource towards: the desired
map under purge, the override-merge otherwise (source of the collaborator
contract, spec section 6). -/
def newTagsFor (purge : Bool) (cur desired : Tags) : Tags :=
  if purge then desired else mergeTags cur desired

/-- Merging a tag map into itself changes nothing. -/
theorem mergeTags_self (T : Tags) : mergeTags T T = T := by
  unfold mergeTags
  rw [filter_eq_nil_of_all (fun t ht => by
    have : T.any (fun d => d.1 == t.1) = true := List.any_eq_true.mpr ⟨t, ht, by simp⟩
    simp [this])]
  rfl

/-- A filtering whose predicate holds everywhere is the identity. -/
theorem filter_id_of_all {α : Type} {p : α → Bool} {l : List α}
    (h : ∀ a ∈ l, p a = true) : l.filter p = l := by
  induction l with
  | nil => rfl
  | cons a rest ih =>
    rw [List.filter_cons_of_pos (h a (List.mem_cons_self a rest)),
      ih fun x hx => h x (List.mem_cons_of_mem a hx)]

/-- The override-merge is idempotent in its current-map argument. -/
theorem mergeTags_idem (cur T : Tags) : mergeTags (mergeTags cur T) T = mergeTags cur T := by
  have h1 : List.filter (fun t => !List.any T fun d => d.1 == t.1)
      (List.filter (fun t => !List.any T fun d => d.1 == t.1) cur)
      = List.filter (fun t => !List.any T fun d => d.1 == t.1) cur :=
    filter_id_of_all (fun t ht => (List.mem_filter.mp ht).2)
  have h2 : List.filter (fun t => !List.any T fun d => d.1 == t.1) T = [] :=
    filter_eq_nil_of_all (fun t ht => by
      have : T.any (fun d => d.1 == t.1) = true := List.any_eq_true.mpr ⟨t, ht, by simp⟩
      simp [this])
  show List.filter (fun t => !List.any T fun d => d.1 == t.1)
      (List.filter (fun t => !List.any T fun d => d.1 == t.1) cur ++ T) ++ T
    = mergeTags cur T
  rw [List.filter_append, h1, h2, List.append_nil]
  rfl

/-- The tag reconciliation target is idempotent. -/
theorem newTagsFor_idem (purge : Bool) (cur T : Tags) :
    newTagsFor purge (newTagsFor purge cur T) T = newTagsFor purge cur T := by
  cases purge with
  | true => rfl
  | false => simp [newTagsFor, mergeTags_idem]

/-- Creation-time tags already are the reconciliation target, so the tag
step after a fresh tagged allocation is a no-op. -/
theorem fresh_tags_nochange (purge : Bool) (T : Tags) :
    (newTagsFor purge (tagSpecArg (some T)) T != tagSpecArg (some T)) = false := by
  have heq : newTagsFor purge (tagSpecArg (some T)) T = tagSpecArg (some T) := by
    unfold tagSpecArg
    cases ht : pyTruthyTags (some T) with
    | true =>
      simp only [if_true]
      cases purge with
      | true => rfl
      | false => simp [newTagsFor, mergeTags_self]
    | false =>
      have hT : T = [] := by
        have : T.isEmpty = true := by simpa [pyTruthyTags] using ht
        simpa using this
      subst hT
      cases purge with
      | true => rfl
      | false => rfl
  rw [heq]
  simp

/-- The cloud after `ensure_ec2_tags` rewrites the tags of the addressed
allocation. -/
def tagCloudUpd (aid : String) (nt : Tags) (c : Cloud) : Cloud :=
  { c with addresses := c.addresses.map (fun b =>
      if b.allocationId == some aid then { b with tags := nt } else b) }

/-- `ensure_ec2_tags` on a found allocation already carrying the target
map: no change, no cloud update, for any call log. -/
theorem ensure_tags_nochange (p : Params) (aid : String) (T : Tags) (c : Cloud)
    (b : Address)
    (hfind : c.addresses.find? (fun a => a.allocationId == some aid) = some b)
    (hsame : (newTagsFor p.purgeTags b.tags T != b.tags) = false) :
    ∀ lg, ensure_ec2_tags p (some aid) (some T) p.purgeTags (St.mk c lg)
      = (.ok false, St.mk c lg) := by
  intro lg
  unfold ensure_ec2_tags
  simp only [newTagsFor] at hsame
  simp only [bind_apply, getCloud, hfind, hsame, Bool.false_and, Bool.false_eq_true,
    if_false, pure_apply]

/-- `ensure_ec2_tags` on a found allocation with a differing map outside
check mode: reports a change and rewrites that allocation's tags, for any
call log. -/
theorem ensure_tags_change (p : Params) (aid : String) (T : Tags) (c : Cloud)
    (b : Address)
    (hcm : p.checkMode = false)
    (hfind : c.addresses.find? (fun a => a.allocationId == some aid) = some b)
    (hdiff : (newTagsFor p.purgeTags b.tags T != b.tags) = true) :
    ∀ lg, ensure_ec2_tags p (some aid) (some T) p.purgeTags (St.mk c lg)
      = (.ok true, St.mk (tagCloudUpd aid (newTagsFor p.purgeTags b.tags T) c) lg) := by
  intro lg
  unfold ensure_ec2_tags
  simp only [newTagsFor] at hdiff
  simp only [bind_apply, getCloud, hfind, hdiff, hcm, Bool.not_false, Bool.and_true,
    if_true, setCloud, pure_apply, tagCloudUpd, newTagsFor]

end Ec2Eip

namespace Ec2Eip

/-- The value `find_device` returns over a given cloud (the call is a pure
read). -/
def findDeviceVal (cloud : Cloud) (dev : String) (ii : Bool) :
    Option (Ec2Instance ⊕ Eni) :=
  if ii then
    match cloud.instances.filter (fun x => x.instanceId == dev) with
    | [i] => some (.inl i)
    | _ => none
  else
    match cloud.enis.filter (fun x => x.networkInterfaceId == dev) with
    | [e] => some (.inr e)
    | _ => none

/-- `find_device` evaluated: one describe call, the deterministic value. -/
theorem find_device_eval (dev : String) (ii : Bool) (s : St) :
    find_device dev ii s
      = (.ok (findDeviceVal s.cloud dev ii),
         { s with log := s.log ++ [if ii then ApiCall.describeInstances
                                   else ApiCall.describeNetworkInterfaces] }) := by
  cases ii with
  | true =>
    rcases hf : s.cloud.instances.filter (fun x => x.instanceId == dev)
      with _ | ⟨i, _ | ⟨j, r⟩⟩
    all_goals
      unfold find_device findDeviceVal
      simp only [if_true, bind_apply, describe_instances_apply, hf]
      rfl
  | false =>
    rcases hf : s.cloud.enis.filter (fun x => x.networkInterfaceId == dev)
      with _ | ⟨i, _ | ⟨j, r⟩⟩
    all_goals
      unfold find_device findDeviceVal
      simp only [Bool.false_eq_true, if_false, bind_apply,
        describe_network_interfaces_apply, hf]
      rfl

/-- Whether `ensure_present`'s VPC guard passes for a given device-lookup
result. -/
def vpcOk (domain : Option String) (inst : Option (Ec2Instance ⊕ Eni)) : Bool :=
  match inst with
  | none => false
  | some (.inr _) => true
  | some (.inl i) =>
    match i.vpcId with
    | none => false
    | some v => !(!v.toList.isEmpty && decide (v.toList.length > 0) && domain == none)

/-- A passing VPC guard is a pure no-op. -/
theorem vpc_check_ok {domain : Option String} {inst : Option (Ec2Instance ⊕ Eni)}
    (h : vpcOk domain inst = true) (s : St) :
    ensure_present_vpc_check domain inst s = (.ok (), s) := by
  cases inst with
  | none => simp [vpcOk] at h
  | some d =>
    cases d with
    | inr e => rfl
    | inl i =>
      cases hv : i.vpcId with
      | none => simp [vpcOk, hv] at h
      | some v =>
        cases hc : (!v.toList.isEmpty && decide (v.toList.length > 0) && domain == none)
          with
        | true =>
          exfalso
          simp only [vpcOk, hv, hc] at h
          simp at h
        | false =>
          unfold ensure_present_vpc_check
          simp only [hv, hc, Bool.false_eq_true, if_false]
          rfl

/-- A failing VPC guard ends the computation in a failure or a crash,
preserving the state. -/
theorem vpc_check_bad {domain : Option String} {inst : Option (Ec2Instance ⊕ Eni)}
    (h : vpcOk domain inst = false) (s : St) :
    (∃ m, ensure_present_vpc_check domain inst s = (.failed m, s))
    ∨ (∃ m, ensure_present_vpc_check domain inst s = (.crashed m, s)) := by
  cases inst with
  | none => exact .inr ⟨_, rfl⟩
  | some d =>
    cases d with
    | inr e => simp [vpcOk] at h
    | inl i =>
      cases hv : i.vpcId with
      | none =>
        refine .inr ⟨"KeyError: VpcId", ?_⟩
        unfold ensure_present_vpc_check
        simp only [hv]
        rfl
      | some v =>
        cases hc : (!v.toList.isEmpty && decide (v.toList.length > 0) && domain == none)
          with
        | false =>
          exfalso
          simp only [vpcOk, hv, hc] at h
          simp at h
        | true =>
          refine .inl
            ⟨"You must set in_vpc to true to associate an instance with an existing ip in a vpc",
             ?_⟩
          unfold ensure_present_vpc_check
          simp only [hv, hc, if_true]
          rfl

/-- The association check on an empty re-query under `state=present`
reports not-associated. -/
theorem address_check_empty (p : Params) (b : Address) (dev : String) (ii : Bool)
    (s : St) (args2 : DescribeArgs)
    (hargs2 : findAddressArgs (some b.publicIp) (some dev) ii = some args2)
    (hstate : p.state = "present")
    (hq : describeQuery s.cloud args2 = []) :
    address_is_associated_with_device p (some b) dev ii s
      = (.ok false, { s with log := s.log ++ [.describeAddresses] }) := by
  unfold address_is_associated_with_device
  simp only [bind_apply, optPublicIp, Option.map]
  rw [find_address_empty_present p _ _ ii s args2 hargs2 hstate hq]
  rfl

end Ec2Eip

namespace Ec2Eip

/-- The association check on a device-located address (its association
field carries the device) reports associated, whatever the address's
public IP truthiness. -/
theorem check_true_of_devfound (p : Params) (a : Address) (dev : String) (ii : Bool)
    (s : St)
    (hstate : p.state = "present")
    (hips : publicIpsDistinct s.cloud.addresses = true)
    (hmem : a ∈ s.cloud.addresses)
    (hdevt : pyTruthyStr (some dev) = true)
    (hfield : (if ii then a.instanceId == some dev else a.networkInterfaceId == some dev)
      = true)
    (hqdev : describeQuery s.cloud
      { filters := [if ii then .instanceId dev else .networkInterfaceId dev] } = [a]) :
    address_is_associated_with_device p (some a) dev ii s
      = (.ok true, { s with log := s.log ++ [.describeAddresses] }) := by
  by_cases hip : pyTruthyStr (some a.publicIp) = true
  · rw [address_check_single p a dev ii s _
      (findAddressArgs_pub a.publicIp (some dev) ii hip)
      (by rw [describeQuery_ip]; exact filter_ip_single hips hmem), hfield]
  · have hipf : pyTruthyStr (some a.publicIp) = false := by simpa using hip
    rw [address_check_single p a dev ii s _
      (findAddressArgs_dev2 (some a.publicIp) dev ii hipf hdevt) hqdev, hfield]

/-- The association check on an address not bound to the device reports
not-associated, whatever the address's public IP truthiness (a falsy IP
falls back to the device query, assumed empty then). -/
theorem check_false_of_unbound (p : Params) (a : Address) (dev : String) (ii : Bool)
    (s : St)
    (hstate : p.state = "present")
    (hips : publicIpsDistinct s.cloud.addresses = true)
    (hmem : a ∈ s.cloud.addresses)
    (hdevt : pyTruthyStr (some dev) = true)
    (hfield : (if ii then a.instanceId == some dev else a.networkInterfaceId == some dev)
      = false)
    (hqdev0 : pyTruthyStr (some a.publicIp) = false →
      describeQuery s.cloud
        { filters := [if ii then .instanceId dev else .networkInterfaceId dev] } = []) :
    address_is_associated_with_device p (some a) dev ii s
      = (.ok false, { s with log := s.log ++ [.describeAddresses] }) := by
  by_cases hip : pyTruthyStr (some a.publicIp) = true
  · rw [address_check_single p a dev ii s _
      (findAddressArgs_pub a.publicIp (some dev) ii hip)
      (by rw [describeQuery_ip]; exact filter_ip_single hips hmem), hfield]
  · have hipf : pyTruthyStr (some a.publicIp) = false := by simpa using hip
    exact address_check_empty p a dev ii s _
      (findAddressArgs_dev2 (some a.publicIp) dev ii hipf hdevt) hstate (hqdev0 hipf)

/-- `associate_ip_and_device` after a positive association check: a
read-only no-op returning `False`. -/
theorem assoc_noop2 (p : Params) (b : Address) (priv : Option String) (dev : String)
    (allowR ii : Bool) (s : St)
    (hchk : address_is_associated_with_device p (some b) dev ii s
      = (.ok true, { s with log := s.log ++ [.describeAddresses] })) :
    associate_ip_and_device p (some b) priv dev allowR ii s
      = (.ok false, { s with log := s.log ++ [.describeAddresses] }) := by
  unfold associate_ip_and_device
  simp only [bind_apply, hchk]
  rfl

/-- `associate_ip_and_device` after a negative association check, outside
check mode, with a free (or reassociable) target: performs the
association. -/
theorem assoc_do2 (p : Params) (b : Address) (priv : Option String) (dev : String)
    (allowR ii : Bool) (s : St) (t : Address)
    (hchk : address_is_associated_with_device p (some b) dev ii s
      = (.ok false, { s with log := s.log ++ [.describeAddresses] }))
    (hcm : p.checkMode = false)
    (hfind : s.cloud.addresses.find?
      (associateTargets (builtAssocArgs (some b) priv dev allowR ii)) = some t)
    (hfree : (addrAssociated t && !allowR) = false) :
    associate_ip_and_device p (some b) priv dev allowR ii s
      = (.ok true,
         { cloud := assocCloudUpd (builtAssocArgs (some b) priv dev allowR ii) s.cloud
           log := (s.log ++ [.describeAddresses]) ++ [.associateAddress] }) := by
  unfold associate_ip_and_device
  cases ii with
  | true =>
    have hA := associate_address_success (builtAssocArgs (some b) priv dev allowR true)
      { s with log := s.log ++ [.describeAddresses] } t hfind hfree
    simp only [builtAssocArgs, if_true] at hA
    simp only [bind_apply, hchk, hcm, Bool.false_eq_true, if_false, Bool.not_false,
      if_true, pure_apply, hA, Bool.not_true, builtAssocArgs]
  | false =>
    have hA := associate_address_success (builtAssocArgs (some b) priv dev allowR false)
      { s with log := s.log ++ [.describeAddresses] } t hfind hfree
    simp only [builtAssocArgs, Bool.false_eq_true, if_false] at hA
    simp only [bind_apply, hchk, hcm, Bool.false_eq_true, if_false, Bool.not_false,
      if_true, pure_apply, hA, Bool.not_true, builtAssocArgs]

/-- `associate_ip_and_device` after a negative association check, outside
check mode, when the cloud refuses the association: a `fail_json`. -/
theorem assoc_err2 (p : Params) (b : Address) (priv : Option String) (dev : String)
    (allowR ii : Bool) (s : St)
    (hchk : address_is_associated_with_device p (some b) dev ii s
      = (.ok false, { s with log := s.log ++ [.describeAddresses] }))
    (hcm : p.checkMode = false)
    (herr : s.cloud.addresses.find?
        (associateTargets (builtAssocArgs (some b) priv dev allowR ii)) = none
      ∨ ∃ t, s.cloud.addresses.find?
          (associateTargets (builtAssocArgs (some b) priv dev allowR ii)) = some t
        ∧ (addrAssociated t && !allowR) = true) :
    ∃ m s', associate_ip_and_device p (some b) priv dev allowR ii s = (.failed m, s') := by
  have hA : associate_address (builtAssocArgs (some b) priv dev allowR ii)
      { s with log := s.log ++ [.describeAddresses] }
      = (.ok (.error ()),
         { s with log := (s.log ++ [.describeAddresses]) ++ [.associateAddress] }) := by
    cases herr with
    | inl hnone => exact associate_address_no_target _ _ hnone
    | inr hbusy =>
      obtain ⟨t, hft, hbt⟩ := hbusy
      refine associate_address_busy _ _ t hft ?_
      cases ii with
      | true => simpa [builtAssocArgs] using hbt
      | false => simpa [builtAssocArgs] using hbt
  unfold associate_ip_and_device
  cases ii with
  | true =>
    simp only [builtAssocArgs, if_true] at hA
    refine ⟨"Couldnt associate Elastic IP address with instance " ++ dev,
      { s with log := (s.log ++ [.describeAddresses]) ++ [.associateAddress] }, ?_⟩
    simp only [bind_apply, hchk, hcm, Bool.false_eq_true, if_false, Bool.not_false,
      if_true, pure_apply, hA, failJson]
  | false =>
    simp only [builtAssocArgs, Bool.false_eq_true, if_false] at hA
    refine ⟨"Couldnt associate Elastic IP address with network interface " ++ dev,
      { s with log := (s.log ++ [.describeAddresses]) ++ [.associateAddress] }, ?_⟩
    simp only [bind_apply, hchk, hcm, Bool.false_eq_true, if_false, Bool.not_false,
      if_true, pure_apply, hA, failJson]

end Ec2Eip

namespace Ec2Eip

/-- The association step of `ensure_present` around a normally returning
`associate_ip_and_device`, with a passing (or skipped) VPC guard: builds
the result from the located address. -/
theorem epr_ok (p : Params) (domain : Option String) (b : Address) (ch0 : Bool)
    (priv : Option String) (dev : String) (reuse allowR ii : Bool) (s : St)
    (aid : String) (c2v : Bool) (s2 : St)
    (hdevt : pyTruthyStr (some dev) = true)
    (hvc : ii = true → reuse = false ∨ vpcOk domain (findDeviceVal s.cloud dev true) = true)
    (hA : associate_ip_and_device p (some b) priv dev allowR ii
      { s with log := s.log ++ [if ii then ApiCall.describeInstances
                                else ApiCall.describeNetworkInterfaces] }
      = (.ok c2v, s2))
    (haid : b.allocationId = some aid) :
    ensure_present_rest p domain (some b) ch0 priv (some dev) reuse allowR ii s
      = (.ok { changed := ch0 || c2v, publicIp := some b.publicIp,
               allocationId := some aid }, s2) := by
  cases ii with
  | true =>
    simp only [if_true] at hA
    unfold ensure_present_rest
    rcases hvc rfl with hr | hok
    · simp only [hdevt, if_true, Option.getD, bind_apply, find_device_eval, hr,
        Bool.false_eq_true, if_false, pure_apply, hA]
      simp [ensure_present_result, haid, pure_apply]
    · cases hre : reuse with
      | false =>
        simp only [hdevt, if_true, Option.getD, bind_apply, find_device_eval, hre,
          Bool.false_eq_true, if_false, pure_apply, hA]
        simp [ensure_present_result, haid, pure_apply]
      | true =>
        simp only [hdevt, if_true, Option.getD, bind_apply, find_device_eval, hre,
          pure_apply, hA, vpc_check_ok hok]
        simp [ensure_present_result, haid, pure_apply]
  | false =>
    simp only [Bool.false_eq_true, if_false] at hA
    unfold ensure_present_rest
    simp only [hdevt, if_true, Option.getD, bind_apply, find_device_eval,
      Bool.false_eq_true, if_false, hA, pure_apply]
    simp [ensure_present_result, haid, pure_apply]

/-- The association step around a failing `associate_ip_and_device` keeps
the failure. -/
theorem epr_fail (p : Params) (domain : Option String) (b : Address) (ch0 : Bool)
    (priv : Option String) (dev : String) (reuse allowR ii : Bool) (s : St)
    (m : String) (s2 : St)
    (hdevt : pyTruthyStr (some dev) = true)
    (hvc : ii = true → reuse = false ∨ vpcOk domain (findDeviceVal s.cloud dev true) = true)
    (hA : associate_ip_and_device p (some b) priv dev allowR ii
      { s with log := s.log ++ [if ii then ApiCall.describeInstances
                                else ApiCall.describeNetworkInterfaces] }
      = (.failed m, s2)) :
    ensure_present_rest p domain (some b) ch0 priv (some dev) reuse allowR ii s
      = (.failed m, s2) := by
  cases ii with
  | true =>
    simp only [if_true] at hA
    unfold ensure_present_rest
    rcases hvc rfl with hr | hok
    · simp only [hdevt, if_true, Option.getD, bind_apply, find_device_eval, hr,
        Bool.false_eq_true, if_false, pure_apply, hA]
    · cases hre : reuse with
      | false =>
        simp only [hdevt, if_true, Option.getD, bind_apply, find_device_eval, hre,
          Bool.false_eq_true, if_false, pure_apply, hA]
      | true =>
        simp only [hdevt, if_true, Option.getD, bind_apply, find_device_eval, hre,
          pure_apply, hA, vpc_check_ok hok]
  | false =>
    simp only [Bool.false_eq_true, if_false] at hA
    unfold ensure_present_rest
    simp only [hdevt, if_true, Option.getD, bind_apply, find_device_eval,
      Bool.false_eq_true, if_false, hA, pure_apply]

/-- The association step around a normally returning association crashes
on the final subscript when the address lacks an allocation id. -/
theorem epr_crash (p : Params) (domain : Option String) (b : Address) (ch0 : Bool)
    (priv : Option String) (dev : String) (reuse allowR ii : Bool) (s : St)
    (c2v : Bool) (s2 : St)
    (hdevt : pyTruthyStr (some dev) = true)
    (hvc : ii = true → reuse = false ∨ vpcOk domain (findDeviceVal s.cloud dev true) = true)
    (hA : associate_ip_and_device p (some b) priv dev allowR ii
      { s with log := s.log ++ [if ii then ApiCall.describeInstances
                                else ApiCall.describeNetworkInterfaces] }
      = (.ok c2v, s2))
    (hnaid : b.allocationId = none) :
    ensure_present_rest p domain (some b) ch0 priv (some dev) reuse allowR ii s
      = (.crashed "KeyError: AllocationId", s2) := by
  cases ii with
  | true =>
    simp only [if_true] at hA
    unfold ensure_present_rest
    rcases hvc rfl with hr | hok
    · simp only [hdevt, if_true, Option.getD, bind_apply, find_device_eval, hr,
        Bool.false_eq_true, if_false, pure_apply, hA]
      simp [ensure_present_result, hnaid, pyCrash]
    · cases hre : reuse with
      | false =>
        simp only [hdevt, if_true, Option.getD, bind_apply, find_device_eval, hre,
          Bool.false_eq_true, if_false, pure_apply, hA]
        simp [ensure_present_result, hnaid, pyCrash]
      | true =>
        simp only [hdevt, if_true, Option.getD, bind_apply, find_device_eval, hre,
          pure_apply, hA, vpc_check_ok hok]
        simp [ensure_present_result, hnaid, pyCrash]
  | false =>
    simp only [Bool.false_eq_true, if_false] at hA
    unfold ensure_present_rest
    simp only [hdevt, if_true, Option.getD, bind_apply, find_device_eval,
      Bool.false_eq_true, if_false, hA, pure_apply]
    simp [ensure_present_result, hnaid, pyCrash]

/-- The association step under reuse with a failing VPC guard ends in a
failure or a crash. -/
theorem epr_vpcbad (p : Params) (domain : Option String) (b : Address) (ch0 : Bool)
    (priv : Option String) (dev : String) (allowR : Bool) (s : St)
    (hdevt : pyTruthyStr (some dev) = true)
    (hbad : vpcOk domain (findDeviceVal s.cloud dev true) = false) :
    (∃ m s2, ensure_present_rest p domain (some b) ch0 priv (some dev) true allowR true s
      = (.failed m, s2))
    ∨ (∃ m s2, ensure_present_rest p domain (some b) ch0 priv (some dev) true allowR true s
      = (.crashed m, s2)) := by
  rcases vpc_check_bad hbad { s with log := s.log ++ [ApiCall.describeInstances] }
    with ⟨m, hf⟩ | ⟨m, hcr⟩
  · refine .inl ⟨m, { s with log := s.log ++ [ApiCall.describeInstances] }, ?_⟩
    unfold ensure_present_rest
    simp only [hdevt, if_true, Option.getD, bind_apply, find_device_eval, hf]
  · refine .inr ⟨m, { s with log := s.log ++ [ApiCall.describeInstances] }, ?_⟩
    unfold ensure_present_rest
    simp only [hdevt, if_true, Option.getD, bind_apply, find_device_eval, hcr]

end Ec2Eip

namespace Ec2Eip

/-- The value of the reuse scan of `allocate_address` over a listing:
first unassociated address of the `vpc` listing, or the standard-domain
comprehension (which can raise). -/
def reuseScanVal (domainR : String) (l : List Address) : Except String (Option Address) :=
  if domainR == "vpc" then .ok (l.filter (fun a => !pyTruthyStr a.associationId)).head?
  else (standardScan l).map (fun u => u.head?)

/-- `allocate_address` under reuse when the standard-domain scan raises:
the crash surfaces right after the describe. -/
theorem alloc_reuse_crash (domain : Option String) (cm : Bool) (tags : Option Tags)
    (st : Option SearchTags) (pool : Option String) (s : St) (m : String)
    (hscan : reuseScanVal (resolveDomain domain)
      (describeQuery s.cloud { filters := reuseFilters (resolveDomain domain) st })
      = .error m) :
    allocate_address domain true cm tags st pool s
      = (.crashed m, { s with log := s.log ++ [.describeAddresses] }) := by
  unfold allocate_address
  cases hd : (resolveDomain domain == "vpc") with
  | true => simp [reuseScanVal, hd] at hscan
  | false =>
    cases hs : standardScan
        (describeQuery s.cloud { filters := reuseFilters (resolveDomain domain) st }) with
    | error e =>
      have hme : m = e := by
        simp only [reuseScanVal, hd, Bool.false_eq_true, if_false, hs] at hscan
        simpa [Except.map] using hscan.symm
      subst hme
      simp only [if_true, bind_apply, describe_addresses_apply, pure_apply, hd,
        Bool.false_eq_true, if_false, hs]
      rfl
    | ok u =>
      simp [reuseScanVal, hd, hs, Except.map] at hscan

/-- `allocate_address` under reuse with a scan hit: the hit is returned
with `changed=false` after the single describe. -/
theorem alloc_reuse_hit (domain : Option String) (cm : Bool) (tags : Option Tags)
    (st : Option SearchTags) (pool : Option String) (s : St) (a : Address)
    (hscan : reuseScanVal (resolveDomain domain)
      (describeQuery s.cloud { filters := reuseFilters (resolveDomain domain) st })
      = .ok (some a)) :
    allocate_address domain true cm tags st pool s
      = (.ok (some a, false), { s with log := s.log ++ [.describeAddresses] }) := by
  unfold allocate_address
  cases hd : (resolveDomain domain == "vpc") with
  | true =>
    have hh : (List.filter (fun x => !pyTruthyStr x.associationId)
        (describeQuery s.cloud
          { filters := reuseFilters (resolveDomain domain) st })).head? = some a := by
      simpa [reuseScanVal, hd] using hscan
    simp only [if_true, bind_apply, describe_addresses_apply, pure_apply, hd, hh]
  | false =>
    cases hs : standardScan
        (describeQuery s.cloud { filters := reuseFilters (resolveDomain domain) st }) with
    | error e => simp [reuseScanVal, hd, hs, Except.map] at hscan
    | ok u =>
      have hh : u.head? = some a := by
        simpa [reuseScanVal, hd, hs, Except.map] using hscan
      simp only [if_true, bind_apply, describe_addresses_apply, pure_apply, hd,
        Bool.false_eq_true, if_false, hs, hh]

/-- `allocate_address` under reuse with a scan miss, no pool, outside
check mode: falls through to a fresh allocation. -/
theorem alloc_reuse_miss (domain : Option String) (tags : Option Tags)
    (st : Option SearchTags) (s : St)
    (hscan : reuseScanVal (resolveDomain domain)
      (describeQuery s.cloud { filters := reuseFilters (resolveDomain domain) st })
      = .ok none) :
    allocate_address domain true false tags st none s
      = (.ok (some (freshAddress s.cloud.fresh (resolveDomain domain) (tagSpecArg tags)),
          true),
         { cloud := { s.cloud with
             addresses := s.cloud.addresses
               ++ [freshAddress s.cloud.fresh (resolveDomain domain) (tagSpecArg tags)]
             fresh := s.cloud.fresh + 1 }
           log := (s.log ++ [.describeAddresses]) ++ [.allocateAddress] }) := by
  unfold allocate_address allocate_ip_address freshAddress
  cases hd : (resolveDomain domain == "vpc") with
  | true =>
    have hh : (List.filter (fun x => !pyTruthyStr x.associationId)
        (describeQuery s.cloud
          { filters := reuseFilters (resolveDomain domain) st })).head? = none := by
      simpa [reuseScanVal, hd] using hscan
    simp only [if_true, bind_apply, describe_addresses_apply, pure_apply, hd, hh,
      logCall, getCloud, setCloud]
    simp [pyTruthyStr, bind_apply, pure_apply, Option.getD, hd, logCall, getCloud, setCloud]
  | false =>
    cases hs : standardScan
        (describeQuery s.cloud { filters := reuseFilters (resolveDomain domain) st }) with
    | error e => simp [reuseScanVal, hd, hs, Except.map] at hscan
    | ok u =>
      have hh : u.head? = none := by
        simpa [reuseScanVal, hd, hs, Except.map] using hscan
      simp only [if_true, bind_apply, describe_addresses_apply, pure_apply, hd,
        Bool.false_eq_true, if_false, hs, hh, logCall, getCloud, setCloud]
      simp [pyTruthyStr, bind_apply, pure_apply, Option.getD, hd, logCall, getCloud,
        setCloud]

end Ec2Eip

namespace Ec2Eip

/-- `ensure_present` with nothing located, outside check mode: the
allocation result is fed to the rest of the routine. -/
theorem ep_alloc (p : Params) (domain : Option String) (priv dev : Option String)
    (reuse allowR : Bool) (tags : Option Tags) (ii : Bool) (s s2 : St)
    (a1 : Option Address) (c1 : Bool) (R : Outcome ModuleResult × St)
    (hAl : allocate_address domain reuse false tags none none s = (.ok (a1, c1), s2))
    (hrest : ensure_present_rest p domain a1 c1 priv dev reuse allowR ii s2 = R) :
    ensure_present p domain none priv dev reuse allowR false tags ii s = R := by
  unfold ensure_present
  simp [pyTruthyAddr, bind_apply, hAl, hrest]

/-- `ensure_present` with nothing located propagates an allocation crash. -/
theorem ep_alloc_crash (p : Params) (domain : Option String) (priv dev : Option String)
    (reuse allowR : Bool) (tags : Option Tags) (ii : Bool) (s s2 : St) (m : String)
    (hAl : allocate_address domain reuse false tags none none s = (.crashed m, s2)) :
    ensure_present p domain none priv dev reuse allowR false tags ii s
      = (.crashed m, s2) := by
  unfold ensure_present
  simp [pyTruthyAddr, bind_apply, hAl]

/-- `main_present_finish` evaluated against a known tag-reconciliation
outcome: it exits with the tag flag folded into `changed`. -/
theorem main_finish_eval (p : Params) (r : ModuleResult) (st st2 : St) (tc : Bool)
    (hT : ensure_ec2_tags p r.allocationId p.tags p.purgeTags st = (.ok tc, st2)) :
    main_present_finish p r st = (.exited { r with changed := r.changed || tc }, st2) := by
  unfold main_present_finish
  simp [bind_apply, hT, exitJson]

/-- `main_present` on the device branch with a successful `ensure_present`
carrying an allocation id: the run exits with the tag flag folded in. -/
theorem mp_dev_ok (p : Params) (domain : Option String) (ii : Bool)
    (sTags : Option SearchTags) (addr : Option Address) (s st st2 : St)
    (r : ModuleResult) (aid : String) (tc : Bool)
    (hdevt : pyTruthyStr p.deviceId = true)
    (hEP : ensure_present p domain addr p.privateIpAddress p.deviceId
      p.reuseExistingIpAllowed p.allowReassociation p.checkMode p.tags ii s = (.ok r, st))
    (hra : r.allocationId = some aid)
    (hT : ensure_ec2_tags p (some aid) p.tags p.purgeTags st = (.ok tc, st2)) :
    main_present p domain ii sTags addr s
      = (.exited { r with changed := r.changed || tc }, st2) := by
  unfold main_present main_present_finish
  simp only [hdevt, if_true, bind_apply, hEP, hra]
  simp [bind_apply, pure_apply, hra, hT, exitJson]

/-- `main_present` on the device branch propagates an `ensure_present`
failure. -/
theorem mp_dev_fail (p : Params) (domain : Option String) (ii : Bool)
    (sTags : Option SearchTags) (addr : Option Address) (s st : St) (m : String)
    (hdevt : pyTruthyStr p.deviceId = true)
    (hEP : ensure_present p domain addr p.privateIpAddress p.deviceId
      p.reuseExistingIpAllowed p.allowReassociation p.checkMode p.tags ii s
      = (.failed m, st)) :
    main_present p domain ii sTags addr s = (.failed m, st) := by
  unfold main_present
  simp [hdevt, bind_apply, hEP]

/-- `main_present` on the device branch propagates an `ensure_present`
crash. -/
theorem mp_dev_crash (p : Params) (domain : Option String) (ii : Bool)
    (sTags : Option SearchTags) (addr : Option Address) (s st : St) (m : String)
    (hdevt : pyTruthyStr p.deviceId = true)
    (hEP : ensure_present p domain addr p.privateIpAddress p.deviceId
      p.reuseExistingIpAllowed p.allowReassociation p.checkMode p.tags ii s
      = (.crashed m, st)) :
    main_present p domain ii sTags addr s = (.crashed m, st) := by
  unfold main_present
  simp [hdevt, bind_apply, hEP]

/-- `main_present` without a device, on a located address with an
allocation id: exits unchanged except for the tag flag. -/
theorem mp_nodev_ok (p : Params) (domain : Option String) (ii : Bool)
    (sTags : Option SearchTags) (b : Address) (s st2 : St) (aid : String) (tc : Bool)
    (hdevf : pyTruthyStr p.deviceId = false)
    (haid : b.allocationId = some aid)
    (hT : ensure_ec2_tags p (some aid) p.tags p.purgeTags s = (.ok tc, st2)) :
    main_present p domain ii sTags (some b) s
      = (.exited { changed := tc, publicIp := some b.publicIp,
                   allocationId := some aid }, st2) := by
  unfold main_present main_present_finish main_address_result
  simp [hdevf, pyTruthyAddr, haid, bind_apply, pure_apply, hT, exitJson]

/-- `main_present` without a device, on a located address lacking an
allocation id: the result construction raises `KeyError`. -/
theorem mp_nodev_crash (p : Params) (domain : Option String) (ii : Bool)
    (sTags : Option SearchTags) (b : Address) (s : St)
    (hdevf : pyTruthyStr p.deviceId = false)
    (hnaid : b.allocationId = none) :
    main_present p domain ii sTags (some b) s
      = (.crashed "KeyError: AllocationId", s) := by
  unfold main_present main_address_result
  simp [hdevf, pyTruthyAddr, hnaid, bind_apply, pyCrash]

end Ec2Eip

namespace Ec2Eip

/-- `generate_tag_dict` is a pure computation: it either returns a value or
fails, and never touches the state. -/
theorem generate_tag_dict_total (tn tv : Option String) (s : St) :
    (∃ v, generate_tag_dict tn tv s = (.ok v, s))
    ∨ (∃ m, generate_tag_dict tn tv s = (.failed m, s)) := by
  unfold generate_tag_dict
  by_cases h1 : (pyTruthyStr tn && !pyTruthyStr tv) = true
  · exact .inl ⟨some (.tagKeyOnly (if pyStartsWith (tn.getD "") "tag:"
      then pyStripChars "tag:" (tn.getD "") else tn.getD "")), by simp [h1, pure_apply]⟩
  · by_cases h2 : (pyTruthyStr tn && pyTruthyStr tv) = true
    · exact .inl ⟨some (.tagNamed (if pyStartsWith (tn.getD "") "tag:"
        then tn.getD "" else "tag:" ++ tn.getD "") (tv.getD "")),
        by simp [h1, h2, pure_apply]⟩
    · by_cases h3 : (pyTruthyStr tv && !pyTruthyStr tn) = true
      · exact .inr ⟨"parameters are required together: tag_name, tag_value",
          by simp [h1, h2, h3, failJson]⟩
      · exact .inl ⟨none, by simp [h1, h2, h3, pure_apply]⟩

/-- A full run is the dispatch applied to the tag-dictionary and locator
results, for any evaluated tag dictionary and locator outcome. -/
theorem run_eq_reconcile2 (p : Params) (c : Cloud) (ii : Bool)
    (stv : Option SearchTags) (aRes : Option Address) (s1 : St)
    (hci : check_is_instance p.deviceId p.inVpc = .ok ii)
    (hst : generate_tag_dict p.tagName p.tagValue (St.mk c []) = (.ok stv, St.mk c []))
    (hloc : (if pyTruthyStr p.deviceId = true
        then find_address p p.publicIp p.deviceId ii
        else find_address p p.publicIp none true) (St.mk c [])
      = (.ok aRes, s1)) :
    run p c
      = main_reconcile p (if p.inVpc = true then some "vpc" else none) ii stv aRes s1 := by
  unfold run main_run
  simp only [hci, bind_apply, hst]
  cases hdev : pyTruthyStr p.deviceId with
  | true =>
    simp only [hdev, if_true] at hloc
    simp [hdev, bind_apply, hloc]
  | false =>
    simp only [hdev, Bool.false_eq_true, if_false] at hloc
    simp [hdev, bind_apply, hloc]

/-- A failing tag-dictionary computation fails the whole run. -/
theorem run_tagdict_fail (p : Params) (c : Cloud) (ii : Bool) (m : String)
    (hci : check_is_instance p.deviceId p.inVpc = .ok ii)
    (hst : generate_tag_dict p.tagName p.tagValue (St.mk c [])
      = (.failed m, St.mk c [])) :
    run p c = (.failed m, St.mk c []) := by
  unfold run main_run
  simp [hci, bind_apply, hst]

/-- A failing locator fails the whole run. -/
theorem run_locator_fail2 (p : Params) (c : Cloud) (ii : Bool)
    (stv : Option SearchTags) (s1 : St) (m : String)
    (hci : check_is_instance p.deviceId p.inVpc = .ok ii)
    (hst : generate_tag_dict p.tagName p.tagValue (St.mk c []) = (.ok stv, St.mk c []))
    (hloc : (if pyTruthyStr p.deviceId = true
        then find_address p p.publicIp p.deviceId ii
        else find_address p p.publicIp none true) (St.mk c [])
      = (.failed m, s1)) :
    run p c = (.failed m, s1) := by
  unfold run main_run
  simp only [hci, bind_apply, hst]
  cases hdev : pyTruthyStr p.deviceId with
  | true =>
    simp only [hdev, if_true] at hloc
    simp [hdev, bind_apply, hloc]
  | false =>
    simp only [hdev, Bool.false_eq_true, if_false] at hloc
    simp [hdev, bind_apply, hloc]

/-- For `state=present`, a full run is `main_present` applied to the
tag-dictionary and locator results. -/
theorem run_to_present2 (p : Params) (c : Cloud) (ii : Bool)
    (stv : Option SearchTags) (aRes : Option Address) (s1 : St)
    (hstate : p.state = "present")
    (hci : check_is_instance p.deviceId p.inVpc = .ok ii)
    (hst : generate_tag_dict p.tagName p.tagValue (St.mk c []) = (.ok stv, St.mk c []))
    (hloc : (if pyTruthyStr p.deviceId = true
        then find_address p p.publicIp p.deviceId ii
        else find_address p p.publicIp none true) (St.mk c [])
      = (.ok aRes, s1)) :
    run p c
      = main_present p (if p.inVpc = true then some "vpc" else none) ii stv aRes s1 := by
  rw [run_eq_reconcile2 p c ii stv aRes s1 hci hst hloc]
  exact main_reconcile_present p _ ii stv aRes s1 hstate

end Ec2Eip

namespace Ec2Eip

/-- The outcome of `ensure_ec2_tags` outside check mode as a pure function
of the cloud: the change flag and the resulting cloud. -/
def ensureTagsVal (purge : Bool) (aid : Option String) (tags : Option Tags)
    (c : Cloud) : Bool × Cloud :=
  match tags with
  | none => (false, c)
  | some T =>
    match aid with
    | none => (false, c)
    | some a =>
      match c.addresses.find? (fun x => x.allocationId == some a) with
      | none => (false, c)
      | some b =>
        if newTagsFor purge b.tags T != b.tags then
          (true, tagCloudUpd a (newTagsFor purge b.tags T) c)
        else (false, c)

/-- `ensure_ec2_tags` evaluated outside check mode: it returns normally
with the pure outcome, for any call log. -/
theorem ensure_tags_eval (p : Params) (aid : Option String) (tags : Option Tags)
    (c : Cloud) (hcm : p.checkMode = false) :
    ∀ lg, ensure_ec2_tags p aid tags p.purgeTags (St.mk c lg)
      = (.ok (ensureTagsVal p.purgeTags aid tags c).1,
         St.mk (ensureTagsVal p.purgeTags aid tags c).2 lg) := by
  intro lg
  match tags with
  | none => rfl
  | some T =>
    match aid with
    | none =>
      unfold ensure_ec2_tags ensureTagsVal
      simp [bind_apply, getCloud, pure_apply]
    | some a =>
      cases hfind : c.addresses.find? (fun x => x.allocationId == some a) with
      | none =>
        unfold ensure_ec2_tags ensureTagsVal
        simp [bind_apply, getCloud, hfind, pure_apply]
      | some b =>
        cases hch : (newTagsFor p.purgeTags b.tags T != b.tags) with
        | false =>
          rw [ensure_tags_nochange p a T c b hfind hch lg]
          simp [ensureTagsVal, hfind, hch]
        | true =>
          rw [ensure_tags_change p a T c b hcm hfind hch lg]
          simp [ensureTagsVal, hfind, hch]

/-- The pure tag outcome either changes nothing or rewrites exactly the
found allocation's tags. -/
theorem ensureTagsVal_cases (purge : Bool) (aid : Option String) (tags : Option Tags)
    (c : Cloud) :
    ensureTagsVal purge aid tags c = (false, c)
    ∨ ∃ a T b, aid = some a ∧ tags = some T
        ∧ c.addresses.find? (fun x => x.allocationId == some a) = some b
        ∧ (newTagsFor purge b.tags T != b.tags) = true
        ∧ ensureTagsVal purge aid tags c
            = (true, tagCloudUpd a (newTagsFor purge b.tags T) c) := by
  match tags with
  | none => exact .inl rfl
  | some T =>
    match aid with
    | none => exact .inl rfl
    | some a =>
      cases hfind : c.addresses.find? (fun x => x.allocationId == some a) with
      | none => exact .inl (by simp [ensureTagsVal, hfind])
      | some b =>
        cases hch : (newTagsFor purge b.tags T != b.tags) with
        | false => exact .inl (by simp [ensureTagsVal, hfind, hch])
        | true =>
          exact .inr ⟨a, T, b, rfl, rfl, hfind, hch,
            by simp [ensureTagsVal, hfind, hch]⟩

/-- The cloud after the tag step is a pointwise address rewrite that keeps
every identity field. -/
theorem ensureTagsVal_shape (purge : Bool) (aid : Option String) (tags : Option Tags)
    (c : Cloud) :
    ∃ g : Address → Address,
      (ensureTagsVal purge aid tags c).2
        = { c with addresses := c.addresses.map g }
      ∧ ∀ x, (g x).publicIp = x.publicIp ∧ (g x).allocationId = x.allocationId
          ∧ (g x).instanceId = x.instanceId ∧ (g x).networkInterfaceId = x.networkInterfaceId
          ∧ (g x).domain = x.domain := by
  rcases ensureTagsVal_cases purge aid tags c with h | ⟨a, T, b, _, _, _, _, h⟩
  · exact ⟨id, by rw [h]; simp [List.map_id], fun x => ⟨rfl, rfl, rfl, rfl, rfl⟩⟩
  · refine ⟨fun x => if x.allocationId == some a
      then { x with tags := newTagsFor purge b.tags T } else x, by rw [h]; rfl, fun x => ?_⟩
    cases hx : (x.allocationId == some a) with
    | true => simp [hx]
    | false => simp [hx]

/-- `find?` commutes with a pointwise rewrite firing exactly at the
searched predicate. -/
theorem find?_map_tagupd (l : List Address) (a : String) (nt : Tags) :
    (l.map (fun b => if b.allocationId == some a then { b with tags := nt } else b)).find?
        (fun x => x.allocationId == some a)
      = (l.find? (fun x => x.allocationId == some a)).map
          (fun b => if b.allocationId == some a then { b with tags := nt } else b) := by
  induction l with
  | nil => rfl
  | cons b rest ih =>
    cases hb : (b.allocationId == some a) with
    | true =>
      simp only [List.map_cons, if_pos hb, List.find?]
      have hb2 : (({ b with tags := nt } : Address).allocationId == some a) = true := by
        simpa using hb
      have hb3 : b.allocationId = some a := by simpa using hb
      simp [hb, hb2, hb3]
    | false =>
      rw [List.map_cons, if_neg (by simp [hb]),
        List.find?_cons_of_neg _ (by simp [hb]),
        List.find?_cons_of_neg _ (by simp [hb]), ih]

/-- The tag step is settled after one application: a second application
changes nothing. -/
theorem ensureTagsVal_settled (purge : Bool) (aid : Option String) (tags : Option Tags)
    (c : Cloud) :
    ensureTagsVal purge aid tags ((ensureTagsVal purge aid tags c).2)
      = (false, (ensureTagsVal purge aid tags c).2) := by
  rcases ensureTagsVal_cases purge aid tags c with h | ⟨a, T, b, ha, hT, hfind, hch, h⟩
  · simp [h]
  · subst ha
    subst hT
    rw [h]
    have hba : (b.allocationId == some a) = true := by
      simpa using List.find?_some hfind
    have hfind2 : (tagCloudUpd a (newTagsFor purge b.tags T) c).addresses.find?
        (fun x => x.allocationId == some a)
        = some { b with tags := newTagsFor purge b.tags T } := by
      show (c.addresses.map _).find? _ = _
      rw [find?_map_tagupd, hfind]
      have hb3 : b.allocationId = some a := by simpa using hba
      simp [hb3]
    have hidem : (newTagsFor purge (newTagsFor purge b.tags T) T
        != newTagsFor purge b.tags T) = false := by
      rw [newTagsFor_idem]
      simp
    simp only [ensureTagsVal, hfind2]
    simp [hidem]

/-- `all` through a pointwise map. -/
theorem all_map_eq {α : Type} {l : List α} {f : α → α} {p q : α → Bool}
    (h : ∀ x, p (f x) = q x) : (l.map f).all p = l.all q := by
  induction l with
  | nil => rfl
  | cons a rest ih => simp [List.all_cons, h, ih]

/-- Pointwise rewrites keeping the public IP keep pairwise distinctness. -/
theorem publicIpsDistinct_map {l : List Address} {f : Address → Address}
    (hf : ∀ x, (f x).publicIp = x.publicIp) :
    publicIpsDistinct (l.map f) = publicIpsDistinct l := by
  induction l with
  | nil => rfl
  | cons a rest ih =>
    show (List.all (rest.map f) (fun x => !(x.publicIp == (f a).publicIp))
        && publicIpsDistinct (rest.map f))
      = (List.all rest (fun x => !(x.publicIp == a.publicIp)) && publicIpsDistinct rest)
    rw [ih, all_map_eq (fun x => by rw [hf x, hf a])]

/-- Appending an address with a fresh public IP keeps pairwise
distinctness. -/
theorem publicIpsDistinct_append_one {l : List Address} {b : Address}
    (hd : publicIpsDistinct l = true) (hb : ∀ a ∈ l, a.publicIp ≠ b.publicIp) :
    publicIpsDistinct (l ++ [b]) = true := by
  induction l with
  | nil => simp [publicIpsDistinct]
  | cons a rest ih =>
    have h1 : rest.all (fun x => !(x.publicIp == a.publicIp)) = true :=
      ((Bool.and_eq_true ..).mp hd).1
    have h2 : publicIpsDistinct rest = true := ((Bool.and_eq_true ..).mp hd).2
    show ((rest ++ [b]).all (fun x => !(x.publicIp == a.publicIp))
        && publicIpsDistinct (rest ++ [b])) = true
    rw [ih h2 (fun x hx => hb x (List.mem_cons_of_mem a hx))]
    rw [List.all_append]
    simp only [h1, List.all_cons, List.all_nil, Bool.and_true, Bool.true_and]
    have hab : a.publicIp ≠ b.publicIp := hb a (List.mem_cons_self a rest)
    have hba : b.publicIp ≠ a.publicIp := fun he => hab he.symm
    simp [hba]

end Ec2Eip

namespace Ec2Eip

/-- The pure outcome of `generate_tag_dict`: a computation of the
parameters alone. -/
def tagDictRes (tn tv : Option String) : Except String (Option SearchTags) :=
  if pyTruthyStr tn && !pyTruthyStr tv then
    .ok (some (.tagKeyOnly (if pyStartsWith (tn.getD "") "tag:"
      then pyStripChars "tag:" (tn.getD "") else tn.getD "")))
  else if pyTruthyStr tn && pyTruthyStr tv then
    .ok (some (.tagNamed (if pyStartsWith (tn.getD "") "tag:"
      then tn.getD "" else "tag:" ++ tn.getD "") (tv.getD "")))
  else if pyTruthyStr tv && !pyTruthyStr tn then
    .error "parameters are required together: tag_name, tag_value"
  else .ok none

/-- `generate_tag_dict` never touches the state: it returns its pure
outcome at the input state. -/
theorem generate_tag_dict_eval (tn tv : Option String) (s : St) :
    generate_tag_dict tn tv s
      = (match tagDictRes tn tv with
         | .ok v => (.ok v, s)
         | .error m => (.failed m, s)) := by
  unfold generate_tag_dict tagDictRes
  by_cases h1 : (pyTruthyStr tn && !pyTruthyStr tv) = true
  · simp [h1, pure_apply]
  · by_cases h2 : (pyTruthyStr tn && pyTruthyStr tv) = true
    · simp [h1, h2, pure_apply]
    · by_cases h3 : (pyTruthyStr tv && !pyTruthyStr tn) = true
      · simp [h1, h2, h3, failJson]
      · simp [h1, h2, h3, pure_apply]

end Ec2Eip

namespace Ec2Eip

/-- The association check on a device-located address reports associated;
the device re-query is only consulted (and only needed) when the address's
public IP is falsy. -/
theorem check_true_of_devfound2 (p : Params) (a : Address) (dev : String) (ii : Bool)
    (s : St)
    (hips : publicIpsDistinct s.cloud.addresses = true)
    (hmem : a ∈ s.cloud.addresses)
    (hdevt : pyTruthyStr (some dev) = true)
    (hfield : (if ii then a.instanceId == some dev else a.networkInterfaceId == some dev)
      = true)
    (hqdev0 : pyTruthyStr (some a.publicIp) = false →
      describeQuery s.cloud
        { filters := [if ii then .instanceId dev else .networkInterfaceId dev] } = [a]) :
    address_is_associated_with_device p (some a) dev ii s
      = (.ok true, { s with log := s.log ++ [.describeAddresses] }) := by
  by_cases hip : pyTruthyStr (some a.publicIp) = true
  · rw [address_check_single p a dev ii s _
      (findAddressArgs_pub a.publicIp (some dev) ii hip)
      (by rw [describeQuery_ip]; exact filter_ip_single hips hmem), hfield]
  · have hipf : pyTruthyStr (some a.publicIp) = false := by simpa using hip
    rw [address_check_single p a dev ii s _
      (findAddressArgs_dev2 (some a.publicIp) dev ii hipf hdevt) (hqdev0 hipf), hfield]

/-- The second run of the idempotence argument: over a cloud holding the
target address — bound to the requested device when one is named, already
carrying the settled tag map — a full run exits with `changed=false`. -/
theorem run2_noop (p : Params) (c2 : Cloud) (ii : Bool) (stv : Option SearchTags)
    (b : Address) (aid : String)
    (hstate : p.state = "present")
    (hcm : p.checkMode = false)
    (hci : check_is_instance p.deviceId p.inVpc = .ok ii)
    (hst : tagDictRes p.tagName p.tagValue = .ok stv)
    (hips2 : publicIpsDistinct c2.addresses = true)
    (hmem : b ∈ c2.addresses)
    (haid : b.allocationId = some aid)
    (hloc2 : (pyTruthyStr p.publicIp = true ∧ p.publicIp = some b.publicIp)
      ∨ (pyTruthyStr p.publicIp = false ∧ pyTruthyStr p.deviceId = true))
    (hbound : pyTruthyStr p.deviceId = true → ∀ d, p.deviceId = some d →
      ((if ii then b.instanceId == some d else b.networkInterfaceId == some d) = true
       ∧ (pyTruthyStr (some b.publicIp) = false →
           describeQuery c2 { filters :=
             [if ii then .instanceId d else .networkInterfaceId d] } = [b])
       ∧ (pyTruthyStr p.publicIp = false →
           describeQuery c2 { filters :=
             [if ii then .instanceId d else .networkInterfaceId d] } = [b])))
    (hvpc : ∀ d, p.deviceId = some d → ii = true → p.reuseExistingIpAllowed = true →
      vpcOk (if p.inVpc = true then some "vpc" else none)
        (findDeviceVal c2 d true) = true)
    (htags : ensureTagsVal p.purgeTags (some aid) p.tags c2 = (false, c2)) :
    ∃ r2 s2, run p c2 = (.exited r2, s2) ∧ r2.changed = false := by
  have hstv : generate_tag_dict p.tagName p.tagValue (St.mk c2 [])
      = (.ok stv, St.mk c2 []) := by
    rw [generate_tag_dict_eval, hst]
  cases hdev : pyTruthyStr p.deviceId with
  | false =>
    rcases hloc2 with ⟨hip, hipeq⟩ | ⟨_, hdevt⟩
    · have hipb : pyTruthyStr (some b.publicIp) = true := by rw [← hipeq]; exact hip
      have hq : describeQuery c2 { publicIps := some [b.publicIp] } = [b] := by
        rw [describeQuery_ip]
        exact filter_ip_single hips2 hmem
      have hloc : find_address p p.publicIp none true (St.mk c2 [])
          = (.ok (some b), St.mk c2 [ApiCall.describeAddresses]) := by
        rw [hipeq]
        exact find_address_single p _ none true _ _ b
          (findAddressArgs_pub b.publicIp none true hipb) hq
      have hrun := run_to_present2 p c2 ii stv (some b)
        (St.mk c2 [ApiCall.describeAddresses]) hstate hci hstv
        (by simp only [hdev, Bool.false_eq_true, if_false]; exact hloc)
      have hTr : ensure_ec2_tags p (some aid) p.tags p.purgeTags
          (St.mk c2 [ApiCall.describeAddresses])
          = (.ok false, St.mk c2 [ApiCall.describeAddresses]) := by
        have h := ensure_tags_eval p (some aid) p.tags c2 hcm [ApiCall.describeAddresses]
        rw [htags] at h
        exact h
      exact ⟨_, _, by
        rw [hrun]
        exact mp_nodev_ok p _ ii stv b _ _ aid false hdev haid hTr, rfl⟩
    · rw [hdevt] at hdev
      cases hdev
  | true =>
    obtain ⟨d, hdeq, hdt⟩ := pyTruthyStr_some hdev
    obtain ⟨hfield, hqdevf, hqdevp⟩ := hbound hdev d hdeq
    have hloc : find_address p p.publicIp p.deviceId ii (St.mk c2 [])
        = (.ok (some b), St.mk c2 [ApiCall.describeAddresses]) := by
      rcases hloc2 with ⟨hip, hipeq⟩ | ⟨hipf, _⟩
      · have hipb : pyTruthyStr (some b.publicIp) = true := by rw [← hipeq]; exact hip
        rw [hipeq, hdeq]
        refine find_address_single p _ _ ii _ _ b
          (findAddressArgs_pub b.publicIp (some d) ii hipb) ?_
        rw [describeQuery_ip]
        exact filter_ip_single hips2 hmem
      · rw [hdeq]
        exact find_address_single p _ _ ii _ _ b
          (findAddressArgs_dev2 p.publicIp d ii hipf hdt) (hqdevp hipf)
    have hrun := run_to_present2 p c2 ii stv (some b)
      (St.mk c2 [ApiCall.describeAddresses]) hstate hci hstv
      (by simp only [hdev, if_true]; exact hloc)
    have hchk : address_is_associated_with_device p (some b) d ii
        (St.mk c2 ([ApiCall.describeAddresses]
          ++ [if ii then ApiCall.describeInstances else ApiCall.describeNetworkInterfaces]))
        = (.ok true, St.mk c2 (([ApiCall.describeAddresses]
          ++ [if ii then ApiCall.describeInstances else ApiCall.describeNetworkInterfaces])
          ++ [ApiCall.describeAddresses])) :=
      check_true_of_devfound2 p b d ii _ hips2 hmem hdt hfield hqdevf
    have hA := assoc_noop2 p b p.privateIpAddress d p.allowReassociation ii _ hchk
    have hvc : ii = true → p.reuseExistingIpAllowed = false
        ∨ vpcOk (if p.inVpc = true then some "vpc" else none)
          (findDeviceVal (St.mk c2 [ApiCall.describeAddresses]).cloud d true) = true := by
      intro hii
      cases hre : p.reuseExistingIpAllowed with
      | false => exact .inl rfl
      | true => exact .inr (hvpc d hdeq hii hre)
    have hrest := epr_ok p (if p.inVpc = true then some "vpc" else none) b false
      p.privateIpAddress d p.reuseExistingIpAllowed p.allowReassociation ii
      (St.mk c2 [ApiCall.describeAddresses]) aid false _ hdt hvc hA haid
    have hEP := ep_found p (if p.inVpc = true then some "vpc" else none) b
      p.privateIpAddress p.deviceId p.reuseExistingIpAllowed p.allowReassociation
      p.checkMode p.tags ii (St.mk c2 [ApiCall.describeAddresses])
    rw [← hdeq] at hrest
    rw [hrest] at hEP
    have hTr := ensure_tags_eval p (some aid) p.tags c2 hcm
      (([ApiCall.describeAddresses]
        ++ [if ii then ApiCall.describeInstances else ApiCall.describeNetworkInterfaces])
        ++ [ApiCall.describeAddresses])
    rw [htags] at hTr
    exact ⟨_, _, by
      rw [hrun]
      exact mp_dev_ok p _ ii stv (some b) _ _ _ _ aid false hdev hEP rfl hTr, rfl⟩

end Ec2Eip

namespace Ec2Eip

/-- A successful association never changes the tags of any address. -/
theorem assocUpdate_tags (args : AssociateArgs) (n : Nat) (a : Address) :
    (associateUpdate args n a).tags = a.tags := by
  unfold associateUpdate
  cases args.instanceId with
  | some d => rfl
  | none =>
    cases args.networkInterfaceId with
    | some d => rfl
    | none => rfl

/-- After the association built for a device, the updated address carries
that device in its association field. -/
theorem assocUpdate_field (a0 : Option Address) (priv : Option String) (d : String)
    (allowR ii : Bool) (n : Nat) (x : Address) :
    (if ii then (associateUpdate (builtAssocArgs a0 priv d allowR ii) n x).instanceId
        == some d
     else (associateUpdate (builtAssocArgs a0 priv d allowR ii) n x).networkInterfaceId
        == some d) = true := by
  cases ii with
  | true => simp [builtAssocArgs, associateUpdate]
  | false => simp [builtAssocArgs, associateUpdate]

/-- The pointwise map of `assocCloudUpd` keeps every public IP. -/
theorem assocMap_publicIp (args : AssociateArgs) (n : Nat) (x : Address) :
    (if associateTargets args x then associateUpdate args n x else x).publicIp
      = x.publicIp := by
  cases h : associateTargets args x with
  | true => simp [h, assocUpdate_publicIp]
  | false => simp [h]

/-- The pointwise map of `assocCloudUpd` keeps every allocation id. -/
theorem assocMap_allocId (args : AssociateArgs) (n : Nat) (x : Address) :
    (if associateTargets args x then associateUpdate args n x else x).allocationId
      = x.allocationId := by
  cases h : associateTargets args x with
  | true => simp [h, assocUpdate_allocId]
  | false => simp [h]

/-- Association targeting for an instance and a located `vpc` address with
an allocation id: by that id. -/
theorem targets_ii_vpc {a : Address} (hdom : (a.domain == "vpc") = true)
    {aid : String} (haid : a.allocationId = some aid)
    (priv : Option String) (d : String) (allowR : Bool) (x : Address) :
    associateTargets (builtAssocArgs (some a) priv d allowR true) x
      = (x.allocationId == some aid) := by
  simp [builtAssocArgs, associateTargets, optDomain, optAllocationId, Option.bind,
    Option.map, hdom, haid]

/-- Association targeting for an instance and a located `vpc` address
without an allocation id: nothing is targeted. -/
theorem targets_ii_vpc_none {a : Address} (hdom : (a.domain == "vpc") = true)
    (haid : a.allocationId = none)
    (priv : Option String) (d : String) (allowR : Bool) (x : Address) :
    associateTargets (builtAssocArgs (some a) priv d allowR true) x = false := by
  simp [builtAssocArgs, associateTargets, optDomain, optAllocationId, Option.bind,
    Option.map, hdom, haid]

/-- Association targeting for an instance and a located non-`vpc` address:
by raw public IP. -/
theorem targets_ii_nonvpc {a : Address} (hdom : (a.domain == "vpc") = false)
    (priv : Option String) (d : String) (allowR : Bool) (x : Address) :
    associateTargets (builtAssocArgs (some a) priv d allowR true) x
      = (x.publicIp == a.publicIp) := by
  simp [builtAssocArgs, associateTargets, optDomain, optAllocationId, optPublicIp,
    Option.bind, Option.map, hdom]

/-- Association targeting for a network interface: by the located
address's allocation id. -/
theorem targets_eni {a : Address} {aid : String} (haid : a.allocationId = some aid)
    (priv : Option String) (d : String) (allowR : Bool) (x : Address) :
    associateTargets (builtAssocArgs (some a) priv d allowR false) x
      = (x.allocationId == some aid) := by
  simp [builtAssocArgs, associateTargets, optAllocationId, Option.bind, haid]

/-- Association targeting for a network interface without an allocation
id: nothing is targeted. -/
theorem targets_eni_none {a : Address} (haid : a.allocationId = none)
    (priv : Option String) (d : String) (allowR : Bool) (x : Address) :
    associateTargets (builtAssocArgs (some a) priv d allowR false) x = false := by
  simp [builtAssocArgs, associateTargets, optAllocationId, Option.bind, haid]

/-- The head of a list is a member. -/
theorem mem_of_head? {α : Type} {l : List α} {a : α} (h : l.head? = some a) : a ∈ l := by
  cases l with
  | nil => cases h
  | cons x xs =>
    have : x = a := by simpa using h
    rw [← this]
    exact List.mem_cons_self x xs

/-- The standard-domain reuse scan only selects listed addresses. -/
theorem standardScan_sub {l u : List Address}
    (h : standardScan l = .ok u) : ∀ x ∈ u, x ∈ l := by
  induction l generalizing u with
  | nil =>
    have : u = [] := by
      have h' : Except.ok ([] : List Address) = Except.ok u := h
      simpa using h'.symm
    subst this
    intro x hx
    cases hx
  | cons a rest ih =>
    unfold standardScan at h
    cases ha : a.instanceId with
    | none => rw [ha] at h; cases h
    | some v =>
      rw [ha] at h
      cases hs : standardScan rest with
      | error e => rw [hs] at h; cases h
      | ok tail =>
        rw [hs] at h
        have hu : (if v.toList.isEmpty then a :: tail else tail) = u := by
          simpa [Except.map] using h
        intro x hx
        cases hemp : v.toList.isEmpty with
        | true =>
          rw [hemp] at hu
          simp only [if_true] at hu
          rw [← hu] at hx
          cases List.mem_cons.mp hx with
          | inl he => rw [he]; exact List.mem_cons_self a rest
          | inr hr => exact List.mem_cons_of_mem a (ih hs x hr)
        | false =>
          rw [hemp] at hu
          simp only [Bool.false_eq_true, if_false] at hu
          rw [← hu] at hx
          exact List.mem_cons_of_mem a (ih hs x hx)

/-- Members of the reuse listing are cloud addresses of the scanned
domain. -/
theorem mem_domainQuery {c : Cloud} {domainR : String} {st : Option SearchTags}
    {x : Address}
    (hx : x ∈ describeQuery c { filters := reuseFilters domainR st }) :
    x ∈ c.addresses ∧ (x.domain == domainR) = true := by
  refine ⟨List.mem_of_mem_filter hx, ?_⟩
  have hp := List.of_mem_filter hx
  simp only [reuseFilters, List.all_append, List.all_cons, List.all_nil,
    matchesFilter, Bool.and_true, Bool.true_and, Bool.and_eq_true] at hp
  exact hp.1

/-- The fields of a freshly minted address. -/
theorem freshAddress_fields (n : Nat) (domainR : String) (ts : Tags) :
    (freshAddress n domainR ts).publicIp = freshIp n
    ∧ (freshAddress n domainR ts).domain = domainR
    ∧ (freshAddress n domainR ts).tags = ts
    ∧ (freshAddress n domainR ts).instanceId = none
    ∧ (freshAddress n domainR ts).networkInterfaceId = none
    ∧ (freshAddress n domainR ts).associationId = none := by
  exact ⟨rfl, rfl, rfl, rfl, rfl, rfl⟩

/-- A fresh address is unassociated. -/
theorem freshAddress_free (n : Nat) (domainR : String) (ts : Tags) :
    addrAssociated (freshAddress n domainR ts) = false := rfl

/-- A fresh `vpc` address carries its minted allocation id. -/
theorem freshAddress_vpc_alloc (n : Nat) (ts : Tags) :
    (freshAddress n "vpc" ts).allocationId = some (freshAllocId n) := rfl

/-- A fresh `standard` address carries no allocation id. -/
theorem freshAddress_std_alloc (n : Nat) (ts : Tags) :
    (freshAddress n "standard" ts).allocationId = none := rfl

/-- The requested domain resolves to `vpc` exactly when `in_vpc` was
set. -/
theorem resolveDomain_vpc : resolveDomain (some "vpc") = "vpc" := by decide

theorem resolveDomain_none : resolveDomain none = "standard" := rfl

/-- The tag step after a fresh tagged allocation never reports a change:
the creation-time tags already are the reconciliation target. -/
theorem fresh_etv (purge : Bool) (tags : Option Tags) (c' : Cloud) (aid : String)
    (fa : Address)
    (hfind : c'.addresses.find? (fun x => x.allocationId == some aid) = some fa)
    (htags : fa.tags = tagSpecArg tags) :
    ensureTagsVal purge (some aid) tags c' = (false, c') := by
  match tags with
  | none => rfl
  | some T =>
    simp only [ensureTagsVal, hfind, htags]
    simp [fresh_tags_nochange purge T]

end Ec2Eip

namespace Ec2Eip

/-- After a first run that associated address `a` (the unique target of
the built association call) with the requested device and then settled the
tags, a second run exits with `changed=false`. -/
theorem run2_after_assoc (p : Params) (cB : Cloud) (ii : Bool) (stv : Option SearchTags)
    (a : Address) (aid : String) (d : String)
    (hstate : p.state = "present") (hcm : p.checkMode = false)
    (hci : check_is_instance p.deviceId p.inVpc = .ok ii)
    (hst : tagDictRes p.tagName p.tagValue = .ok stv)
    (hdeq : p.deviceId = some d) (hdt : pyTruthyStr (some d) = true)
    (hipsB : publicIpsDistinct cB.addresses = true)
    (haid : a.allocationId = some aid)
    (hqt : cB.addresses.filter
      (associateTargets (builtAssocArgs (some a) p.privateIpAddress d
        p.allowReassociation ii)) = [a])
    (hipcase : (pyTruthyStr p.publicIp = true ∧ p.publicIp = some a.publicIp)
      ∨ (pyTruthyStr p.publicIp = false
          ∧ ∀ x ∈ cB.addresses,
            (if ii then x.instanceId == some d else x.networkInterfaceId == some d)
              = false))
    (hvpcB : ii = true → p.reuseExistingIpAllowed = true →
      vpcOk (if p.inVpc = true then some "vpc" else none)
        (findDeviceVal cB d true) = true) :
    ∃ r2 s2,
      run p (ensureTagsVal p.purgeTags (some aid) p.tags
        (assocCloudUpd (builtAssocArgs (some a) p.privateIpAddress d
          p.allowReassociation ii) cB)).2
        = (.exited r2, s2)
      ∧ r2.changed = false := by
  set args := builtAssocArgs (some a) p.privateIpAddress d p.allowReassociation ii
    with hargs
  set cA := assocCloudUpd args cB with hcA
  obtain ⟨g2, hg2, hg2f⟩ := ensureTagsVal_shape p.purgeTags (some aid) p.tags cA
  have hta : associateTargets args a = true := (filter_eq_single_mem hqt).2
  have hamem : a ∈ cB.addresses := (filter_eq_single_mem hqt).1
  set b1 := associateUpdate args cB.fresh a with hb1
  have hf'a : (if associateTargets args a = true
      then associateUpdate args cB.fresh a else a) = b1 := by rw [if_pos hta]
  have hmemA : b1 ∈ cA.addresses := by
    show b1 ∈ cB.addresses.map _
    rw [← hf'a]
    exact List.mem_map_of_mem _ hamem
  have hipsA : publicIpsDistinct cA.addresses = true := by
    show publicIpsDistinct (cB.addresses.map _) = true
    rw [publicIpsDistinct_map (assocMap_publicIp args cB.fresh)]
    exact hipsB
  have hb1ip : b1.publicIp = a.publicIp := assocUpdate_publicIp args cB.fresh a
  have hb1aid : b1.allocationId = some aid :=
    (assocUpdate_allocId args cB.fresh a).trans haid
  have hb1f : (if ii then b1.instanceId == some d
      else b1.networkInterfaceId == some d) = true :=
    assocUpdate_field (some a) p.privateIpAddress d p.allowReassociation ii cB.fresh a
  have hips2 : publicIpsDistinct
      (ensureTagsVal p.purgeTags (some aid) p.tags cA).2.addresses = true := by
    rw [hg2]
    show publicIpsDistinct (cA.addresses.map g2) = true
    rw [publicIpsDistinct_map (fun x => (hg2f x).1)]
    exact hipsA
  have hmem2 : g2 b1 ∈ (ensureTagsVal p.purgeTags (some aid) p.tags cA).2.addresses := by
    rw [hg2]
    exact List.mem_map_of_mem g2 hmemA
  have haid2 : (g2 b1).allocationId = some aid := by
    rw [(hg2f b1).2.1]
    exact hb1aid
  have hfield2 : (if ii then (g2 b1).instanceId == some d
      else (g2 b1).networkInterfaceId == some d) = true := by
    cases ii with
    | true =>
      simp only [if_true] at hb1f ⊢
      rw [(hg2f b1).2.2.1]
      exact hb1f
    | false =>
      simp only [Bool.false_eq_true, if_false] at hb1f ⊢
      rw [(hg2f b1).2.2.2.1]
      exact hb1f
  have hdevq : pyTruthyStr p.publicIp = false →
      describeQuery (ensureTagsVal p.purgeTags (some aid) p.tags cA).2
        { filters := [if ii then .instanceId d else .networkInterfaceId d] }
        = [g2 b1] := by
    intro hipf
    rcases hipcase with ⟨hip, _⟩ | ⟨_, hold⟩
    · rw [hip] at hipf
      cases hipf
    · rw [hg2, describeQuery_dev]
      show (cA.addresses.map g2).filter _ = _
      rw [filter_map_of_inv (fun x => by
        cases ii with
        | true =>
          simp only [if_true]
          rw [(hg2f x).2.2.1]
        | false =>
          simp only [Bool.false_eq_true, if_false]
          rw [(hg2f x).2.2.2.1])]
      have hA : cA.addresses.filter
          (fun x => if ii then x.instanceId == some d
                    else x.networkInterfaceId == some d) = [b1] := by
        show (cB.addresses.map _).filter _ = _
        exact filter_map_single hqt (fun x hx _ => hold x hx) hb1f
      rw [hA]
      rfl
  have hloc2 : (pyTruthyStr p.publicIp = true ∧ p.publicIp = some (g2 b1).publicIp)
      ∨ (pyTruthyStr p.publicIp = false ∧ pyTruthyStr p.deviceId = true) := by
    rcases hipcase with ⟨hip, hipeq⟩ | ⟨hipf, _⟩
    · left
      refine ⟨hip, ?_⟩
      rw [(hg2f b1).1, hb1ip]
      exact hipeq
    · exact .inr ⟨hipf, by rw [hdeq]; exact hdt⟩
  have hbound : pyTruthyStr p.deviceId = true → ∀ d', p.deviceId = some d' →
      ((if ii then (g2 b1).instanceId == some d'
        else (g2 b1).networkInterfaceId == some d') = true
       ∧ (pyTruthyStr (some (g2 b1).publicIp) = false →
           describeQuery (ensureTagsVal p.purgeTags (some aid) p.tags cA).2
             { filters := [if ii then .instanceId d'
                           else .networkInterfaceId d'] } = [g2 b1])
       ∧ (pyTruthyStr p.publicIp = false →
           describeQuery (ensureTagsVal p.purgeTags (some aid) p.tags cA).2
             { filters := [if ii then .instanceId d'
                           else .networkInterfaceId d'] } = [g2 b1])) := by
    intro _ d' hd'
    have hdd : d' = d := by
      rw [hdeq] at hd'
      exact (Option.some.inj hd').symm
    subst hdd
    refine ⟨hfield2, ?_, hdevq⟩
    intro hf
    rcases hipcase with ⟨hip, hipeq⟩ | ⟨hipf, _⟩
    · rw [(hg2f b1).1, hb1ip] at hf
      rw [hipeq] at hip
      rw [hip] at hf
      cases hf
    · exact hdevq hipf
  have hvpc2 : ∀ d', p.deviceId = some d' → ii = true →
      p.reuseExistingIpAllowed = true →
      vpcOk (if p.inVpc = true then some "vpc" else none)
        (findDeviceVal (ensureTagsVal p.purgeTags (some aid) p.tags cA).2 d' true)
        = true := by
    intro d' hd' hii hre
    have hdd : d' = d := by
      rw [hdeq] at hd'
      exact (Option.some.inj hd').symm
    subst hdd
    rw [hg2]
    exact hvpcB hii hre
  exact run2_noop p _ ii stv (g2 b1) aid hstate hcm hci hst hips2 hmem2 haid2
    hloc2 hbound hvpc2 (ensureTagsVal_settled p.purgeTags (some aid) p.tags cA)

end Ec2Eip

namespace Ec2Eip

/-- A located-address run whose device-branch `ensure_present` fails,
fails as a whole. -/
theorem run1_dev_fail (p : Params) (c : Cloud) (ii : Bool) (stv : Option SearchTags)
    (aOpt : Option Address) (sR : St) (m : String) (st' : St)
    (hstate : p.state = "present")
    (hci : check_is_instance p.deviceId p.inVpc = .ok ii)
    (hst : tagDictRes p.tagName p.tagValue = .ok stv)
    (hdev : pyTruthyStr p.deviceId = true)
    (hloc : find_address p p.publicIp p.deviceId ii (St.mk c []) = (.ok aOpt, sR))
    (hEPf : ensure_present p (if p.inVpc = true then some "vpc" else none) aOpt
      p.privateIpAddress p.deviceId p.reuseExistingIpAllowed p.allowReassociation
      p.checkMode p.tags ii sR = (.failed m, st')) :
    run p c = (.failed m, st') := by
  rw [run_to_present2 p c ii stv aOpt sR hstate hci
    (by rw [generate_tag_dict_eval, hst]) (by simp only [hdev, if_true]; exact hloc)]
  exact mp_dev_fail p _ ii stv aOpt sR st' m hdev hEPf

/-- A located-address run whose device-branch `ensure_present` crashes,
crashes as a whole. -/
theorem run1_dev_crash (p : Params) (c : Cloud) (ii : Bool) (stv : Option SearchTags)
    (aOpt : Option Address) (sR : St) (m : String) (st' : St)
    (hstate : p.state = "present")
    (hci : check_is_instance p.deviceId p.inVpc = .ok ii)
    (hst : tagDictRes p.tagName p.tagValue = .ok stv)
    (hdev : pyTruthyStr p.deviceId = true)
    (hloc : find_address p p.publicIp p.deviceId ii (St.mk c []) = (.ok aOpt, sR))
    (hEPc : ensure_present p (if p.inVpc = true then some "vpc" else none) aOpt
      p.privateIpAddress p.deviceId p.reuseExistingIpAllowed p.allowReassociation
      p.checkMode p.tags ii sR = (.crashed m, st')) :
    run p c = (.crashed m, st') := by
  rw [run_to_present2 p c ii stv aOpt sR hstate hci
    (by rw [generate_tag_dict_eval, hst]) (by simp only [hdev, if_true]; exact hloc)]
  exact mp_dev_crash p _ ii stv aOpt sR st' m hdev hEPc

/-- A located-address run whose device-branch `ensure_present` returns a
result with an allocation id exits with the tag flag folded in. -/
theorem run1_dev_ok (p : Params) (c : Cloud) (ii : Bool) (stv : Option SearchTags)
    (aOpt : Option Address) (sR st st2 : St) (r : ModuleResult) (aid : String)
    (tc : Bool)
    (hstate : p.state = "present")
    (hci : check_is_instance p.deviceId p.inVpc = .ok ii)
    (hst : tagDictRes p.tagName p.tagValue = .ok stv)
    (hdev : pyTruthyStr p.deviceId = true)
    (hloc : find_address p p.publicIp p.deviceId ii (St.mk c []) = (.ok aOpt, sR))
    (hEP : ensure_present p (if p.inVpc = true then some "vpc" else none) aOpt
      p.privateIpAddress p.deviceId p.reuseExistingIpAllowed p.allowReassociation
      p.checkMode p.tags ii sR = (.ok r, st))
    (hra : r.allocationId = some aid)
    (hT : ensure_ec2_tags p (some aid) p.tags p.purgeTags st = (.ok tc, st2)) :
    run p c = (.exited { r with changed := r.changed || tc }, st2) := by
  rw [run_to_present2 p c ii stv aOpt sR hstate hci
    (by rw [generate_tag_dict_eval, hst]) (by simp only [hdev, if_true]; exact hloc)]
  exact mp_dev_ok p _ ii stv aOpt sR st st2 r aid tc hdev hEP hra hT

/-- First-run leaf: the locator returned an address already bound to the
requested device — the run is a read-only no-op up to the tag step, and
the second run reports `changed=false`. -/
theorem ln_noop (p : Params) (c : Cloud) (ii : Bool) (stv : Option SearchTags)
    (a : Address) (d : String) (r1 : ModuleResult) (s1 : St)
    (hstate : p.state = "present") (hcm : p.checkMode = false)
    (hips : publicIpsDistinct c.addresses = true)
    (hci : check_is_instance p.deviceId p.inVpc = .ok ii)
    (hst : tagDictRes p.tagName p.tagValue = .ok stv)
    (hdeq : p.deviceId = some d) (hdt : pyTruthyStr (some d) = true)
    (hamem : a ∈ c.addresses)
    (hfield : (if ii then a.instanceId == some d else a.networkInterfaceId == some d)
      = true)
    (hloc : find_address p p.publicIp p.deviceId ii (St.mk c [])
      = (.ok (some a), St.mk c [ApiCall.describeAddresses]))
    (hqdev0 : pyTruthyStr (some a.publicIp) = false →
      describeQuery c { filters := [if ii then .instanceId d
        else .networkInterfaceId d] } = [a])
    (hqdev2 : pyTruthyStr p.publicIp = false →
      describeQuery c { filters := [if ii then .instanceId d
        else .networkInterfaceId d] } = [a])
    (hip2 : pyTruthyStr p.publicIp = true → p.publicIp = some a.publicIp)
    (h1 : run p c = (.exited r1, s1)) :
    ∃ r2 s2, run p s1.cloud = (.exited r2, s2) ∧ r2.changed = false := by
  have hdev : pyTruthyStr p.deviceId = true := by rw [hdeq]; exact hdt
  have hchk := check_true_of_devfound2 p a d ii
    (St.mk c ([ApiCall.describeAddresses]
      ++ [if ii then ApiCall.describeInstances else ApiCall.describeNetworkInterfaces]))
    hips hamem hdt hfield hqdev0
  have hA := assoc_noop2 p a p.privateIpAddress d p.allowReassociation ii _ hchk
  by_cases hgood : ii = true → p.reuseExistingIpAllowed = true →
      vpcOk (if p.inVpc = true then some "vpc" else none) (findDeviceVal c d true) = true
  · -- guard passes (or never runs)
    have hvc : ii = true → p.reuseExistingIpAllowed = false
        ∨ vpcOk (if p.inVpc = true then some "vpc" else none)
          (findDeviceVal (St.mk c [ApiCall.describeAddresses]).cloud d true) = true := by
      intro hii
      cases hre : p.reuseExistingIpAllowed with
      | false => exact .inl rfl
      | true => exact .inr (hgood hii hre)
    cases haidc : a.allocationId with
    | none =>
      have hrest := epr_crash p (if p.inVpc = true then some "vpc" else none) a false
        p.privateIpAddress d p.reuseExistingIpAllowed p.allowReassociation ii
        (St.mk c [ApiCall.describeAddresses]) false _ hdt hvc hA haidc
      rw [← hdeq] at hrest
      have hEP := ep_found p (if p.inVpc = true then some "vpc" else none) a
        p.privateIpAddress p.deviceId p.reuseExistingIpAllowed p.allowReassociation
        p.checkMode p.tags ii (St.mk c [ApiCall.describeAddresses])
      rw [hrest] at hEP
      rw [run1_dev_crash p c ii stv (some a) _ _ _ hstate hci hst hdev hloc hEP] at h1
      simp at h1
    | some aid =>
      have hrest := epr_ok p (if p.inVpc = true then some "vpc" else none) a false
        p.privateIpAddress d p.reuseExistingIpAllowed p.allowReassociation ii
        (St.mk c [ApiCall.describeAddresses]) aid false _ hdt hvc hA haidc
      rw [← hdeq] at hrest
      have hEP := ep_found p (if p.inVpc = true then some "vpc" else none) a
        p.privateIpAddress p.deviceId p.reuseExistingIpAllowed p.allowReassociation
        p.checkMode p.tags ii (St.mk c [ApiCall.describeAddresses])
      rw [hrest] at hEP
      have hT := ensure_tags_eval p (some aid) p.tags c hcm
        (([ApiCall.describeAddresses]
          ++ [if ii then ApiCall.describeInstances
              else ApiCall.describeNetworkInterfaces]) ++ [ApiCall.describeAddresses])
      have hrun1 := run1_dev_ok p c ii stv (some a) _ _ _ _ aid _ hstate hci hst hdev
        hloc hEP rfl hT
      rw [hrun1] at h1
      obtain ⟨-, hs1⟩ := Prod.mk.injEq .. ▸ h1
      rw [← hs1]
      obtain ⟨g, hg, hgf⟩ := ensureTagsVal_shape p.purgeTags (some aid) p.tags c
      have hfield2 : (if ii then (g a).instanceId == some d
          else (g a).networkInterfaceId == some d) = true := by
        cases ii with
        | true =>
          simp only [if_true] at hfield ⊢
          rw [(hgf a).2.2.1]
          exact hfield
        | false =>
          simp only [Bool.false_eq_true, if_false] at hfield ⊢
          rw [(hgf a).2.2.2.1]
          exact hfield
      have hdq : describeQuery c { filters := [if ii then .instanceId d
            else .networkInterfaceId d] } = [a] →
          describeQuery (ensureTagsVal p.purgeTags (some aid) p.tags c).2
            { filters := [if ii then .instanceId d
              else .networkInterfaceId d] } = [g a] := by
        intro hq
        rw [hg, describeQuery_dev]
        show (c.addresses.map g).filter _ = _
        rw [filter_map_of_inv (fun x => by
          cases ii with
          | true =>
            simp only [if_true]
            rw [(hgf x).2.2.1]
          | false =>
            simp only [Bool.false_eq_true, if_false]
            rw [(hgf x).2.2.2.1])]
        rw [describeQuery_dev] at hq
        rw [hq]
        rfl
      exact run2_noop p _ ii stv (g a) aid hstate hcm hci hst
        (by rw [hg]
            show publicIpsDistinct (c.addresses.map g) = true
            rw [publicIpsDistinct_map (fun x => (hgf x).1)]
            exact hips)
        (by rw [hg]; exact List.mem_map_of_mem g hamem)
        (by rw [(hgf a).2.1]; exact haidc)
        (by
          by_cases hip : pyTruthyStr p.publicIp = true
          · exact .inl ⟨hip, by rw [(hgf a).1]; exact hip2 hip⟩
          · exact .inr ⟨by simpa using hip, hdev⟩)
        (by
          intro _ d' hd'
          have hdd : d' = d := by
            rw [hdeq] at hd'
            exact (Option.some.inj hd').symm
          subst hdd
          refine ⟨hfield2, ?_, ?_⟩
          · intro hf
            rw [(hgf a).1] at hf
            exact hdq (hqdev0 hf)
          · intro hf
            exact hdq (hqdev2 hf))
        (by
          intro d' hd' hii hre
          have hdd : d' = d := by
            rw [hdeq] at hd'
            exact (Option.some.inj hd').symm
          subst hdd
          rw [hg]
          exact hgood hii hre)
        (ensureTagsVal_settled p.purgeTags (some aid) p.tags c)
  · -- guard fails: the first run could not have exited
    rw [Classical.not_imp] at hgood
    obtain ⟨hii, hgood2⟩ := hgood
    rw [Classical.not_imp] at hgood2
    obtain ⟨hre, hvo'⟩ := hgood2
    have hvo : vpcOk (if p.inVpc = true then some "vpc" else none)
        (findDeviceVal c d true) = false := by
      cases h : vpcOk (if p.inVpc = true then some "vpc" else none)
          (findDeviceVal c d true) with
      | true => exact absurd h hvo'
      | false => rfl
    subst hii
    rcases epr_vpcbad p (if p.inVpc = true then some "vpc" else none) a false
      p.privateIpAddress d p.allowReassociation (St.mk c [ApiCall.describeAddresses])
      hdt hvo with ⟨m, s2, hf⟩ | ⟨m, s2, hcr⟩
    · have hrest : ensure_present_rest p (if p.inVpc = true then some "vpc" else none)
          (some a) false p.privateIpAddress p.deviceId p.reuseExistingIpAllowed
          p.allowReassociation true (St.mk c [ApiCall.describeAddresses])
          = (.failed m, s2) := by
        rw [hdeq, hre]
        exact hf
      have hEP := ep_found p (if p.inVpc = true then some "vpc" else none) a
        p.privateIpAddress p.deviceId p.reuseExistingIpAllowed p.allowReassociation
        p.checkMode p.tags true (St.mk c [ApiCall.describeAddresses])
      rw [hrest] at hEP
      rw [run1_dev_fail p c true stv (some a) _ _ _ hstate hci hst hdev hloc hEP] at h1
      simp at h1
    · have hrest : ensure_present_rest p (if p.inVpc = true then some "vpc" else none)
          (some a) false p.privateIpAddress p.deviceId p.reuseExistingIpAllowed
          p.allowReassociation true (St.mk c [ApiCall.describeAddresses])
          = (.crashed m, s2) := by
        rw [hdeq, hre]
        exact hcr
      have hEP := ep_found p (if p.inVpc = true then some "vpc" else none) a
        p.privateIpAddress p.deviceId p.reuseExistingIpAllowed p.allowReassociation
        p.checkMode p.tags true (St.mk c [ApiCall.describeAddresses])
      rw [hrest] at hEP
      rw [run1_dev_crash p c true stv (some a) _ _ _ hstate hci hst hdev hloc hEP] at h1
      simp at h1

end Ec2Eip

namespace Ec2Eip

/-- A located-address run whose association step fails cannot have
exited. -/
theorem ln_found_rest_fail_contra (p : Params) (c : Cloud) (ii : Bool)
    (stv : Option SearchTags) (a : Address) (m : String) (s' : St)
    (r1 : ModuleResult) (s1 : St)
    (hstate : p.state = "present")
    (hci : check_is_instance p.deviceId p.inVpc = .ok ii)
    (hst : tagDictRes p.tagName p.tagValue = .ok stv)
    (hdev : pyTruthyStr p.deviceId = true)
    (hloc : find_address p p.publicIp p.deviceId ii (St.mk c [])
      = (.ok (some a), St.mk c [ApiCall.describeAddresses]))
    (hrest : ensure_present_rest p (if p.inVpc = true then some "vpc" else none)
      (some a) false p.privateIpAddress p.deviceId p.reuseExistingIpAllowed
      p.allowReassociation ii (St.mk c [ApiCall.describeAddresses]) = (.failed m, s'))
    (h1 : run p c = (.exited r1, s1)) : False := by
  have hEP := ep_found p (if p.inVpc = true then some "vpc" else none) a
    p.privateIpAddress p.deviceId p.reuseExistingIpAllowed p.allowReassociation
    p.checkMode p.tags ii (St.mk c [ApiCall.describeAddresses])
  rw [hrest] at hEP
  rw [run1_dev_fail p c ii stv (some a) _ _ _ hstate hci hst hdev hloc hEP] at h1
  simp at h1

/-- A located-address run whose association step crashes cannot have
exited. -/
theorem ln_found_rest_crash_contra (p : Params) (c : Cloud) (ii : Bool)
    (stv : Option SearchTags) (a : Address) (m : String) (s' : St)
    (r1 : ModuleResult) (s1 : St)
    (hstate : p.state = "present")
    (hci : check_is_instance p.deviceId p.inVpc = .ok ii)
    (hst : tagDictRes p.tagName p.tagValue = .ok stv)
    (hdev : pyTruthyStr p.deviceId = true)
    (hloc : find_address p p.publicIp p.deviceId ii (St.mk c [])
      = (.ok (some a), St.mk c [ApiCall.describeAddresses]))
    (hrest : ensure_present_rest p (if p.inVpc = true then some "vpc" else none)
      (some a) false p.privateIpAddress p.deviceId p.reuseExistingIpAllowed
      p.allowReassociation ii (St.mk c [ApiCall.describeAddresses]) = (.crashed m, s'))
    (h1 : run p c = (.exited r1, s1)) : False := by
  have hEP := ep_found p (if p.inVpc = true then some "vpc" else none) a
    p.privateIpAddress p.deviceId p.reuseExistingIpAllowed p.allowReassociation
    p.checkMode p.tags ii (St.mk c [ApiCall.describeAddresses])
  rw [hrest] at hEP
  rw [run1_dev_crash p c ii stv (some a) _ _ _ hstate hci hst hdev hloc hEP] at h1
  simp at h1

/-- First-run leaf: the locator found the requested public IP on an
address not yet bound to the device — the completed run associates it, and
the second run reports `changed=false`. -/
theorem ln_mut (p : Params) (c : Cloud) (ii : Bool) (stv : Option SearchTags)
    (a : Address) (d : String) (r1 : ModuleResult) (s1 : St)
    (hstate : p.state = "present") (hcm : p.checkMode = false)
    (hips : publicIpsDistinct c.addresses = true)
    (hdist : allocIdsDistinct c.addresses = true)
    (hci : check_is_instance p.deviceId p.inVpc = .ok ii)
    (hst : tagDictRes p.tagName p.tagValue = .ok stv)
    (hdeq : p.deviceId = some d) (hdt : pyTruthyStr (some d) = true)
    (hamem : a ∈ c.addresses)
    (hip : pyTruthyStr p.publicIp = true)
    (hipeq : p.publicIp = some a.publicIp)
    (hfield : (if ii then a.instanceId == some d else a.networkInterfaceId == some d)
      = false)
    (h1 : run p c = (.exited r1, s1)) :
    ∃ r2 s2, run p s1.cloud = (.exited r2, s2) ∧ r2.changed = false := by
  have hdev : pyTruthyStr p.deviceId = true := by rw [hdeq]; exact hdt
  have hipa : pyTruthyStr (some a.publicIp) = true := by rw [← hipeq]; exact hip
  have hloc : find_address p p.publicIp p.deviceId ii (St.mk c [])
      = (.ok (some a), St.mk c [ApiCall.describeAddresses]) := by
    rw [hipeq, hdeq]
    refine find_address_single p _ _ ii _ _ a
      (findAddressArgs_pub a.publicIp (some d) ii hipa) ?_
    rw [describeQuery_ip]
    exact filter_ip_single hips hamem
  have hchk := check_false_of_unbound p a d ii
    (St.mk c ([ApiCall.describeAddresses]
      ++ [if ii then ApiCall.describeInstances else ApiCall.describeNetworkInterfaces]))
    hstate hips hamem hdt hfield
    (fun hf => absurd (hipa.symm.trans hf) (by decide))
  by_cases hgood : ii = true → p.reuseExistingIpAllowed = true →
      vpcOk (if p.inVpc = true then some "vpc" else none) (findDeviceVal c d true) = true
  · have hvc : ii = true → p.reuseExistingIpAllowed = false
        ∨ vpcOk (if p.inVpc = true then some "vpc" else none)
          (findDeviceVal (St.mk c [ApiCall.describeAddresses]).cloud d true) = true := by
      intro hii
      cases hre : p.reuseExistingIpAllowed with
      | false => exact .inl rfl
      | true => exact .inr (hgood hii hre)
    -- target analysis for the association call
    have h3 : (∃ aid, a.allocationId = some aid
        ∧ c.addresses.filter (associateTargets (builtAssocArgs (some a)
            p.privateIpAddress d p.allowReassociation ii)) = [a])
        ∨ (∀ x ∈ c.addresses, associateTargets (builtAssocArgs (some a)
            p.privateIpAddress d p.allowReassociation ii) x = false)
        ∨ (a.allocationId = none
            ∧ c.addresses.filter (associateTargets (builtAssocArgs (some a)
                p.privateIpAddress d p.allowReassociation ii)) = [a]) := by
      cases ii with
      | true =>
        cases hdom : (a.domain == "vpc") with
        | true =>
          cases haidc : a.allocationId with
          | none =>
            exact .inr (.inl (fun x hx =>
              targets_ii_vpc_none hdom haidc p.privateIpAddress d p.allowReassociation x))
          | some aid =>
            refine .inl ⟨aid, rfl, ?_⟩
            rw [show associateTargets (builtAssocArgs (some a) p.privateIpAddress d
                p.allowReassociation true) = (fun x => x.allocationId == some aid) from
              funext (targets_ii_vpc hdom haidc p.privateIpAddress d p.allowReassociation)]
            exact filter_alloc_single hdist hamem haidc
        | false =>
          cases haidc : a.allocationId with
          | none =>
            refine .inr (.inr ⟨rfl, ?_⟩)
            rw [show associateTargets (builtAssocArgs (some a) p.privateIpAddress d
                p.allowReassociation true) = (fun x => x.publicIp == a.publicIp) from
              funext (targets_ii_nonvpc hdom p.privateIpAddress d p.allowReassociation)]
            exact filter_ip_single hips hamem
          | some aid =>
            refine .inl ⟨aid, rfl, ?_⟩
            rw [show associateTargets (builtAssocArgs (some a) p.privateIpAddress d
                p.allowReassociation true) = (fun x => x.publicIp == a.publicIp) from
              funext (targets_ii_nonvpc hdom p.privateIpAddress d p.allowReassociation)]
            exact filter_ip_single hips hamem
      | false =>
        cases haidc : a.allocationId with
        | none =>
          exact .inr (.inl (fun x hx =>
            targets_eni_none haidc p.privateIpAddress d p.allowReassociation x))
        | some aid =>
          refine .inl ⟨aid, rfl, ?_⟩
          rw [show associateTargets (builtAssocArgs (some a) p.privateIpAddress d
              p.allowReassociation false) = (fun x => x.allocationId == some aid) from
            funext (targets_eni haidc p.privateIpAddress d p.allowReassociation)]
          exact filter_alloc_single hdist hamem haidc
    rcases h3 with ⟨aid, haidc, hqt⟩ | hnone | ⟨haidn, hqt⟩
    · -- unique target with an allocation id
      have hfind := find?_eq_of_filter_single hqt
      cases hbusy : (addrAssociated a && !p.allowReassociation) with
      | true =>
        rcases assoc_err2 p a p.privateIpAddress d p.allowReassociation ii _ hchk hcm
          (.inr ⟨a, hfind, hbusy⟩) with ⟨m, s', hfl⟩
        have hrest := epr_fail p (if p.inVpc = true then some "vpc" else none) a false
          p.privateIpAddress d p.reuseExistingIpAllowed p.allowReassociation ii
          (St.mk c [ApiCall.describeAddresses]) m s' hdt hvc hfl
        rw [← hdeq] at hrest
        exact absurd h1 (fun h1 => ln_found_rest_fail_contra p c ii stv a m s' r1 s1
          hstate hci hst hdev hloc hrest h1)
      | false =>
        have hA := assoc_do2 p a p.privateIpAddress d p.allowReassociation ii _ a
          hchk hcm hfind hbusy
        have hrest := epr_ok p (if p.inVpc = true then some "vpc" else none) a false
          p.privateIpAddress d p.reuseExistingIpAllowed p.allowReassociation ii
          (St.mk c [ApiCall.describeAddresses]) aid true _ hdt hvc hA haidc
        rw [← hdeq] at hrest
        have hEP := ep_found p (if p.inVpc = true then some "vpc" else none) a
          p.privateIpAddress p.deviceId p.reuseExistingIpAllowed p.allowReassociation
          p.checkMode p.tags ii (St.mk c [ApiCall.describeAddresses])
        rw [hrest] at hEP
        have hT := ensure_tags_eval p (some aid) p.tags
          (assocCloudUpd (builtAssocArgs (some a) p.privateIpAddress d
            p.allowReassociation ii) c) hcm
          (([ApiCall.describeAddresses]
            ++ [if ii then ApiCall.describeInstances
                else ApiCall.describeNetworkInterfaces]) ++ [ApiCall.describeAddresses]
            ++ [ApiCall.associateAddress])
        have hrun1 := run1_dev_ok p c ii stv (some a) _ _ _ _ aid _ hstate hci hst hdev
          hloc hEP rfl hT
        rw [hrun1] at h1
        obtain ⟨-, hs1⟩ := Prod.mk.injEq .. ▸ h1
        rw [← hs1]
        exact run2_after_assoc p c ii stv a aid d hstate hcm hci hst hdeq hdt hips
          haidc hqt (.inl ⟨hip, hipeq⟩) hgood
    · -- nothing targeted: the cloud refuses
      have hfind : c.addresses.find? (associateTargets (builtAssocArgs (some a)
          p.privateIpAddress d p.allowReassociation ii)) = none :=
        List.find?_eq_none.mpr (fun x hx => by simp [hnone x hx])
      rcases assoc_err2 p a p.privateIpAddress d p.allowReassociation ii _ hchk hcm
        (.inl hfind) with ⟨m, s', hfl⟩
      have hrest := epr_fail p (if p.inVpc = true then some "vpc" else none) a false
        p.privateIpAddress d p.reuseExistingIpAllowed p.allowReassociation ii
        (St.mk c [ApiCall.describeAddresses]) m s' hdt hvc hfl
      rw [← hdeq] at hrest
      exact absurd h1 (fun h1 => ln_found_rest_fail_contra p c ii stv a m s' r1 s1
        hstate hci hst hdev hloc hrest h1)
    · -- association succeeds but the result subscript crashes
      have hfind := find?_eq_of_filter_single hqt
      cases hbusy : (addrAssociated a && !p.allowReassociation) with
      | true =>
        rcases assoc_err2 p a p.privateIpAddress d p.allowReassociation ii _ hchk hcm
          (.inr ⟨a, hfind, hbusy⟩) with ⟨m, s', hfl⟩
        have hrest := epr_fail p (if p.inVpc = true then some "vpc" else none) a false
          p.privateIpAddress d p.reuseExistingIpAllowed p.allowReassociation ii
          (St.mk c [ApiCall.describeAddresses]) m s' hdt hvc hfl
        rw [← hdeq] at hrest
        exact absurd h1 (fun h1 => ln_found_rest_fail_contra p c ii stv a m s' r1 s1
          hstate hci hst hdev hloc hrest h1)
      | false =>
        have hA := assoc_do2 p a p.privateIpAddress d p.allowReassociation ii _ a
          hchk hcm hfind hbusy
        have hrest := epr_crash p (if p.inVpc = true then some "vpc" else none) a false
          p.privateIpAddress d p.reuseExistingIpAllowed p.allowReassociation ii
          (St.mk c [ApiCall.describeAddresses]) true _ hdt hvc hA haidn
        rw [← hdeq] at hrest
        exact absurd h1 (fun h1 => ln_found_rest_crash_contra p c ii stv a
          "KeyError: AllocationId" _ r1 s1 hstate hci hst hdev hloc hrest h1)
  · rw [Classical.not_imp] at hgood
    obtain ⟨hii, hgood2⟩ := hgood
    rw [Classical.not_imp] at hgood2
    obtain ⟨hre, hvo'⟩ := hgood2
    have hvo : vpcOk (if p.inVpc = true then some "vpc" else none)
        (findDeviceVal c d true) = false := by
      cases h : vpcOk (if p.inVpc = true then some "vpc" else none)
          (findDeviceVal c d true) with
      | true => exact absurd h hvo'
      | false => rfl
    subst hii
    rcases epr_vpcbad p (if p.inVpc = true then some "vpc" else none) a false
      p.privateIpAddress d p.allowReassociation (St.mk c [ApiCall.describeAddresses])
      hdt hvo with ⟨m, s2, hf⟩ | ⟨m, s2, hcr⟩
    · have hrest : ensure_present_rest p (if p.inVpc = true then some "vpc" else none)
          (some a) false p.privateIpAddress p.deviceId p.reuseExistingIpAllowed
          p.allowReassociation true (St.mk c [ApiCall.describeAddresses])
          = (.failed m, s2) := by
        rw [hdeq, hre]
        exact hf
      exact absurd h1 (fun h1 => ln_found_rest_fail_contra p c true stv a m s2 r1 s1
        hstate hci hst hdev hloc hrest h1)
    · have hrest : ensure_present_rest p (if p.inVpc = true then some "vpc" else none)
          (some a) false p.privateIpAddress p.deviceId p.reuseExistingIpAllowed
          p.allowReassociation true (St.mk c [ApiCall.describeAddresses])
          = (.crashed m, s2) := by
        rw [hdeq, hre]
        exact hcr
      exact absurd h1 (fun h1 => ln_found_rest_crash_contra p c true stv a m s2 r1 s1
        hstate hci hst hdev hloc hrest h1)

end Ec2Eip

namespace Ec2Eip

/-- What the association call built for a located address can target:
either exactly that address (which then has an allocation id), or nothing,
or exactly that address while it lacks an allocation id (the raw-IP
targeting of non-`vpc` instance associations). -/
theorem targets_analysis (c : Cloud) (a : Address) (priv : Option String)
    (d : String) (allowR ii : Bool)
    (hips : publicIpsDistinct c.addresses = true)
    (hdist : allocIdsDistinct c.addresses = true)
    (hamem : a ∈ c.addresses) :
    (∃ aid, a.allocationId = some aid
      ∧ c.addresses.filter
          (associateTargets (builtAssocArgs (some a) priv d allowR ii)) = [a])
    ∨ (∀ x ∈ c.addresses,
        associateTargets (builtAssocArgs (some a) priv d allowR ii) x = false)
    ∨ (a.allocationId = none
        ∧ c.addresses.filter
            (associateTargets (builtAssocArgs (some a) priv d allowR ii)) = [a]) := by
  cases ii with
  | true =>
    cases hdom : (a.domain == "vpc") with
    | true =>
      cases haidc : a.allocationId with
      | none =>
        exact .inr (.inl (fun x hx =>
          targets_ii_vpc_none hdom haidc priv d allowR x))
      | some aid =>
        refine .inl ⟨aid, rfl, ?_⟩
        rw [show associateTargets (builtAssocArgs (some a) priv d allowR true)
            = (fun x => x.allocationId == some aid) from
          funext (targets_ii_vpc hdom haidc priv d allowR)]
        exact filter_alloc_single hdist hamem haidc
    | false =>
      cases haidc : a.allocationId with
      | none =>
        refine .inr (.inr ⟨rfl, ?_⟩)
        rw [show associateTargets (builtAssocArgs (some a) priv d allowR true)
            = (fun x => x.publicIp == a.publicIp) from
          funext (targets_ii_nonvpc hdom priv d allowR)]
        exact filter_ip_single hips hamem
      | some aid =>
        refine .inl ⟨aid, rfl, ?_⟩
        rw [show associateTargets (builtAssocArgs (some a) priv d allowR true)
            = (fun x => x.publicIp == a.publicIp) from
          funext (targets_ii_nonvpc hdom priv d allowR)]
        exact filter_ip_single hips hamem
  | false =>
    cases haidc : a.allocationId with
    | none =>
      exact .inr (.inl (fun x hx => targets_eni_none haidc priv d allowR x))
    | some aid =>
      refine .inl ⟨aid, rfl, ?_⟩
      rw [show associateTargets (builtAssocArgs (some a) priv d allowR false)
          = (fun x => x.allocationId == some aid) from
        funext (targets_eni haidc priv d allowR)]
      exact filter_alloc_single hdist hamem haidc

/-- Appending an address whose allocation id collides with no listed one
keeps pairwise distinctness of allocation ids. -/
theorem allocIdsDistinct_append_one {l : List Address} {b : Address}
    (hd : allocIdsDistinct l = true)
    (hb : ∀ a ∈ l, ∀ x, a.allocationId = some x → (b.allocationId == some x) = false) :
    allocIdsDistinct (l ++ [b]) = true := by
  induction l with
  | nil =>
    show allocIdsDistinct [b] = true
    cases hba : b.allocationId with
    | none => simp [allocIdsDistinct, hba]
    | some x => simp [allocIdsDistinct, hba]
  | cons a rest ih =>
    have h1 := ((Bool.and_eq_true ..).mp hd).1
    have h2 : allocIdsDistinct rest = true := ((Bool.and_eq_true ..).mp hd).2
    show ((match a.allocationId with
        | none => true
        | some x => (rest ++ [b]).all (fun y => !(y.allocationId == some x)))
      && allocIdsDistinct (rest ++ [b])) = true
    rw [ih h2 (fun y hy x hyx => hb y (List.mem_cons_of_mem a hy) x hyx)]
    cases ha : a.allocationId with
    | none => simp
    | some x =>
      rw [ha] at h1
      have h1b : rest.all (fun y => !(y.allocationId == some x)) = true := h1
      have hbb : (!(b.allocationId == some x)) = true := by
        rw [hb a (List.mem_cons_self a rest) x ha]
        rfl
      show (((rest ++ [b]).all fun y => !(y.allocationId == some x)) && true) = true
      rw [List.all_append]
      simp [h1b, hbb]

/-- `ensure_present` with nothing located, phrased against the module's
check-mode parameter. -/
theorem ep_alloc_cm (p : Params) (domain : Option String) (ii : Bool) (s s2 : St)
    (a1 : Option Address) (c1 : Bool) (R : Outcome ModuleResult × St)
    (hcm : p.checkMode = false)
    (hAl : allocate_address domain p.reuseExistingIpAllowed false p.tags none none s
      = (.ok (a1, c1), s2))
    (hrest : ensure_present_rest p domain a1 c1 p.privateIpAddress p.deviceId
      p.reuseExistingIpAllowed p.allowReassociation ii s2 = R) :
    ensure_present p domain none p.privateIpAddress p.deviceId p.reuseExistingIpAllowed
      p.allowReassociation p.checkMode p.tags ii s = R := by
  rw [hcm]
  exact ep_alloc p domain p.privateIpAddress p.deviceId p.reuseExistingIpAllowed
    p.allowReassociation p.tags ii s s2 a1 c1 R hAl hrest

/-- `ensure_present` with nothing located propagates an allocation crash,
phrased against the module's check-mode parameter. -/
theorem ep_alloc_crash_cm (p : Params) (domain : Option String) (ii : Bool)
    (s s2 : St) (m : String)
    (hcm : p.checkMode = false)
    (hAlc : allocate_address domain p.reuseExistingIpAllowed false p.tags none none s
      = (.crashed m, s2)) :
    ensure_present p domain none p.privateIpAddress p.deviceId p.reuseExistingIpAllowed
      p.allowReassociation p.checkMode p.tags ii s = (.crashed m, s2) := by
  rw [hcm]
  exact ep_alloc_crash p domain p.privateIpAddress p.deviceId p.reuseExistingIpAllowed
    p.allowReassociation p.tags ii s s2 m hAlc

/-- An allocate-path run whose association step fails cannot have
exited. -/
theorem ln_alloc_rest_fail_contra (p : Params) (c : Cloud) (ii : Bool)
    (stv : Option SearchTags) (a1 : Option Address) (c1 : Bool) (sAl : St)
    (m : String) (s' : St) (r1 : ModuleResult) (s1 : St)
    (hstate : p.state = "present") (hcm : p.checkMode = false)
    (hci : check_is_instance p.deviceId p.inVpc = .ok ii)
    (hst : tagDictRes p.tagName p.tagValue = .ok stv)
    (hdev : pyTruthyStr p.deviceId = true)
    (hloc : find_address p p.publicIp p.deviceId ii (St.mk c [])
      = (.ok none, St.mk c [ApiCall.describeAddresses]))
    (hAl : allocate_address (if p.inVpc = true then some "vpc" else none)
      p.reuseExistingIpAllowed false p.tags none none
      (St.mk c [ApiCall.describeAddresses]) = (.ok (a1, c1), sAl))
    (hrest : ensure_present_rest p (if p.inVpc = true then some "vpc" else none)
      a1 c1 p.privateIpAddress p.deviceId p.reuseExistingIpAllowed
      p.allowReassociation ii sAl = (.failed m, s'))
    (h1 : run p c = (.exited r1, s1)) : False := by
  have hEP := ep_alloc_cm p (if p.inVpc = true then some "vpc" else none) ii
    (St.mk c [ApiCall.describeAddresses]) sAl a1 c1 _ hcm hAl hrest
  rw [run1_dev_fail p c ii stv none _ _ _ hstate hci hst hdev hloc hEP] at h1
  simp at h1

/-- An allocate-path run whose association step crashes cannot have
exited. -/
theorem ln_alloc_rest_crash_contra (p : Params) (c : Cloud) (ii : Bool)
    (stv : Option SearchTags) (a1 : Option Address) (c1 : Bool) (sAl : St)
    (m : String) (s' : St) (r1 : ModuleResult) (s1 : St)
    (hstate : p.state = "present") (hcm : p.checkMode = false)
    (hci : check_is_instance p.deviceId p.inVpc = .ok ii)
    (hst : tagDictRes p.tagName p.tagValue = .ok stv)
    (hdev : pyTruthyStr p.deviceId = true)
    (hloc : find_address p p.publicIp p.deviceId ii (St.mk c [])
      = (.ok none, St.mk c [ApiCall.describeAddresses]))
    (hAl : allocate_address (if p.inVpc = true then some "vpc" else none)
      p.reuseExistingIpAllowed false p.tags none none
      (St.mk c [ApiCall.describeAddresses]) = (.ok (a1, c1), sAl))
    (hrest : ensure_present_rest p (if p.inVpc = true then some "vpc" else none)
      a1 c1 p.privateIpAddress p.deviceId p.reuseExistingIpAllowed
      p.allowReassociation ii sAl = (.crashed m, s'))
    (h1 : run p c = (.exited r1, s1)) : False := by
  have hEP := ep_alloc_cm p (if p.inVpc = true then some "vpc" else none) ii
    (St.mk c [ApiCall.describeAddresses]) sAl a1 c1 _ hcm hAl hrest
  rw [run1_dev_crash p c ii stv none _ _ _ hstate hci hst hdev hloc hEP] at h1
  simp at h1

/-- A reuse-scan hit is a listed address of the scanned domain. -/
theorem reuseScan_mem {c : Cloud} {domainR : String} {st : Option SearchTags}
    {a : Address}
    (h : reuseScanVal domainR
      (describeQuery c { filters := reuseFilters domainR st }) = .ok (some a)) :
    a ∈ c.addresses ∧ (a.domain == domainR) = true := by
  unfold reuseScanVal at h
  cases hd : (domainR == "vpc") with
  | true =>
    rw [hd] at h
    simp only [if_true] at h
    have hx : (List.filter (fun x => !pyTruthyStr x.associationId)
        (describeQuery c { filters := reuseFilters domainR st })).head? = some a := by
      simpa using h
    exact mem_domainQuery (List.mem_of_mem_filter (mem_of_head? hx))
  | false =>
    rw [hd] at h
    simp only [Bool.false_eq_true, if_false] at h
    cases hs : standardScan (describeQuery c { filters := reuseFilters domainR st }) with
    | error e => rw [hs] at h; simp [Except.map] at h
    | ok u =>
      rw [hs] at h
      have hx : u.head? = some a := by simpa [Except.map] using h
      exact mem_domainQuery (standardScan_sub hs a (mem_of_head? hx))

end Ec2Eip

namespace Ec2Eip

/-- First-run leaf core: nothing was located, an address was allocated (or
reused) and handed to the association step over cloud `cB`; a completed
run associates it with the device, and the second run reports
`changed=false`. -/
theorem ln_alloc_rest (p : Params) (c : Cloud) (ii : Bool) (stv : Option SearchTags)
    (cB : Cloud) (a1 : Address) (ch0 : Bool) (d : String) (lgA : List ApiCall)
    (r1 : ModuleResult) (s1 : St)
    (hstate : p.state = "present") (hcm : p.checkMode = false)
    (hci : check_is_instance p.deviceId p.inVpc = .ok ii)
    (hst : tagDictRes p.tagName p.tagValue = .ok stv)
    (hdeq : p.deviceId = some d) (hdt : pyTruthyStr (some d) = true)
    (hipf : pyTruthyStr p.publicIp = false)
    (hloc : find_address p p.publicIp p.deviceId ii (St.mk c [])
      = (.ok none, St.mk c [ApiCall.describeAddresses]))
    (hAl : allocate_address (if p.inVpc = true then some "vpc" else none)
      p.reuseExistingIpAllowed false p.tags none none
      (St.mk c [ApiCall.describeAddresses])
      = (.ok (some a1, ch0), St.mk cB lgA))
    (hipsB : publicIpsDistinct cB.addresses = true)
    (hdistB : allocIdsDistinct cB.addresses = true)
    (hmemB : a1 ∈ cB.addresses)
    (hallB : ∀ x ∈ cB.addresses,
      (if ii then x.instanceId == some d else x.networkInterfaceId == some d) = false)
    (hqdev0B : pyTruthyStr (some a1.publicIp) = false →
      describeQuery cB { filters := [if ii then .instanceId d
        else .networkInterfaceId d] } = [])
    (h1 : run p c = (.exited r1, s1)) :
    ∃ r2 s2, run p s1.cloud = (.exited r2, s2) ∧ r2.changed = false := by
  have hdev : pyTruthyStr p.deviceId = true := by rw [hdeq]; exact hdt
  have hchk := check_false_of_unbound p a1 d ii
    (St.mk cB (lgA
      ++ [if ii then ApiCall.describeInstances else ApiCall.describeNetworkInterfaces]))
    hstate hipsB hmemB hdt (hallB a1 hmemB) hqdev0B
  by_cases hgood : ii = true → p.reuseExistingIpAllowed = true →
      vpcOk (if p.inVpc = true then some "vpc" else none) (findDeviceVal cB d true) = true
  · have hvc : ii = true → p.reuseExistingIpAllowed = false
        ∨ vpcOk (if p.inVpc = true then some "vpc" else none)
          (findDeviceVal (St.mk cB lgA).cloud d true) = true := by
      intro hii
      cases hre : p.reuseExistingIpAllowed with
      | false => exact .inl rfl
      | true => exact .inr (hgood hii hre)
    rcases targets_analysis cB a1 p.privateIpAddress d p.allowReassociation ii
      hipsB hdistB hmemB with ⟨aid, haidc, hqt⟩ | hnone | ⟨haidn, hqt⟩
    · have hfind := find?_eq_of_filter_single hqt
      cases hbusy : (addrAssociated a1 && !p.allowReassociation) with
      | true =>
        rcases assoc_err2 p a1 p.privateIpAddress d p.allowReassociation ii _ hchk hcm
          (.inr ⟨a1, hfind, hbusy⟩) with ⟨m, s', hfl⟩
        have hrest := epr_fail p (if p.inVpc = true then some "vpc" else none) a1 ch0
          p.privateIpAddress d p.reuseExistingIpAllowed p.allowReassociation ii
          (St.mk cB lgA) m s' hdt hvc hfl
        rw [← hdeq] at hrest
        exact absurd h1 (fun h1 => ln_alloc_rest_fail_contra p c ii stv (some a1) ch0
          (St.mk cB lgA) m s' r1 s1 hstate hcm hci hst hdev hloc hAl hrest h1)
      | false =>
        have hA := assoc_do2 p a1 p.privateIpAddress d p.allowReassociation ii _ a1
          hchk hcm hfind hbusy
        have hrest := epr_ok p (if p.inVpc = true then some "vpc" else none) a1 ch0
          p.privateIpAddress d p.reuseExistingIpAllowed p.allowReassociation ii
          (St.mk cB lgA) aid true _ hdt hvc hA haidc
        rw [← hdeq] at hrest
        have hEP := ep_alloc_cm p (if p.inVpc = true then some "vpc" else none) ii
          (St.mk c [ApiCall.describeAddresses]) (St.mk cB lgA) (some a1) ch0 _
          hcm hAl hrest
        have hT := ensure_tags_eval p (some aid) p.tags
          (assocCloudUpd (builtAssocArgs (some a1) p.privateIpAddress d
            p.allowReassociation ii) cB) hcm
          ((lgA ++ [if ii then ApiCall.describeInstances
              else ApiCall.describeNetworkInterfaces]) ++ [ApiCall.describeAddresses]
            ++ [ApiCall.associateAddress])
        have hrun1 := run1_dev_ok p c ii stv none _ _ _ _ aid _ hstate hci hst hdev
          hloc hEP rfl hT
        rw [hrun1] at h1
        obtain ⟨-, hs1⟩ := Prod.mk.injEq .. ▸ h1
        rw [← hs1]
        exact run2_after_assoc p cB ii stv a1 aid d hstate hcm hci hst hdeq hdt hipsB
          haidc hqt (.inr ⟨hipf, hallB⟩) hgood
    · have hfind : cB.addresses.find? (associateTargets (builtAssocArgs (some a1)
          p.privateIpAddress d p.allowReassociation ii)) = none :=
        List.find?_eq_none.mpr (fun x hx => by simp [hnone x hx])
      rcases assoc_err2 p a1 p.privateIpAddress d p.allowReassociation ii _ hchk hcm
        (.inl hfind) with ⟨m, s', hfl⟩
      have hrest := epr_fail p (if p.inVpc = true then some "vpc" else none) a1 ch0
        p.privateIpAddress d p.reuseExistingIpAllowed p.allowReassociation ii
        (St.mk cB lgA) m s' hdt hvc hfl
      rw [← hdeq] at hrest
      exact absurd h1 (fun h1 => ln_alloc_rest_fail_contra p c ii stv (some a1) ch0
        (St.mk cB lgA) m s' r1 s1 hstate hcm hci hst hdev hloc hAl hrest h1)
    · have hfind := find?_eq_of_filter_single hqt
      cases hbusy : (addrAssociated a1 && !p.allowReassociation) with
      | true =>
        rcases assoc_err2 p a1 p.privateIpAddress d p.allowReassociation ii _ hchk hcm
          (.inr ⟨a1, hfind, hbusy⟩) with ⟨m, s', hfl⟩
        have hrest := epr_fail p (if p.inVpc = true then some "vpc" else none) a1 ch0
          p.privateIpAddress d p.reuseExistingIpAllowed p.allowReassociation ii
          (St.mk cB lgA) m s' hdt hvc hfl
        rw [← hdeq] at hrest
        exact absurd h1 (fun h1 => ln_alloc_rest_fail_contra p c ii stv (some a1) ch0
          (St.mk cB lgA) m s' r1 s1 hstate hcm hci hst hdev hloc hAl hrest h1)
      | false =>
        have hA := assoc_do2 p a1 p.privateIpAddress d p.allowReassociation ii _ a1
          hchk hcm hfind hbusy
        have hrest := epr_crash p (if p.inVpc = true then some "vpc" else none) a1 ch0
          p.privateIpAddress d p.reuseExistingIpAllowed p.allowReassociation ii
          (St.mk cB lgA) true _ hdt hvc hA haidn
        rw [← hdeq] at hrest
        exact absurd h1 (fun h1 => ln_alloc_rest_crash_contra p c ii stv (some a1) ch0
          (St.mk cB lgA) "KeyError: AllocationId" _ r1 s1 hstate hcm hci hst hdev
          hloc hAl hrest h1)
  · rw [Classical.not_imp] at hgood
    obtain ⟨hii, hgood2⟩ := hgood
    rw [Classical.not_imp] at hgood2
    obtain ⟨hre, hvo'⟩ := hgood2
    have hvo : vpcOk (if p.inVpc = true then some "vpc" else none)
        (findDeviceVal cB d true) = false := by
      cases h : vpcOk (if p.inVpc = true then some "vpc" else none)
          (findDeviceVal cB d true) with
      | true => exact absurd h hvo'
      | false => rfl
    subst hii
    rcases epr_vpcbad p (if p.inVpc = true then some "vpc" else none) a1 ch0
      p.privateIpAddress d p.allowReassociation (St.mk cB lgA) hdt hvo
      with ⟨m, s2, hf⟩ | ⟨m, s2, hcr⟩
    · have hrest : ensure_present_rest p (if p.inVpc = true then some "vpc" else none)
          (some a1) ch0 p.privateIpAddress p.deviceId p.reuseExistingIpAllowed
          p.allowReassociation true (St.mk cB lgA) = (.failed m, s2) := by
        rw [hdeq, hre]
        exact hf
      exact absurd h1 (fun h1 => ln_alloc_rest_fail_contra p c true stv (some a1) ch0
        (St.mk cB lgA) m s2 r1 s1 hstate hcm hci hst hdev hloc hAl hrest h1)
    · have hrest : ensure_present_rest p (if p.inVpc = true then some "vpc" else none)
          (some a1) ch0 p.privateIpAddress p.deviceId p.reuseExistingIpAllowed
          p.allowReassociation true (St.mk cB lgA) = (.crashed m, s2) := by
        rw [hdeq, hre]
        exact hcr
      exact absurd h1 (fun h1 => ln_alloc_rest_crash_contra p c true stv (some a1) ch0
        (St.mk cB lgA) m s2 r1 s1 hstate hcm hci hst hdev hloc hAl hrest h1)

end Ec2Eip

namespace Ec2Eip

/-- Well-formedness facts of the cloud extended by a freshly minted
address: distinctness is preserved, the new address is listed, and no
listed address is bound to the device. -/
theorem fresh_app_facts (c : Cloud) (n : Nat) (domainR : String) (ts : Tags) (ii : Bool)
    (d : String)
    (hwf : cloudWf c = true)
    (hips : publicIpsDistinct c.addresses = true)
    (hdist : allocIdsDistinct c.addresses = true)
    (hall : ∀ x ∈ c.addresses,
      (if ii then x.instanceId == some d else x.networkInterfaceId == some d) = false)
    (hn : n = c.fresh) :
    publicIpsDistinct (c.addresses ++ [freshAddress n domainR ts]) = true
    ∧ allocIdsDistinct (c.addresses ++ [freshAddress n domainR ts]) = true
    ∧ freshAddress n domainR ts ∈ c.addresses ++ [freshAddress n domainR ts]
    ∧ (∀ x ∈ c.addresses ++ [freshAddress n domainR ts],
        (if ii then x.instanceId == some d else x.networkInterfaceId == some d)
          = false) := by
  subst hn
  refine ⟨?_, ?_, ?_, ?_⟩
  · exact publicIpsDistinct_append_one hips (fun x hx => cloudWf_ip_ne hwf hx c.fresh)
  · refine allocIdsDistinct_append_one hdist (fun a ha x hax => ?_)
    have hne : a.allocationId ≠ some (freshAllocId c.fresh) :=
      cloudWf_alloc_ne hwf ha c.fresh
    rw [hax] at hne
    have hxne : freshAllocId c.fresh ≠ x := fun he => hne (by rw [he])
    show ((if domainR == "vpc" then some (freshAllocId c.fresh) else none : Option String)
        == some x) = false
    cases hdd : (domainR == "vpc") with
    | true => simp [hdd, hxne]
    | false => simp [hdd]
  · exact List.mem_append.mpr (.inr (List.mem_cons_self _ _))
  · intro x hx
    rcases List.mem_append.mp hx with hold | hnew
    · exact hall x hold
    · have hxf : x = freshAddress c.fresh domainR ts := by simpa using hnew
      subst hxf
      cases ii with
      | true => simp [freshAddress]
      | false => simp [freshAddress]

/-- First-run leaf: device named, falsy public IP, nothing attached to the
device yet — the run allocates or reuses an address and associates it; the
second run reports `changed=false`. -/
theorem ln_alloc (p : Params) (c : Cloud) (ii : Bool) (stv : Option SearchTags)
    (d : String) (r1 : ModuleResult) (s1 : St)
    (hstate : p.state = "present") (hcm : p.checkMode = false)
    (hwf : cloudWf c = true)
    (hips : publicIpsDistinct c.addresses = true)
    (hdist : allocIdsDistinct c.addresses = true)
    (hci : check_is_instance p.deviceId p.inVpc = .ok ii)
    (hst : tagDictRes p.tagName p.tagValue = .ok stv)
    (hdeq : p.deviceId = some d) (hdt : pyTruthyStr (some d) = true)
    (hipf : pyTruthyStr p.publicIp = false)
    (hqnil : describeQuery c { filters := [if ii then .instanceId d
      else .networkInterfaceId d] } = [])
    (h1 : run p c = (.exited r1, s1)) :
    ∃ r2 s2, run p s1.cloud = (.exited r2, s2) ∧ r2.changed = false := by
  have hdev : pyTruthyStr p.deviceId = true := by rw [hdeq]; exact hdt
  have hloc : find_address p p.publicIp p.deviceId ii (St.mk c [])
      = (.ok none, St.mk c [ApiCall.describeAddresses]) := by
    rw [hdeq]
    exact find_address_empty_present p _ _ ii _ _
      (findAddressArgs_dev2 p.publicIp d ii hipf hdt) hstate hqnil
  have hall : ∀ x ∈ c.addresses,
      (if ii then x.instanceId == some d else x.networkInterfaceId == some d)
        = false := by
    rw [describeQuery_dev] at hqnil
    exact filter_eq_nil_all hqnil
  cases hre : p.reuseExistingIpAllowed with
  | false =>
    have hAl : allocate_address (if p.inVpc = true then some "vpc" else none)
        p.reuseExistingIpAllowed false p.tags none none
        (St.mk c [ApiCall.describeAddresses])
        = (.ok (some (freshAddress c.fresh
            (resolveDomain (if p.inVpc = true then some "vpc" else none))
            (tagSpecArg p.tags)), true),
           St.mk
             { c with
               addresses := c.addresses
                 ++ [freshAddress c.fresh
                     (resolveDomain (if p.inVpc = true then some "vpc" else none))
                     (tagSpecArg p.tags)]
               fresh := c.fresh + 1 }
             ([ApiCall.describeAddresses] ++ [ApiCall.allocateAddress])) := by
      rw [hre]
      exact allocate_address_fresh _ p.tags _
    obtain ⟨hipsA, hdistA, hmemA, hallA⟩ := fresh_app_facts c c.fresh
      (resolveDomain (if p.inVpc = true then some "vpc" else none))
      (tagSpecArg p.tags) ii d hwf hips hdist hall rfl
    exact ln_alloc_rest p c ii stv _ _ true d _ r1 s1 hstate hcm hci hst hdeq hdt hipf
      hloc hAl hipsA hdistA hmemA hallA
      (fun hf => absurd ((pyTruthyStr_freshIp c.fresh).symm.trans hf) (by decide)) h1
  | true =>
    cases hscan : reuseScanVal
        (resolveDomain (if p.inVpc = true then some "vpc" else none))
        (describeQuery c
          { filters := reuseFilters
              (resolveDomain (if p.inVpc = true then some "vpc" else none)) none }) with
    | error m =>
      have hAlc : allocate_address (if p.inVpc = true then some "vpc" else none)
          p.reuseExistingIpAllowed false p.tags none none
          (St.mk c [ApiCall.describeAddresses])
          = (.crashed m,
             St.mk c ([ApiCall.describeAddresses] ++ [ApiCall.describeAddresses])) := by
        rw [hre]
        exact alloc_reuse_crash _ false p.tags none none _ m hscan
      have hEPc := ep_alloc_crash_cm p (if p.inVpc = true then some "vpc" else none)
        ii (St.mk c [ApiCall.describeAddresses]) _ m hcm hAlc
      rw [run1_dev_crash p c ii stv none _ _ _ hstate hci hst hdev hloc hEPc] at h1
      simp at h1
    | ok o =>
      cases o with
      | none =>
        have hAl : allocate_address (if p.inVpc = true then some "vpc" else none)
            p.reuseExistingIpAllowed false p.tags none none
            (St.mk c [ApiCall.describeAddresses])
            = (.ok (some (freshAddress c.fresh
                (resolveDomain (if p.inVpc = true then some "vpc" else none))
                (tagSpecArg p.tags)), true),
               St.mk
                 { c with
                   addresses := c.addresses
                     ++ [freshAddress c.fresh
                         (resolveDomain (if p.inVpc = true then some "vpc" else none))
                         (tagSpecArg p.tags)]
                   fresh := c.fresh + 1 }
                 (([ApiCall.describeAddresses] ++ [ApiCall.describeAddresses])
                   ++ [ApiCall.allocateAddress])) := by
          rw [hre]
          exact alloc_reuse_miss _ p.tags none _ hscan
        obtain ⟨hipsA, hdistA, hmemA, hallA⟩ := fresh_app_facts c c.fresh
          (resolveDomain (if p.inVpc = true then some "vpc" else none))
          (tagSpecArg p.tags) ii d hwf hips hdist hall rfl
        exact ln_alloc_rest p c ii stv _ _ true d _ r1 s1 hstate hcm hci hst hdeq hdt
          hipf hloc hAl hipsA hdistA hmemA hallA
          (fun hf => absurd ((pyTruthyStr_freshIp c.fresh).symm.trans hf) (by decide)) h1
      | some astar =>
        have hAl : allocate_address (if p.inVpc = true then some "vpc" else none)
            p.reuseExistingIpAllowed false p.tags none none
            (St.mk c [ApiCall.describeAddresses])
            = (.ok (some astar, false),
               St.mk c ([ApiCall.describeAddresses] ++ [ApiCall.describeAddresses])) := by
          rw [hre]
          exact alloc_reuse_hit _ false p.tags none none _ astar hscan
        exact ln_alloc_rest p c ii stv c astar false d _ r1 s1 hstate hcm hci hst hdeq
          hdt hipf hloc hAl hips hdist (reuseScan_mem hscan).1 hall
          (fun _ => hqnil) h1

end Ec2Eip

namespace Ec2Eip

/-- A locator query matching two or more addresses fails with the
ambiguity message. -/
theorem find_address_many (p : Params) (pub dev : Option String) (ii : Bool) (s : St)
    (args : DescribeArgs) (x y : Address) (rest : List Address)
    (hargs : findAddressArgs pub dev ii = some args)
    (hq : describeQuery s.cloud args = x :: y :: rest) :
    find_address p pub dev ii s
      = (.failed (tooManyMsg args (x :: y :: rest)),
         { s with log := s.log ++ [.describeAddresses] }) := by
  unfold find_address
  rw [hargs]
  simp only [bind_apply, describe_addresses_apply, hq]
  rfl

/-- First-run leaf: no device named, the requested public IP is carried by
a listed address — the run reads it and reconciles tags only; the second
run reports `changed=false`. -/
theorem ln_nodev (p : Params) (c : Cloud) (ii : Bool) (stv : Option SearchTags)
    (a : Address) (r1 : ModuleResult) (s1 : St)
    (hstate : p.state = "present") (hcm : p.checkMode = false)
    (hips : publicIpsDistinct c.addresses = true)
    (hci : check_is_instance p.deviceId p.inVpc = .ok ii)
    (hst : tagDictRes p.tagName p.tagValue = .ok stv)
    (hdevf : pyTruthyStr p.deviceId = false)
    (hamem : a ∈ c.addresses)
    (hip : pyTruthyStr p.publicIp = true)
    (hipeq : p.publicIp = some a.publicIp)
    (h1 : run p c = (.exited r1, s1)) :
    ∃ r2 s2, run p s1.cloud = (.exited r2, s2) ∧ r2.changed = false := by
  have hipa : pyTruthyStr (some a.publicIp) = true := by rw [← hipeq]; exact hip
  have hiif : ii = false := by
    have hcif := check_is_instance_falsy p.inVpc hdevf
    rw [hcif] at hci
    exact (Except.ok.inj hci).symm
  have hloc : find_address p p.publicIp none true (St.mk c [])
      = (.ok (some a), St.mk c [ApiCall.describeAddresses]) := by
    rw [hipeq]
    refine find_address_single p _ none true _ _ a
      (findAddressArgs_pub a.publicIp none true hipa) ?_
    rw [describeQuery_ip]
    exact filter_ip_single hips hamem
  have hrun := run_to_present2 p c ii stv (some a)
    (St.mk c [ApiCall.describeAddresses]) hstate hci
    (by rw [generate_tag_dict_eval, hst])
    (by simp only [hdevf, Bool.false_eq_true, if_false]; exact hloc)
  cases haidc : a.allocationId with
  | none =>
    rw [hrun, mp_nodev_crash p _ ii stv a _ hdevf haidc] at h1
    simp at h1
  | some aid =>
    have hT := ensure_tags_eval p (some aid) p.tags c hcm [ApiCall.describeAddresses]
    have hmp := mp_nodev_ok p (if p.inVpc = true then some "vpc" else none) ii stv a
      (St.mk c [ApiCall.describeAddresses]) _ aid _ hdevf haidc hT
    rw [hrun, hmp] at h1
    obtain ⟨-, hs1⟩ := Prod.mk.injEq .. ▸ h1
    rw [← hs1]
    obtain ⟨g, hg, hgf⟩ := ensureTagsVal_shape p.purgeTags (some aid) p.tags c
    exact run2_noop p _ ii stv (g a) aid hstate hcm hci hst
      (by rw [hg]
          show publicIpsDistinct (c.addresses.map g) = true
          rw [publicIpsDistinct_map (fun x => (hgf x).1)]
          exact hips)
      (by rw [hg]; exact List.mem_map_of_mem g hamem)
      (by rw [(hgf a).2.1]; exact haidc)
      (.inl ⟨hip, by rw [(hgf a).1]; exact hipeq⟩)
      (fun hdevt => absurd (hdevf.symm.trans hdevt) (by decide))
      (fun d' hd' hii hre => absurd (hiif ▸ hii) (by decide))
      (ensureTagsVal_settled p.purgeTags (some aid) p.tags c)

end Ec2Eip

namespace Ec2Eip

/-- C5 (amended): for `state=present` outside check mode, over a cloud
whose addresses use none of the module's fresh identifiers and have
pairwise-distinct allocation ids and pairwise-distinct public IPs, when
the invocation names its target — a device id with a falsy `public_ip`, or
a `public_ip` carried by a listed address — a completed first run is
idempotent: a second run with identical parameters against the cloud the
first run produced exits and reports `changed=false`.  The unrestricted
claim is refuted by `present_idempotent_counterexample`. -/
theorem present_idempotent_when_target_named (p : Params) (c : Cloud)
    (r1 : ModuleResult) (s1 : St)
    (hstate : p.state = "present")
    (hcm : p.checkMode = false)
    (hwf : cloudWf c = true)
    (hdist : allocIdsDistinct c.addresses = true)
    (hips : publicIpsDistinct c.addresses = true)
    (htarget : (pyTruthyStr p.publicIp = false ∧ pyTruthyStr p.deviceId = true)
      ∨ (pyTruthyStr p.publicIp = true
          ∧ ∃ a, a ∈ c.addresses ∧ p.publicIp = some a.publicIp))
    (h1 : run p c = (.exited r1, s1)) :
    ∃ r2 s2, run p s1.cloud = (.exited r2, s2) ∧ r2.changed = false := by
  cases hcio : check_is_instance p.deviceId p.inVpc with
  | error e =>
    rw [run_check_error p c e hcio] at h1
    simp at h1
  | ok ii =>
    cases htd : tagDictRes p.tagName p.tagValue with
    | error m =>
      rw [run_tagdict_fail p c ii m hcio (by rw [generate_tag_dict_eval, htd])] at h1
      simp at h1
    | ok stv =>
      cases hdev : pyTruthyStr p.deviceId with
      | false =>
        rcases htarget with ⟨_, hdevt⟩ | ⟨hip, a, hamem, hipeq⟩
        · rw [hdevt] at hdev
          cases hdev
        · exact ln_nodev p c ii stv a r1 s1 hstate hcm hips hcio htd hdev hamem hip
            hipeq h1
      | true =>
        obtain ⟨d, hdeq, hdt⟩ := pyTruthyStr_some hdev
        by_cases hip : pyTruthyStr p.publicIp = true
        · rcases htarget with ⟨hipf, _⟩ | ⟨-, a, hamem, hipeq⟩
          · rw [hipf] at hip
            cases hip
          · have hipa : pyTruthyStr (some a.publicIp) = true := by
              rw [← hipeq]; exact hip
            cases hfield : (if ii then a.instanceId == some d
                else a.networkInterfaceId == some d) with
            | true =>
              have hloc : find_address p p.publicIp p.deviceId ii (St.mk c [])
                  = (.ok (some a), St.mk c [ApiCall.describeAddresses]) := by
                rw [hipeq, hdeq]
                refine find_address_single p _ _ ii _ _ a
                  (findAddressArgs_pub a.publicIp (some d) ii hipa) ?_
                rw [describeQuery_ip]
                exact filter_ip_single hips hamem
              exact ln_noop p c ii stv a d r1 s1 hstate hcm hips hcio htd hdeq hdt
                hamem hfield hloc
                (fun hf => absurd (hipa.symm.trans hf) (by decide))
                (fun hf => absurd (hip.symm.trans hf) (by decide))
                (fun _ => hipeq) h1
            | false =>
              exact ln_mut p c ii stv a d r1 s1 hstate hcm hips hdist hcio htd hdeq
                hdt hamem hip hipeq hfield h1
        · have hipf : pyTruthyStr p.publicIp = false := by simpa using hip
          cases hq : describeQuery c { filters := [if ii then .instanceId d
              else .networkInterfaceId d] } with
          | nil =>
            exact ln_alloc p c ii stv d r1 s1 hstate hcm hwf hips hdist hcio htd hdeq
              hdt hipf hq h1
          | cons a tail =>
            cases tail with
            | nil =>
              have hq2 := hq
              rw [describeQuery_dev] at hq2
              obtain ⟨hamem, hfield⟩ := filter_eq_single_mem hq2
              have hloc : find_address p p.publicIp p.deviceId ii (St.mk c [])
                  = (.ok (some a), St.mk c [ApiCall.describeAddresses]) := by
                rw [hdeq]
                exact find_address_single p _ _ ii _ _ a
                  (findAddressArgs_dev2 p.publicIp d ii hipf hdt) hq
              exact ln_noop p c ii stv a d r1 s1 hstate hcm hips hcio htd hdeq hdt
                hamem hfield hloc (fun _ => hq) (fun _ => hq)
                (fun hipt => absurd (hipf.symm.trans hipt) (by decide)) h1
            | cons b2 rest =>
              have hlocf : find_address p p.publicIp p.deviceId ii (St.mk c [])
                  = (.failed (tooManyMsg { filters := [if ii then .instanceId d
                      else .networkInterfaceId d] } (a :: b2 :: rest)),
                     St.mk c [ApiCall.describeAddresses]) := by
                rw [hdeq]
                exact find_address_many p _ _ ii _ _ a b2 rest
                  (findAddressArgs_dev2 p.publicIp d ii hipf hdt) hq
              rw [run_locator_fail2 p c ii stv _ _ hcio
                (by rw [generate_tag_dict_eval, htd])
                (by simp only [hdev, if_true]; exact hlocf)] at h1
              simp at h1

end Ec2Eip

namespace Ec2Eip

/-- Witness for C5's amended theorem: a present `public_ip` target over a
one-address cloud; the first run exits unchanged and the second run
reports `changed=false`. -/
theorem present_idempotent_when_target_named_witness :
    ∃ r2 s2,
      run { publicIp := some "203.0.113.6" }
          (St.mk { addresses := [addrVpcFree], instances := [], enis := [], fresh := 0 }
            [ApiCall.describeAddresses]).cloud
        = (.exited r2, s2) ∧ r2.changed = false :=
  present_idempotent_when_target_named { publicIp := some "203.0.113.6" }
    { addresses := [addrVpcFree], instances := [], enis := [], fresh := 0 }
    { changed := false, publicIp := some "203.0.113.6",
      allocationId := some "eipalloc-free" }
    (St.mk { addresses := [addrVpcFree], instances := [], enis := [], fresh := 0 }
      [ApiCall.describeAddresses])
    rfl rfl rfl rfl rfl
    (.inr ⟨rfl, addrVpcFree, List.mem_cons_self _ _, rfl⟩)
    rfl

/-- C5 counterexample to the unrestricted claim: a bare `state=present`
in a VPC (no device, no public IP) names no target, so each run allocates
a fresh address — both the first and the second run exit `changed=true`. -/
theorem present_idempotent_counterexample :
    ∃ r1 s1 r2 s2,
      run { inVpc := true } emptyCloud = (.exited r1, s1)
      ∧ r1.changed = true
      ∧ run { inVpc := true } s1.cloud = (.exited r2, s2)
      ∧ r2.changed = true :=
  ⟨_, _, _, _, rfl, rfl, rfl, rfl⟩

end Ec2Eip
